import Mathlib

/-!
# ws2812b-data: strip configuration, colour writes, bit-stream encoder, draw objects

A shallow embedding of `ws2812b_data.c` and of the parts of `ws2812b_draw.c`
that the statements below are about.

Conventions.

* `size_t` is an unsigned integer of `w` bits.  Values are natural numbers and
  every `size_t` operation of the source is written with its reduction modulo
  `2 ^ w` (`size_add`, `size_sub`, `size_mul`).
* `uint8_t` values are natural numbers; where the source narrows a wider
  intermediate result to `uint8_t` the reduction `% 256` is explicit.
* A buffer reached through a pointer (`p_buffer`, `p_stream`, `p_objs`) is a
  function from the element offset to the element stored there.  The size
  fields of the structures are separate numbers, exactly as in the source, so
  a store may land at an offset at or beyond the declared size.
-/

namespace WS2812B

/-! ## Machine arithmetic -/

/-- Addition of two `size_t` values, `a + b` in the source. -/
def size_add (w a b : Nat) : Nat := (a + b) % 2 ^ w

/-- Subtraction of two `size_t` values, `a - b` in the source (wraps below zero). -/
def size_sub (w a b : Nat) : Nat := (a + (2 ^ w - b % 2 ^ w)) % 2 ^ w

/-- Multiplication of two `size_t` values, `a * b` in the source. -/
def size_mul (w a b : Nat) : Nat := (a * b) % 2 ^ w

/-- The store `p[i] = v` on a buffer. -/
def store (p : Nat → Nat) (i v : Nat) : Nat → Nat :=
  fun j => if j = i then v else p j

/-! ## ws2812b_data.h -/

/-- Storage bytes per LED (`WS2812B_BYTES_PER_LED`). -/
def WS2812B_BYTES_PER_LED : Nat := 3

/-- Colour bits per LED (`WS2812B_BITS_PER_LED`). -/
def WS2812B_BITS_PER_LED : Nat := WS2812B_BYTES_PER_LED * 8

/-- Stream bits per LED at 2.5 MHz (`WS2812_BITS_PER_LED_2P5MHZ`). -/
def WS2812_BITS_PER_LED_2P5MHZ : Nat := WS2812B_BITS_PER_LED * 3

/-- Stream bits per LED at 5 MHz (`WS2812_BITS_PER_LED_5MHZ`). -/
def WS2812_BITS_PER_LED_5MHZ : Nat := WS2812B_BITS_PER_LED * 6

/-- Stream bytes per LED at 2.5 MHz (`WS2812_BYTES_PER_LED_2P5MHZ`). -/
def WS2812_BYTES_PER_LED_2P5MHZ : Nat := WS2812_BITS_PER_LED_2P5MHZ / 8

/-- Stream bytes per LED at 5 MHz (`WS2812_BYTES_PER_LED_5MHZ`). -/
def WS2812_BYTES_PER_LED_5MHZ : Nat := WS2812_BITS_PER_LED_5MHZ / 8

/-- The configuration state of a strip (`ws2812b_init_state_t`). -/
inductive ws2812b_init_state_t where
  | WS2812B_INIT_FAILED
  | WS2812B_INIT_2p5MHz
  | WS2812B_INIT_5MHz
  deriving DecidableEq, Repr

open ws2812b_init_state_t

/-- One LED strip (`ws2812b_t`).  `p_buffer_present` and `p_stream_present`
say whether the two pointers are non-NULL; `p_buffer` and `p_stream` are the
bytes they point to. -/
structure ws2812b_t where
  p_buffer_present : Bool
  p_buffer : Nat → Nat
  buffer_sz : Nat
  p_stream_present : Bool
  p_stream : Nat → Nat
  stream_sz : Nat
  led_count : Nat
  init_state : ws2812b_init_state_t

/-! ## ws2812b_data.c -/

/-- The function `ws2812b_data_init` for a non-NULL `p_instance`: the returned
flag and the strip afterwards. -/
def ws2812b_data_init (w : Nat) (p_instance : ws2812b_t)
    (desired_spi_clk : ws2812b_init_state_t) : Bool × ws2812b_t :=
  let s0 : ws2812b_t := { p_instance with init_state := WS2812B_INIT_FAILED }
  let s1 : ws2812b_t :=
    if s0.p_buffer_present && s0.p_stream_present then
      let b_size_check : Bool :=
        decide (size_mul w s0.led_count WS2812B_BYTES_PER_LED ≤ s0.buffer_sz)
      if b_size_check then
        let desired : Nat :=
          if WS2812B_INIT_2p5MHz = desired_spi_clk then
            WS2812_BYTES_PER_LED_2P5MHZ else WS2812_BYTES_PER_LED_5MHZ
        let b_size_check2 : Bool :=
          decide (size_mul w s0.led_count desired ≤ s0.stream_sz)
        { s0 with init_state :=
            if b_size_check2 then desired_spi_clk else WS2812B_INIT_FAILED }
      else s0
    else s0
  (decide (s1.init_state ≠ WS2812B_INIT_FAILED), s1)

/-- Distance, counted in wrapped steps of three, from `idx` to the top value
`M - 1` of a `size_t`; it bounds the remaining iterations of the store loop. -/
def set_x_loop_measure (M idx : Nat) : Nat :=
  let t := M - 1 - idx
  if t % 3 = 0 then t else if (t + M) % 3 = 0 then t + M else t + 2 * M

/-- The `for` loop of `ws2812b_data_set_x`:
`for (idx = start_idx; idx < num_of_bytes; idx += WS2812B_BYTES_PER_LED)`,
entered at `idx`, with `num_of_bytes = start_idx + led_num_to_set * 3`. -/
def set_x_loop (w start_idx led_num_to_set red green blue : Nat)
    (idx : Nat) (p_buffer : Nat → Nat) : Nat → Nat :=
  if _h : idx < size_add w start_idx (size_mul w led_num_to_set WS2812B_BYTES_PER_LED) then
    set_x_loop w start_idx led_num_to_set red green blue
      (size_add w idx WS2812B_BYTES_PER_LED)
      (store (store (store p_buffer idx green) (size_add w idx 1) red)
        (size_add w idx 2) blue)
  else p_buffer
termination_by set_x_loop_measure (2 ^ w) idx
decreasing_by
  have h3 : ∀ n : Nat, 2 ^ n % 3 = 1 ∨ 2 ^ n % 3 = 2 := by
    intro n
    induction n with
    | zero => left; rfl
    | succ n ih => rw [pow_succ]; omega
  have h3w := h3 w
  have hpos : 0 < 2 ^ w := Nat.pos_pow_of_pos w (by decide)
  have hnum := Nat.mod_lt (start_idx + size_mul w led_num_to_set WS2812B_BYTES_PER_LED) hpos
  have h : idx < size_add w start_idx (size_mul w led_num_to_set WS2812B_BYTES_PER_LED) := by
    assumption
  unfold size_add at h
  unfold size_add WS2812B_BYTES_PER_LED set_x_loop_measure
  generalize 2 ^ w = M at *
  generalize (start_idx + size_mul w led_num_to_set WS2812B_BYTES_PER_LED) % M = num at h hnum
  by_cases hlt : idx + 3 < M
  · rw [Nat.mod_eq_of_lt hlt]
    simp only []
    split_ifs <;> omega
  · have hM : M ≤ idx + 3 := Nat.le_of_not_lt hlt
    have hmod : (idx + 3) % M = idx + 3 - M := by
      rw [Nat.mod_eq_sub_mod hM]
      apply Nat.mod_eq_of_lt
      omega
    rw [hmod]
    simp only []
    split_ifs <;> omega

/-- The function `ws2812b_data_set_x`: the returned flag and the strip afterwards. -/
def ws2812b_data_set_x (w : Nat) (p_instance : ws2812b_t)
    (led_num_start led_num_to_set red green blue : Nat) : Bool × ws2812b_t :=
  if 0 < led_num_start then
    if p_instance.init_state ≠ WS2812B_INIT_FAILED then
      let led_idx := size_sub w led_num_start 1
      if p_instance.led_count > size_sub w (size_add w led_idx led_num_to_set) 1 then
        let start_idx := size_mul w led_idx WS2812B_BYTES_PER_LED
        (true, { p_instance with
          p_buffer := set_x_loop w start_idx led_num_to_set red green blue
            start_idx p_instance.p_buffer })
      else (false, p_instance)
    else (false, p_instance)
  else (false, p_instance)

/-- The function `ws2812b_data_set`. -/
def ws2812b_data_set (w : Nat) (p_instance : ws2812b_t)
    (led_num red green blue : Nat) : Bool × ws2812b_t :=
  ws2812b_data_set_x w p_instance led_num 1 red green blue

/-- The function `ws2812b_data_set_all`. -/
def ws2812b_data_set_all (w : Nat) (p_instance : ws2812b_t)
    (red green blue : Nat) : Bool × ws2812b_t :=
  ws2812b_data_set_x w p_instance 1 p_instance.led_count red green blue

/-- The function `ws2812b_data_clear_all`. -/
def ws2812b_data_clear_all (w : Nat) (p_instance : ws2812b_t) : Bool × ws2812b_t :=
  ws2812b_data_set_all w p_instance 0 0 0

/-- The locals of an `update_stream` function together with the stream buffer.
`stored` is a record of the offsets of `p_stream` that have been stored to,
most recent first; the source has no such variable. -/
structure stream_state where
  p_stream : Nat → Nat
  stream_index : Nat
  current_byte : Nat
  bit_in_byte : Nat
  stored : List Nat

/-- The table `bits_to_add` of `ws2812b_update_stream_2p5mhz`. -/
def bits_to_add_2p5mhz : List Nat := [1, 1, 0, 1, 0, 0]

/-- The table `bits_to_add` of `ws2812b_update_stream_5mhz`. -/
def bits_to_add_5mhz : List Nat := [1, 1, 1, 1, 0, 0, 1, 1, 0, 0, 0, 0]

/-- The body of the innermost loop of both `update_stream` functions, for the
stream bit `b = bits_to_add[k]`: shift it into `current_byte`, and store the
byte once eight bits are in. -/
def stream_push (w : Nat) (st : stream_state) (b : Nat) : stream_state :=
  let current_byte := ((st.current_byte <<< 1) ||| b) % 256
  let bit_in_byte := st.bit_in_byte + 1
  if bit_in_byte = 8 then
    { p_stream := store st.p_stream st.stream_index current_byte
      stream_index := size_add w st.stream_index 1
      current_byte := 0
      bit_in_byte := 0
      stored := st.stream_index :: st.stored }
  else
    { st with current_byte := current_byte, bit_in_byte := bit_in_byte }

/-- The loop `for (int j = 0; j < n; j++)` for one colour bit: `n` stream bits
taken from `bits_to_add` at `k = (original_bit == 1) ? j : (j + n)`. -/
def stream_bit (w n : Nat) (bits_to_add : List Nat) (st : stream_state)
    (original_bit : Nat) : stream_state :=
  (List.range n).foldl
    (fun st j =>
      let k := if original_bit = 1 then j else j + n
      stream_push w st (bits_to_add.getD k 0))
    st

/-- The loop `for (int bit = 7; bit >= 0; bit--)` for the colour byte `byte`,
with `original_bit = (byte >> bit) & 1`. -/
def stream_byte (w n : Nat) (bits_to_add : List Nat) (st : stream_state)
    (byte : Nat) : stream_state :=
  [7, 6, 5, 4, 3, 2, 1, 0].foldl
    (fun st bit => stream_bit w n bits_to_add st ((byte >>> bit) &&& 1))
    st

/-- The part of an `update_stream` function inside the state test: the loop
over the `buffer_sz` colour bytes and the handling of a last byte that is not
full.  `n` is the number of stream bits per colour bit. -/
def update_stream_run (w n : Nat) (bits_to_add : List Nat) (p_instance : ws2812b_t) :
    stream_state :=
  let st0 : stream_state :=
    { p_stream := p_instance.p_stream, stream_index := 0, current_byte := 0,
      bit_in_byte := 0, stored := [] }
  let st1 := (List.range p_instance.buffer_sz).foldl
    (fun st i => stream_byte w n bits_to_add st (p_instance.p_buffer i)) st0
  if st1.bit_in_byte ≠ 0 then
    let current_byte := (st1.current_byte <<< (8 - st1.bit_in_byte)) % 256
    { st1 with
      current_byte := current_byte
      p_stream := store st1.p_stream st1.stream_index current_byte
      stored := st1.stream_index :: st1.stored }
  else st1

/-- The function `ws2812b_update_stream_2p5mhz`: the strip afterwards. -/
def ws2812b_update_stream_2p5mhz (w : Nat) (p_instance : ws2812b_t) : ws2812b_t :=
  if p_instance.init_state = WS2812B_INIT_2p5MHz then
    { p_instance with p_stream := (update_stream_run w 3 bits_to_add_2p5mhz p_instance).p_stream }
  else p_instance

/-- The offsets of `p_stream` that `ws2812b_update_stream_2p5mhz` stores to,
most recent first. -/
def ws2812b_update_stream_2p5mhz_stored (w : Nat) (p_instance : ws2812b_t) : List Nat :=
  if p_instance.init_state = WS2812B_INIT_2p5MHz then
    (update_stream_run w 3 bits_to_add_2p5mhz p_instance).stored
  else []

/-- The function `ws2812b_update_stream_5mhz`: the strip afterwards. -/
def ws2812b_update_stream_5mhz (w : Nat) (p_instance : ws2812b_t) : ws2812b_t :=
  if p_instance.init_state = WS2812B_INIT_5MHz then
    { p_instance with p_stream := (update_stream_run w 6 bits_to_add_5mhz p_instance).p_stream }
  else p_instance

/-- The offsets of `p_stream` that `ws2812b_update_stream_5mhz` stores to,
most recent first. -/
def ws2812b_update_stream_5mhz_stored (w : Nat) (p_instance : ws2812b_t) : List Nat :=
  if p_instance.init_state = WS2812B_INIT_5MHz then
    (update_stream_run w 6 bits_to_add_5mhz p_instance).stored
  else []

/-! ## ws2812b_draw_common.h -/

/-- The direction of travel of an object (`ws2812b_direction_t`). -/
inductive ws2812b_direction_t where
  | DIRECTION_NOT_MOVING
  | DIRECTION_FORWARD
  | DIRECTION_REVERSE
  deriving DecidableEq, Repr

/-- What to draw for an object (`ws2812b_draw_action_t`). -/
inductive ws2812b_draw_action_t where
  | DRAW_ACTION_NO_DRAW
  | DRAW_ACTION_SOLID
  | DRAW_ACTION_BLINK_TRANSPARENT
  | DRAW_ACTION_BLINK_BLACK
  deriving DecidableEq, Repr

/-- The blink state of an object (`ws2812b_blink_state_t`). -/
inductive ws2812b_blink_state_t where
  | BLINK_STATE_ON
  | BLINK_STATE_OFF
  deriving DecidableEq, Repr

/-- One drawable object (`ws2812b_draw_object_t`). -/
structure ws2812b_draw_object_t where
  action : ws2812b_draw_action_t
  blink_state : ws2812b_blink_state_t
  blink_rate_ms : Int
  duration_ms : Int
  length : Nat
  position : Nat
  red : Nat
  green : Nat
  blue : Nat
  direction : ws2812b_direction_t
  increment_rate_ms : Nat
  b_grow : Bool
  b_reverse : Bool
  start_position : Nat
  end_position : Nat
  b_hit_end : Bool
  deriving DecidableEq, Repr

/-! ## ws2812b_draw.c -/

/-- The file-scope variables of `ws2812b_draw.c`.  `p_strip_present` and
`p_objs_present` say whether the two pointers are non-NULL; `p_strip` is the
strip and `p_objs` the object array they point to. -/
structure draw_globals where
  p_strip_present : Bool
  p_strip : ws2812b_t
  p_objs_present : Bool
  p_objs : Nat → ws2812b_draw_object_t
  objects_count : Nat
  tick_ms_elapsed : Int
  tick_ms_value : Int

/-- The function `ws2812b_draw_get_obj_overlap`; it changes no variable. -/
def ws2812b_draw_get_obj_overlap (w : Nat) (g : draw_globals)
    (element_1 element_2 : Nat) : Bool :=
  if g.p_objs_present && decide (g.objects_count > element_1)
      && decide (g.objects_count > element_2) then
    let e1_start := (g.p_objs element_1).position
    let e1_end := size_sub w (size_add w e1_start (g.p_objs element_1).length) 1
    let e2_start := (g.p_objs element_2).position
    let e2_end := size_sub w (size_add w e2_start (g.p_objs element_2).length) 1
    (decide (e1_start ≤ e2_start) && decide (e1_end ≥ e2_start)) ||
      (decide (e1_start ≤ e2_end) && decide (e1_end ≥ e2_end))
  else false

/-- The value of an `int32_t` object after a wider result is stored in it
(two's complement).  The source's `int32_t` additions are written with it. -/
def int32_wrap (x : Int) : Int := (x + 2147483648) % 4294967296 - 2147483648

/-- Conversion of an `int32_t` value to `size_t`. -/
def size_of_int32 (w : Nat) (x : Int) : Nat := (x % (2 : Int) ^ w).toNat

/-- The remainder `a % b` of an `int32_t` `a` by a `size_t` `b`, as in
`tick_ms_elapsed % p_obj->increment_rate_ms`.  When `size_t` has at least 32
bits, `a` is converted to `size_t` and the remainder is unsigned; with a
narrower `size_t`, `b` is converted to the 32-bit signed type and the
remainder is signed.  The source evaluates it only for `0 < b`. -/
def rem_int32_size (w : Nat) (a : Int) (b : Nat) : Int :=
  if 32 ≤ w then ((size_of_int32 w a % b : Nat) : Int) else Int.tmod a (b : Int)

/-- The store `p_objs[element] = o`. -/
def set_obj (p_objs : Nat → ws2812b_draw_object_t) (element : Nat)
    (o : ws2812b_draw_object_t) : Nat → ws2812b_draw_object_t :=
  fun i => if i = element then o else p_objs i

/-- The function `ws2812b_draw_set_duration`. -/
def ws2812b_draw_set_duration (g : draw_globals) (element : Nat) (duration_ms : Int) :
    draw_globals :=
  if g.p_objs_present && decide (element < g.objects_count) then
    if 0 ≤ duration_ms then
      { g with
        p_objs := set_obj g.p_objs element
          { g.p_objs element with
            duration_ms := int32_wrap (g.tick_ms_elapsed + duration_ms) } }
    else
      { g with
        p_objs := set_obj g.p_objs element
          { g.p_objs element with duration_ms := 0x7FFFFFFF } }
  else g

/-- The function `ws2812b_draw_get_hit`: the returned flag and the variables
afterwards. -/
def ws2812b_draw_get_hit (g : draw_globals) (element : Nat) : Bool × draw_globals :=
  if g.p_objs_present && decide (element < g.objects_count) then
    if (g.p_objs element).b_hit_end then
      (true, { g with
        p_objs := set_obj g.p_objs element { g.p_objs element with b_hit_end := false } })
    else (false, g)
  else (false, g)

/-- The function `ws2812b_position_in_range`. -/
def ws2812b_position_in_range (led_count position : Nat) : Bool :=
  decide (led_count ≥ position)

/-- The effect of `ws2812b_update_position` on the object `*p_obj`, for the
local `led_count` and the value `elapsed` of `tick_ms_elapsed`. -/
def update_position_obj (w led_count : Nat) (elapsed : Int)
    (p_obj : ws2812b_draw_object_t) : ws2812b_draw_object_t :=
  let b_ok : Bool :=
    decide (ws2812b_direction_t.DIRECTION_NOT_MOVING ≠ p_obj.direction) &&
    decide (0 < p_obj.increment_rate_ms) &&
    ws2812b_position_in_range led_count p_obj.start_position &&
    ws2812b_position_in_range led_count p_obj.end_position
  if b_ok then
    if 0 = rem_int32_size w elapsed p_obj.increment_rate_ms then
      if ws2812b_direction_t.DIRECTION_FORWARD = p_obj.direction then
        if p_obj.b_grow then
          let position := p_obj.start_position
          let length := size_add w p_obj.length 1
          let curr_pos := size_add w position length
          let end_length := size_sub w p_obj.end_position p_obj.start_position
          let o1 : ws2812b_draw_object_t :=
            { p_obj with
              position := position
              length := if ws2812b_position_in_range led_count curr_pos then length
                else end_length }
          if p_obj.end_position ≤ curr_pos then
            { o1 with
              direction := if p_obj.b_reverse then ws2812b_direction_t.DIRECTION_REVERSE
                else ws2812b_direction_t.DIRECTION_FORWARD
              b_hit_end := true }
          else o1
        else
          let position := size_add w p_obj.position 1
          let o1 : ws2812b_draw_object_t :=
            { p_obj with
              position := if ws2812b_position_in_range led_count position then position
                else p_obj.end_position }
          if p_obj.end_position ≤ o1.position then
            { o1 with
              direction := if p_obj.b_reverse then ws2812b_direction_t.DIRECTION_REVERSE
                else ws2812b_direction_t.DIRECTION_FORWARD
              b_hit_end := true }
          else o1
      else if ws2812b_direction_t.DIRECTION_REVERSE = p_obj.direction then
        if p_obj.b_grow then
          let position := p_obj.start_position
          let length := size_sub w p_obj.length 1
          let curr_pos := size_add w position length
          let o1 : ws2812b_draw_object_t :=
            { p_obj with
              position := position
              length := if ws2812b_position_in_range led_count curr_pos then length else 0 }
          if p_obj.start_position ≥ curr_pos then
            { o1 with
              direction := if p_obj.b_reverse then ws2812b_direction_t.DIRECTION_FORWARD
                else ws2812b_direction_t.DIRECTION_REVERSE
              b_hit_end := true }
          else o1
        else
          let position := size_sub w p_obj.position 1
          let o1 : ws2812b_draw_object_t :=
            { p_obj with
              position := if ws2812b_position_in_range led_count position then position
                else p_obj.start_position }
          if p_obj.start_position ≥ o1.position then
            { o1 with
              direction := if p_obj.b_reverse then ws2812b_direction_t.DIRECTION_FORWARD
                else ws2812b_direction_t.DIRECTION_REVERSE
              b_hit_end := true }
          else o1
      else p_obj
    else p_obj
  else p_obj

/-- The function `ws2812b_update_position`, with
`led_count = (int32_t)p_strip->led_count` converted back to `size_t`. -/
def ws2812b_update_position (w : Nat) (g : draw_globals) (element : Nat) : draw_globals :=
  let led_count := size_of_int32 w (int32_wrap g.p_strip.led_count)
  { g with
    p_objs := set_obj g.p_objs element
      (update_position_obj w led_count g.tick_ms_elapsed (g.p_objs element)) }

/-- The function `ws2812b_draw_object`.  The blink test
`0 == (tick_ms_elapsed % p_obj->blink_rate_ms)` is a signed remainder; the
source leaves it undefined for a zero divisor and for `INT32_MIN % -1`, where
this definition has the value of `Int.tmod`. -/
def ws2812b_draw_object (w : Nat) (g : draw_globals) (element : Nat) : draw_globals :=
  if g.objects_count > element then
    let p_obj := g.p_objs element
    if ws2812b_draw_action_t.DRAW_ACTION_NO_DRAW ≠ p_obj.action then
      let b_expired : Bool := decide (g.tick_ms_elapsed ≥ p_obj.duration_ms)
      if !b_expired then
        if ws2812b_draw_action_t.DRAW_ACTION_SOLID = p_obj.action then
          { g with
            p_strip := (ws2812b_data_set_x w g.p_strip p_obj.position p_obj.length
              p_obj.red p_obj.green p_obj.blue).2 }
        else if ws2812b_draw_action_t.DRAW_ACTION_BLINK_BLACK = p_obj.action ∨
            ws2812b_draw_action_t.DRAW_ACTION_BLINK_TRANSPARENT = p_obj.action then
          let blink_state : ws2812b_blink_state_t :=
            if 0 = Int.tmod g.tick_ms_elapsed p_obj.blink_rate_ms then
              (if ws2812b_blink_state_t.BLINK_STATE_ON = p_obj.blink_state then
                ws2812b_blink_state_t.BLINK_STATE_OFF
              else ws2812b_blink_state_t.BLINK_STATE_ON)
            else p_obj.blink_state
          let g1 : draw_globals :=
            { g with
              p_objs := set_obj g.p_objs element { p_obj with blink_state := blink_state } }
          if ws2812b_blink_state_t.BLINK_STATE_ON = blink_state then
            { g1 with
              p_strip := (ws2812b_data_set_x w g.p_strip p_obj.position p_obj.length
                p_obj.red p_obj.green p_obj.blue).2 }
          else if ws2812b_draw_action_t.DRAW_ACTION_BLINK_TRANSPARENT ≠ p_obj.action then
            { g1 with
              p_strip := (ws2812b_data_set_x w g.p_strip p_obj.position p_obj.length
                0 0 0).2 }
          else g1
        else
          { g with
            p_strip := (ws2812b_data_set_x w g.p_strip p_obj.position p_obj.length
              0 0 0).2 }
      else g
    else g
  else g

/-- The effect of `ws2812b_draw_object` on the object `p_objs[element]`: only
a blink action of an unexpired object touches it, and only its `blink_state`. -/
def draw_object_obj (objects_count : Nat) (elapsed : Int) (element : Nat)
    (p_obj : ws2812b_draw_object_t) : ws2812b_draw_object_t :=
  if objects_count > element ∧
      ws2812b_draw_action_t.DRAW_ACTION_NO_DRAW ≠ p_obj.action ∧
      ¬ elapsed ≥ p_obj.duration_ms ∧
      ws2812b_draw_action_t.DRAW_ACTION_SOLID ≠ p_obj.action ∧
      (ws2812b_draw_action_t.DRAW_ACTION_BLINK_BLACK = p_obj.action ∨
        ws2812b_draw_action_t.DRAW_ACTION_BLINK_TRANSPARENT = p_obj.action) then
    { p_obj with
      blink_state :=
        if 0 = Int.tmod elapsed p_obj.blink_rate_ms then
          (if ws2812b_blink_state_t.BLINK_STATE_ON = p_obj.blink_state then
            ws2812b_blink_state_t.BLINK_STATE_OFF
          else ws2812b_blink_state_t.BLINK_STATE_ON)
        else p_obj.blink_state }
  else p_obj

/-- The effect of `ws2812b_draw_object` on the strip `*p_strip`, for the
object `p_obj = p_objs[element]` as it is before the call. -/
def draw_object_strip (w objects_count : Nat) (elapsed : Int) (element : Nat)
    (p_obj : ws2812b_draw_object_t) (p_strip : ws2812b_t) : ws2812b_t :=
  if objects_count > element ∧
      ws2812b_draw_action_t.DRAW_ACTION_NO_DRAW ≠ p_obj.action ∧
      ¬ elapsed ≥ p_obj.duration_ms then
    if ws2812b_draw_action_t.DRAW_ACTION_SOLID = p_obj.action ∨
        ws2812b_blink_state_t.BLINK_STATE_ON
          = (draw_object_obj objects_count elapsed element p_obj).blink_state then
      (ws2812b_data_set_x w p_strip p_obj.position p_obj.length
        p_obj.red p_obj.green p_obj.blue).2
    else if ws2812b_draw_action_t.DRAW_ACTION_BLINK_TRANSPARENT ≠ p_obj.action then
      (ws2812b_data_set_x w p_strip p_obj.position p_obj.length 0 0 0).2
    else p_strip
  else p_strip

/-- The function `ws2812b_draw`. -/
def ws2812b_draw (w : Nat) (g : draw_globals) (tick_ms : Int) : draw_globals :=
  let g1 : draw_globals :=
    { g with
      tick_ms_elapsed := int32_wrap (g.tick_ms_elapsed + tick_ms)
      tick_ms_value := tick_ms }
  if g1.p_objs_present && g1.p_strip_present && decide (0 < g1.objects_count) then
    let g2 : draw_globals :=
      { g1 with p_strip := (ws2812b_data_clear_all w g1.p_strip).2 }
    (List.range g2.objects_count).foldl
      (fun g idx => ws2812b_update_position w (ws2812b_draw_object w g idx) idx) g2
  else g1

/-- The strip after the first `n` objects `p_objs[0..n)` have been rendered in
order into `p_strip`. -/
def render_strips (w objects_count : Nat) (elapsed : Int)
    (p_objs : Nat → ws2812b_draw_object_t) (n : Nat) (p_strip : ws2812b_t) : ws2812b_t :=
  (List.range n).foldl
    (fun s k => draw_object_strip w objects_count elapsed k (p_objs k) s) p_strip

/-- The frame as the design describes it: add the tick to the counter, and,
when bound with a non-empty registry, clear the colour buffer, render all
objects in registration order, and only then advance the motion of all
objects in registration order. -/
def draw_render_then_advance (w : Nat) (g : draw_globals) (tick_ms : Int) : draw_globals :=
  let g1 : draw_globals :=
    { g with
      tick_ms_elapsed := int32_wrap (g.tick_ms_elapsed + tick_ms)
      tick_ms_value := tick_ms }
  if g1.p_objs_present && g1.p_strip_present && decide (0 < g1.objects_count) then
    let g2 : draw_globals :=
      { g1 with p_strip := (ws2812b_data_clear_all w g1.p_strip).2 }
    let g3 : draw_globals :=
      (List.range g2.objects_count).foldl (fun g idx => ws2812b_draw_object w g idx) g2
    (List.range g3.objects_count).foldl (fun g idx => ws2812b_update_position w g idx) g3
  else g1

/-- One 100 ms tick followed by a read of the completion latch of `element`:
the value read and the variables afterwards. -/
def tick_then_read (w element : Nat) (g : draw_globals) : Bool × draw_globals :=
  ws2812b_draw_get_hit (ws2812b_draw w g 100) element

/-- The variables after `k` ticks of 100 ms, each followed by a read of the
completion latch of `element`. -/
def after_ticks_with_reads (w element : Nat) : Nat → draw_globals → draw_globals
  | 0, g => g
  | k + 1, g => (tick_then_read w element (after_ticks_with_reads w element k g)).2

/-- The object of the traversal scenario at position `k`: direction Forward,
`start_position = 0`, `end_position = 5`, `increment_rate_ms = 100`, grow and
reverse flags clear, latch clear.  The other fields are free. -/
def traversal_object (o : ws2812b_draw_object_t) (k : Nat) : Prop :=
  o.direction = ws2812b_direction_t.DIRECTION_FORWARD ∧ o.position = k ∧
  o.start_position = 0 ∧ o.end_position = 5 ∧ o.increment_rate_ms = 100 ∧
  o.b_grow = false ∧ o.b_reverse = false ∧ o.b_hit_end = false

/-- The state of the traversal scenario after `k` ticks and reads: bound, the
counter at `100 * k`, the strip with `led_count = lc`, the element in range
and its object at position `k`. -/
def traversal_state (g : draw_globals) (element lc k : Nat) : Prop :=
  g.p_objs_present = true ∧ g.p_strip_present = true ∧ element < g.objects_count ∧
  g.tick_ms_elapsed = 100 * (k : Int) ∧ g.p_strip.led_count = lc ∧
  traversal_object (g.p_objs element) k

/-- The constant `WS2812_POWER_VAL` (`WS2812_LOW_POWER_VAL`, `0x3F`). -/
def WS2812_POWER_VAL : Nat := 0x3F

/-- The function `ws2812b_draw_set_color`. -/
def ws2812b_draw_set_color (g : draw_globals) (element red green blue : Nat) : draw_globals :=
  if g.p_objs_present && decide (element < g.objects_count) then
    { g with
      p_objs := set_obj g.p_objs element
        { g.p_objs element with red := red, green := green, blue := blue } }
  else g

/-- The static locals `red`, `green`, `blue` (each a `uint8_t`) of
`ws2812b_draw_effect_transition_colors`: the colour cursor shared by all calls. -/
structure transition_colors_statics where
  red : Nat
  green : Nat
  blue : Nat
deriving DecidableEq

/-- The initialisers of the static locals: `red = WS2812_POWER_VAL`,
`green = 0x0`, `blue = 0x0`. -/
def transition_colors_statics_init : transition_colors_statics :=
  { red := WS2812_POWER_VAL, green := 0, blue := 0 }

/-- The compound assignment `x += step` of a `uint8_t x` and a `uint32_t step`. -/
def uint8_add_uint32 (x step : Nat) : Nat := (x + step % 4294967296) % 256

/-- The compound assignment `x -= step` of a `uint8_t x` and a `uint32_t step`. -/
def uint8_sub_uint32 (x step : Nat) : Nat := (x + 4294967296 - step % 4294967296) % 256

/-- The "Transition logic" chain of `ws2812b_draw_effect_transition_colors`. -/
def transition_logic (step : Nat) (c : transition_colors_statics) : transition_colors_statics :=
  if c.red = WS2812_POWER_VAL ∧ c.green < WS2812_POWER_VAL ∧ c.blue = 0 then
    { c with green := uint8_add_uint32 c.green step }
  else if c.green = WS2812_POWER_VAL ∧ c.red > 0 then
    { c with red := uint8_sub_uint32 c.red step }
  else if c.green = WS2812_POWER_VAL ∧ c.blue < WS2812_POWER_VAL then
    { c with blue := uint8_add_uint32 c.blue step }
  else if c.blue = WS2812_POWER_VAL ∧ c.green > 0 then
    { c with green := uint8_sub_uint32 c.green step }
  else if c.blue = WS2812_POWER_VAL ∧ c.red < WS2812_POWER_VAL then
    { c with red := uint8_add_uint32 c.red step }
  else if c.red = WS2812_POWER_VAL ∧ c.blue > 0 then
    { c with blue := uint8_sub_uint32 c.blue step }
  else c

/-- The statics after one triggered update: the transition logic, then the
three assignments `x = (WS2812_POWER_VAL < x) ? WS2812_POWER_VAL : x`. -/
def transition_colors_update (step : Nat) (c : transition_colors_statics) :
    transition_colors_statics :=
  let c1 := transition_logic step c
  { red := if WS2812_POWER_VAL < c1.red then WS2812_POWER_VAL else c1.red,
    green := if WS2812_POWER_VAL < c1.green then WS2812_POWER_VAL else c1.green,
    blue := if WS2812_POWER_VAL < c1.blue then WS2812_POWER_VAL else c1.blue }

/-- Conversion of an `int32_t` value to `uint32_t`. -/
def uint32_of_int32 (x : Int) : Nat := (x % 4294967296).toNat

/-- The function `ws2812b_draw_effect_transition_colors`, with its static
locals passed in and returned.  The test `0 == (tick_ms_elapsed % update_rate_ms)`
is an unsigned 32-bit remainder; the source leaves it undefined for
`update_rate_ms = 0`, where this definition has the value of `%` on `Nat`. -/
def ws2812b_draw_effect_transition_colors (g : draw_globals) (c : transition_colors_statics)
    (element update_rate_ms step : Nat) : draw_globals × transition_colors_statics :=
  if g.p_objs_present && decide (element < g.objects_count) then
    if 0 = uint32_of_int32 g.tick_ms_elapsed % (update_rate_ms % 4294967296) then
      let c1 := transition_colors_update step c
      (ws2812b_draw_set_color g element c1.red c1.green c1.blue, c1)
    else (g, c)
  else (g, c)

/-- The statics after a sequence of calls of
`ws2812b_draw_effect_transition_colors`; each call comes with the module
variables it finds and its arguments `element`, `update_rate_ms`, `step`. -/
def statics_after_calls :
    List (draw_globals × Nat × Nat × Nat) → transition_colors_statics →
      transition_colors_statics
  | [], c => c
  | (g, element, update_rate_ms, step) :: rest, c =>
      statics_after_calls rest
        (ws2812b_draw_effect_transition_colors g c element update_rate_ms step).2

/-- The function `ws2812b_draw_clear_objects`. -/
def ws2812b_draw_clear_objects (g : draw_globals) : draw_globals :=
  if g.p_objs_present && g.p_strip_present && decide (0 < g.objects_count) then
    { g with
      p_objs := fun idx =>
        if idx < g.objects_count then
          { action := ws2812b_draw_action_t.DRAW_ACTION_NO_DRAW,
            direction := ws2812b_direction_t.DIRECTION_NOT_MOVING,
            blink_state := ws2812b_blink_state_t.BLINK_STATE_OFF,
            duration_ms := 0,
            blink_rate_ms := 0,
            length := 0,
            increment_rate_ms := 0,
            position := 0,
            red := 0,
            green := 0,
            blue := 0,
            start_position := 0,
            end_position := 0,
            b_grow := false,
            b_reverse := false,
            b_hit_end := false }
        else g.p_objs idx }
  else g

/-- The function `ws2812b_draw_set_action`. -/
def ws2812b_draw_set_action (g : draw_globals) (element : Nat)
    (action : ws2812b_draw_action_t) : draw_globals :=
  if g.p_objs_present && decide (element < g.objects_count) then
    { g with p_objs := set_obj g.p_objs element { g.p_objs element with action := action } }
  else g

/-- The divisor of the remainder `tick_ms_elapsed % p_obj->blink_rate_ms` that
`ws2812b_draw_object` evaluates for `element`, if it evaluates one: the
conditions are those on the path to the blink test. -/
def draw_object_divisor (g : draw_globals) (element : Nat) : Option Int :=
  if g.objects_count > element then
    let p_obj := g.p_objs element
    if ws2812b_draw_action_t.DRAW_ACTION_NO_DRAW ≠ p_obj.action then
      let b_expired : Bool := decide (g.tick_ms_elapsed ≥ p_obj.duration_ms)
      if !b_expired then
        if ws2812b_draw_action_t.DRAW_ACTION_SOLID = p_obj.action then none
        else if ws2812b_draw_action_t.DRAW_ACTION_BLINK_BLACK = p_obj.action ∨
            ws2812b_draw_action_t.DRAW_ACTION_BLINK_TRANSPARENT = p_obj.action then
          some p_obj.blink_rate_ms
        else none
      else none
    else none
  else none

/-- The divisors of the blink remainders that one call `ws2812b_draw(tick_ms)`
evaluates, in the order of the loop over the objects. -/
def ws2812b_draw_divisors (w : Nat) (g : draw_globals) (tick_ms : Int) : List Int :=
  let g1 : draw_globals :=
    { g with
      tick_ms_elapsed := int32_wrap (g.tick_ms_elapsed + tick_ms),
      tick_ms_value := tick_ms }
  if g1.p_objs_present && g1.p_strip_present && decide (0 < g1.objects_count) then
    ((List.range g1.objects_count).foldl
      (fun (acc : draw_globals × List Int) idx =>
        (ws2812b_update_position w (ws2812b_draw_object w acc.1 idx) idx,
          acc.2 ++ (draw_object_divisor acc.1 idx).toList))
      ({ g1 with p_strip := (ws2812b_data_clear_all w g1.p_strip).2 }, [])).2
  else []

/-- The calls `reset_all; set_action(0, BLINK_BLACK); set_duration(0, 1000)`
on a registry: a blink object whose blink rate was never set. -/
def blink_rate_never_set (g : draw_globals) : draw_globals :=
  ws2812b_draw_set_duration
    (ws2812b_draw_set_action (ws2812b_draw_clear_objects g) 0
      ws2812b_draw_action_t.DRAW_ACTION_BLINK_BLACK) 0 1000

/-- The opposite direction of travel. -/
def opposite_direction : ws2812b_direction_t → ws2812b_direction_t
  | ws2812b_direction_t.DIRECTION_FORWARD => ws2812b_direction_t.DIRECTION_REVERSE
  | ws2812b_direction_t.DIRECTION_REVERSE => ws2812b_direction_t.DIRECTION_FORWARD
  | ws2812b_direction_t.DIRECTION_NOT_MOVING => ws2812b_direction_t.DIRECTION_NOT_MOVING

/-- The traversal endpoint test of a motion step that takes the object `o` to
`o'`, case by case: Forward without grow, the new position `o'.position` is at
or beyond `end_position`; Forward with grow, `start_position` plus the
incremented length `o.length + 1` is at or beyond `end_position`; Reverse with
grow, `start_position` plus the new length `o'.length` is at or below
`start_position`; Reverse without grow, the new position `o'.position` is at
or below `start_position`.  New values are the values the step leaves; the
sums are sums of natural numbers. -/
def endpoint_reached (o o' : ws2812b_draw_object_t) : Bool :=
  match o.direction, o.b_grow with
  | ws2812b_direction_t.DIRECTION_FORWARD, false => decide (o'.position ≥ o.end_position)
  | ws2812b_direction_t.DIRECTION_FORWARD, true =>
      decide (o.start_position + (o.length + 1) ≥ o.end_position)
  | ws2812b_direction_t.DIRECTION_REVERSE, true =>
      decide (o.start_position + o'.length ≤ o.start_position)
  | ws2812b_direction_t.DIRECTION_REVERSE, false => decide (o'.position ≤ o.start_position)
  | ws2812b_direction_t.DIRECTION_NOT_MOVING, _ => false

/-! ## Reference waveform, following the description of the encoder -/

/-- The value of a group of bits read most-significant bit first. -/
def byte_of_bits (l : List Nat) : Nat := l.foldl (fun acc b => 2 * acc + b) 0

/-- Waveform byte `k` of a bit sequence packed eight at a time, MSB first:
it holds bits `8k .. 8k+7`. -/
def ref_stream_byte (bits : List Nat) (k : Nat) : Nat :=
  byte_of_bits ((bits.drop (8 * k)).take 8)

/-- The bits of a colour byte, most significant first. -/
def ref_msb_bits (byte : Nat) : List Nat :=
  [7, 6, 5, 4, 3, 2, 1, 0].map (fun i => byte / 2 ^ i % 2)

/-- Speed A: a data bit 1 becomes `110`, a data bit 0 becomes `100`. -/
def ref_pattern_2p5mhz (bit : Nat) : List Nat :=
  if bit = 1 then [1, 1, 0] else [1, 0, 0]

/-- Speed B: a data bit 1 becomes `111100`, a data bit 0 becomes `110000`. -/
def ref_pattern_5mhz (bit : Nat) : List Nat :=
  if bit = 1 then [1, 1, 1, 1, 0, 0] else [1, 1, 0, 0, 0, 0]

/-- The concatenation of the patterns of all data bits of the colour bytes,
taken in order. -/
def ref_waveform (pattern : Nat → List Nat) (colour : List Nat) : List Nat :=
  colour.flatMap (fun byte => (ref_msb_bits byte).flatMap pattern)

/-- The first `n` colour bytes of a strip, in order. -/
def colour_bytes (p_buffer : Nat → Nat) (n : Nat) : List Nat :=
  (List.range n).map p_buffer

/-- Bit `m` of a byte buffer unpacked most-significant bit first. -/
def unpacked_bit (p : Nat → Nat) (m : Nat) : Nat :=
  p (m / 8) / 2 ^ (7 - m % 8) % 2

/-- The decoder of speed A: colour byte `i` read back from a waveform as the
second bit of each of its eight 3-bit groups, most significant bit first. -/
def ref_decode_2p5mhz (p_stream : Nat → Nat) (i : Nat) : Nat :=
  byte_of_bits ((List.range 8).map (fun t => unpacked_bit p_stream (3 * (8 * i + t) + 1)))

/-- The decoder of speed B: colour byte `i` read back from a waveform as the
third bit of each of its eight 6-bit groups, most significant bit first. -/
def ref_decode_5mhz (p_stream : Nat → Nat) (i : Nat) : Nat :=
  byte_of_bits ((List.range 8).map (fun t => unpacked_bit p_stream (6 * (8 * i + t) + 2)))

/-! ## The stream bits in the order the encoder pushes them -/

/-- The stream bits pushed for one colour bit. -/
def pushed_bit (n : Nat) (bits_to_add : List Nat) (original_bit : Nat) : List Nat :=
  (List.range n).map (fun j => bits_to_add.getD (if original_bit = 1 then j else j + n) 0)

/-- The stream bits pushed for one colour byte. -/
def pushed_byte (n : Nat) (bits_to_add : List Nat) (byte : Nat) : List Nat :=
  [7, 6, 5, 4, 3, 2, 1, 0].flatMap (fun bit => pushed_bit n bits_to_add ((byte >>> bit) &&& 1))

/-- The stream bits pushed for the first `m` colour bytes. -/
def pushed (n : Nat) (bits_to_add : List Nat) (p_buffer : Nat → Nat) (m : Nat) : List Nat :=
  (List.range m).flatMap (fun i => pushed_byte n bits_to_add (p_buffer i))

/-- The encoder state after the bits `B` have been pushed, starting from the
stream contents `p0` with empty locals. -/
def stream_inv (p0 : Nat → Nat) (B : List Nat) (st : stream_state) : Prop :=
  st.bit_in_byte = B.length % 8 ∧
  st.stream_index = B.length / 8 ∧
  st.current_byte = byte_of_bits (B.drop (8 * (B.length / 8))) ∧
  (∀ k, k < B.length / 8 → st.p_stream k = ref_stream_byte B k) ∧
  (∀ k, B.length / 8 ≤ k → st.p_stream k = p0 k) ∧
  st.stored = (List.range (B.length / 8)).reverse

/-- The colour bytes after the store loop has written the triple
`green, red, blue` to every third offset from `lo` up to `hi`. -/
def painted (p_buffer : Nat → Nat) (lo hi red green blue : Nat) : Nat → Nat :=
  fun j =>
    if lo ≤ j ∧ j < hi then
      if (j - lo) % 3 = 0 then green else if (j - lo) % 3 = 1 then red else blue
    else p_buffer j

/-! ## Concrete strips and registries used in the evaluations below -/

/-- A strip with both buffers present, colour bytes `p_buffer` and a zeroed
stream buffer. -/
def strip_of (led_count buffer_sz stream_sz : Nat) (p_buffer : Nat → Nat)
    (init_state : ws2812b_init_state_t) : ws2812b_t :=
  { p_buffer_present := true, p_buffer := p_buffer, buffer_sz := buffer_sz,
    p_stream_present := true, p_stream := fun _ => 0, stream_sz := stream_sz,
    led_count := led_count, init_state := init_state }

/-- A strip in state 2.5 MHz with the two colour bytes `0xA5, 0x3C`. -/
def two_byte_strip_2p5mhz : ws2812b_t :=
  strip_of 2 2 6 (fun i => if i = 0 then 0xA5 else 0x3C) WS2812B_INIT_2p5MHz

/-- A strip in state 5 MHz with the two colour bytes `0xA5, 0x3C`. -/
def two_byte_strip_5mhz : ws2812b_t :=
  strip_of 2 2 12 (fun i => if i = 0 then 0xA5 else 0x3C) WS2812B_INIT_5MHz

/-- The strip with `led_count = 10`, `buffer_sz = 30`, `stream_sz = 89` after
`ws2812b_data_init` for 2.5 MHz with a 32-bit `size_t`. -/
def short_stream_strip : ws2812b_t :=
  (ws2812b_data_init 32 (strip_of 10 30 89 (fun _ => 0) WS2812B_INIT_FAILED)
    WS2812B_INIT_2p5MHz).2

/-- An object that is not drawn and not moving, at `position` with `length`. -/
def object_at (position length : Nat) : ws2812b_draw_object_t :=
  { action := ws2812b_draw_action_t.DRAW_ACTION_NO_DRAW,
    blink_state := ws2812b_blink_state_t.BLINK_STATE_OFF,
    blink_rate_ms := 0, duration_ms := 0, length := length, position := position,
    red := 0, green := 0, blue := 0,
    direction := ws2812b_direction_t.DIRECTION_NOT_MOVING,
    increment_rate_ms := 0, b_grow := false, b_reverse := false,
    start_position := 0, end_position := 0, b_hit_end := false }

/-- A bound registry of two objects: element 0 is `a`, every other element is `b`. -/
def registry_of_two (a b : ws2812b_draw_object_t) : draw_globals :=
  { p_strip_present := true,
    p_strip := strip_of 10 30 90 (fun _ => 0) WS2812B_INIT_2p5MHz,
    p_objs_present := true,
    p_objs := fun i => if i = 0 then a else b,
    objects_count := 2, tick_ms_elapsed := 0, tick_ms_value := 0 }

/-- A moving object that is not drawn. -/
def mover (direction : ws2812b_direction_t) (b_grow b_reverse : Bool)
    (start_position end_position position length increment_rate_ms : Nat) :
    ws2812b_draw_object_t :=
  { object_at position length with
    direction := direction, b_grow := b_grow, b_reverse := b_reverse,
    start_position := start_position, end_position := end_position,
    increment_rate_ms := increment_rate_ms }

/-- An object at `position` with `length`, colour `(10, 20, 30)`, the given
action, blink state, blink rate and deadline, not moving. -/
def drawn_object (action : ws2812b_draw_action_t) (blink_state : ws2812b_blink_state_t)
    (blink_rate_ms duration_ms : Int) (position length : Nat) : ws2812b_draw_object_t :=
  { object_at position length with
    action := action, blink_state := blink_state, blink_rate_ms := blink_rate_ms,
    duration_ms := duration_ms, red := 10, green := 20, blue := 30 }

/-- The registry `registry_of_two a b` with the elapsed-tick counter at `elapsed`. -/
def registry_at (elapsed : Int) (a b : ws2812b_draw_object_t) : draw_globals :=
  { registry_of_two a b with tick_ms_elapsed := elapsed }

/-- A bound registry of two unexpired Solid objects: element 0 covers LEDs 2 to
5 with colour (10, 20, 30), element 1 covers LEDs 4 to 6 with colour (1, 2, 3). -/
def overlapping_pair : draw_globals :=
  registry_of_two
    (drawn_object ws2812b_draw_action_t.DRAW_ACTION_SOLID
      ws2812b_blink_state_t.BLINK_STATE_OFF 0 1000 2 4)
    { drawn_object ws2812b_draw_action_t.DRAW_ACTION_SOLID
        ws2812b_blink_state_t.BLINK_STATE_OFF 0 1000 4 3 with
      red := 1, green := 2, blue := 3 }

/-! ## Lemmas on the encoder -/

theorem byte_of_bits_append (l : List Nat) (b : Nat) :
    byte_of_bits (l ++ [b]) = 2 * byte_of_bits l + b := by
  simp [byte_of_bits, List.foldl_append]

theorem byte_of_bits_lt (l : List Nat) (h : ∀ x ∈ l, x ≤ 1) :
    byte_of_bits l < 2 ^ l.length := by
  induction l using List.reverseRecOn with
  | nil => simp [byte_of_bits]
  | append_singleton l b ih =>
    rw [byte_of_bits_append]
    have hb : b ≤ 1 := h b (by simp)
    have hl := ih (fun x hx => h x (by simp [hx]))
    simp only [List.length_append, List.length_singleton, pow_succ]
    omega

theorem push_arith : ∀ c < 128, ∀ b < 2, ((c <<< 1) ||| b) % 256 = 2 * c + b := by
  decide

theorem stream_push_inv (w : Nat) (p0 : Nat → Nat) (B : List Nat) (st : stream_state)
    (b : Nat) (hinv : stream_inv p0 B st) (hB : ∀ x ∈ B, x ≤ 1) (hb : b ≤ 1)
    (hw : (B.length + 1) / 8 < 2 ^ w) :
    stream_inv p0 (B ++ [b]) (stream_push w st b) := by
  obtain ⟨h1, h2, h3, h4, h5, h6⟩ := hinv
  have hq : 8 * (B.length / 8) ≤ B.length := Nat.mul_div_le _ _
  have hdl : (B.drop (8 * (B.length / 8))).length = B.length % 8 := by
    rw [List.length_drop]; omega
  have hcur : st.current_byte < 2 ^ (B.length % 8) := by
    rw [h3, ← hdl]
    exact byte_of_bits_lt _ (fun x hx => hB x (List.mem_of_mem_drop hx))
  have hr : B.length % 8 < 8 := Nat.mod_lt _ (by decide)
  have hcur128 : st.current_byte < 128 := by
    have : 2 ^ (B.length % 8) ≤ 2 ^ 7 := Nat.pow_le_pow_right (by decide) (by omega)
    omega
  have harith := push_arith st.current_byte hcur128 b (by omega)
  have hnew : 2 * st.current_byte + b = byte_of_bits (B.drop (8 * (B.length / 8)) ++ [b]) := by
    rw [byte_of_bits_append, h3]
  have hlen : (B ++ [b]).length = B.length + 1 := by simp
  by_cases hfull : B.length % 8 + 1 = 8
  · have hq' : (B.length + 1) / 8 = B.length / 8 + 1 := by omega
    have hr' : (B.length + 1) % 8 = 0 := by omega
    have hpush : stream_push w st b =
        { p_stream := store st.p_stream st.stream_index (2 * st.current_byte + b)
          stream_index := size_add w st.stream_index 1
          current_byte := 0
          bit_in_byte := 0
          stored := st.stream_index :: st.stored } := by
      unfold stream_push
      simp only [h1, hfull, harith, if_true]
    rw [hpush]
    refine ⟨?_, ?_, ?_, ?_, ?_, ?_⟩
    · simp only [hlen, hr']
    · simp only [hlen, hq', h2, size_add]
      apply Nat.mod_eq_of_lt
      omega
    · simp only [hlen, hq']
      have : 8 * (B.length / 8 + 1) = (B ++ [b]).length := by rw [hlen]; omega
      rw [this, List.drop_length]
      rfl
    · intro k hk
      simp only [hlen, hq'] at hk
      simp only [store, h2]
      by_cases hkq : k = B.length / 8
      · simp only [hkq, if_true]
        rw [hnew]
        unfold ref_stream_byte
        rw [List.drop_append_of_le_length hq]
        rw [List.take_of_length_le]
        simp only [List.length_append, List.length_singleton, hdl]
        omega
      · simp only [hkq, if_false]
        have hk' : k < B.length / 8 := by omega
        rw [h4 k hk']
        unfold ref_stream_byte
        rw [List.drop_append_of_le_length (by omega)]
        rw [List.take_append_of_le_length]
        rw [List.length_drop]
        omega
    · intro k hk
      simp only [hlen, hq'] at hk
      simp only [store, h2]
      have hkq : k ≠ B.length / 8 := by omega
      simp only [hkq, if_false]
      exact h5 k (by omega)
    · simp only [hlen, hq', h2, h6, List.range_succ, List.reverse_append, List.reverse_singleton,
        List.singleton_append]
  · have hq' : (B.length + 1) / 8 = B.length / 8 := by omega
    have hr' : (B.length + 1) % 8 = B.length % 8 + 1 := by omega
    have hpush : stream_push w st b =
        { st with current_byte := 2 * st.current_byte + b,
                  bit_in_byte := st.bit_in_byte + 1 } := by
      unfold stream_push
      simp only [h1, hfull, harith, if_false]
    rw [hpush]
    refine ⟨?_, ?_, ?_, ?_, ?_, ?_⟩
    · simp only [hlen, hr', h1]
    · simp only [hlen, hq', h2]
    · simp only [hlen, hq']
      rw [List.drop_append_of_le_length hq, ← hnew]
    · intro k hk
      simp only [hlen, hq'] at hk
      show st.p_stream k = _
      rw [h4 k hk]
      unfold ref_stream_byte
      rw [List.drop_append_of_le_length (by omega)]
      rw [List.take_append_of_le_length]
      rw [List.length_drop]
      omega
    · intro k hk
      simp only [hlen, hq'] at hk
      exact h5 k hk
    · simp only [hlen, hq']
      exact h6

theorem stream_inv_init (p0 : Nat → Nat) :
    stream_inv p0 []
      { p_stream := p0, stream_index := 0, current_byte := 0, bit_in_byte := 0, stored := [] } := by
  refine ⟨rfl, rfl, rfl, ?_, ?_, rfl⟩
  · intro k hk; simp at hk
  · intro k _; rfl

theorem stream_fold_inv (w : Nat) (p0 : Nat → Nat) (L : List Nat) :
    ∀ (B : List Nat) (st : stream_state), stream_inv p0 B st →
      (∀ x ∈ B, x ≤ 1) → (∀ x ∈ L, x ≤ 1) → (B.length + L.length) / 8 < 2 ^ w →
      stream_inv p0 (B ++ L) (L.foldl (stream_push w) st) := by
  induction L with
  | nil => intro B st h _ _ _; simpa using h
  | cons b L ih =>
    intro B st h hB hL hw
    have hb : b ≤ 1 := hL b (by simp)
    have hw1 : (B.length + 1) / 8 < 2 ^ w := by
      have : (B.length + 1) / 8 ≤ (B.length + (b :: L).length) / 8 :=
        Nat.div_le_div_right (by simp)
      omega
    have hstep := stream_push_inv w p0 B st b h hB hb hw1
    have hB' : ∀ x ∈ B ++ [b], x ≤ 1 := by
      intro x hx
      rcases List.mem_append.mp hx with hx | hx
      · exact hB x hx
      · simp at hx; omega
    have hw' : ((B ++ [b]).length + L.length) / 8 < 2 ^ w := by
      simp only [List.length_append, List.length_cons, List.length_nil] at hw ⊢
      have : B.length + (0 + 1) + L.length = B.length + (L.length + 1) := by omega
      rw [this]; exact hw
    have := ih (B ++ [b]) (stream_push w st b) hstep hB' (fun x hx => hL x (by simp [hx])) hw'
    simpa [List.append_assoc] using this

theorem stream_bit_eq (w n : Nat) (tbl : List Nat) (st : stream_state) (ob : Nat) :
    stream_bit w n tbl st ob = (pushed_bit n tbl ob).foldl (stream_push w) st := by
  unfold stream_bit pushed_bit
  rw [List.foldl_map]

theorem foldl_flatMap_push (w : Nat) {α : Type} (f : α → List Nat) (l : List α) :
    ∀ st : stream_state,
      l.foldl (fun st a => (f a).foldl (stream_push w) st) st
        = (l.flatMap f).foldl (stream_push w) st := by
  induction l with
  | nil => intro st; rfl
  | cons a l ih =>
    intro st
    simp only [List.foldl_cons, List.flatMap_cons, List.foldl_append]
    exact ih _

theorem stream_byte_eq (w n : Nat) (tbl : List Nat) (st : stream_state) (byte : Nat) :
    stream_byte w n tbl st byte = (pushed_byte n tbl byte).foldl (stream_push w) st := by
  unfold stream_byte pushed_byte
  rw [← foldl_flatMap_push]
  simp only [stream_bit_eq]

theorem stream_loop_eq (w n : Nat) (tbl : List Nat) (p_buffer : Nat → Nat) (m : Nat)
    (st : stream_state) :
    (List.range m).foldl (fun st i => stream_byte w n tbl st (p_buffer i)) st
      = (pushed n tbl p_buffer m).foldl (stream_push w) st := by
  unfold pushed
  rw [← foldl_flatMap_push]
  simp only [stream_byte_eq]

theorem pushed_bit_length (n : Nat) (tbl : List Nat) (ob : Nat) :
    (pushed_bit n tbl ob).length = n := by
  simp [pushed_bit]

theorem pushed_byte_length (n : Nat) (tbl : List Nat) (byte : Nat) :
    (pushed_byte n tbl byte).length = 8 * n := by
  simp [pushed_byte, List.flatMap_cons, pushed_bit_length]
  omega

theorem pushed_succ (n : Nat) (tbl : List Nat) (p_buffer : Nat → Nat) (m : Nat) :
    pushed n tbl p_buffer (m + 1)
      = pushed n tbl p_buffer m ++ pushed_byte n tbl (p_buffer m) := by
  simp [pushed, List.range_succ, List.flatMap_append]

theorem pushed_length (n : Nat) (tbl : List Nat) (p_buffer : Nat → Nat) (m : Nat) :
    (pushed n tbl p_buffer m).length = 8 * n * m := by
  induction m with
  | zero => simp [pushed]
  | succ m ih =>
    rw [pushed_succ, List.length_append, ih, pushed_byte_length]
    ring

theorem pushed_le_one (n : Nat) (tbl : List Nat) (htbl : ∀ x ∈ tbl, x ≤ 1)
    (p_buffer : Nat → Nat) (m : Nat) : ∀ x ∈ pushed n tbl p_buffer m, x ≤ 1 := by
  intro x hx
  simp only [pushed, pushed_byte, pushed_bit, List.mem_flatMap, List.mem_map] at hx
  obtain ⟨_, _, _, _, j, _, rfl⟩ := hx
  rw [List.getD_eq_getElem?_getD]
  cases hget : tbl[if (p_buffer _ >>> _) &&& 1 = 1 then j else j + n]? with
  | none => simp
  | some v =>
    simp only [Option.getD_some]
    exact htbl v (List.getElem?_mem hget)

theorem update_stream_run_inv (w n : Nat) (tbl : List Nat) (htbl : ∀ x ∈ tbl, x ≤ 1)
    (s : ws2812b_t) (hw : n * s.buffer_sz < 2 ^ w) :
    stream_inv s.p_stream (pushed n tbl s.p_buffer s.buffer_sz)
      (update_stream_run w n tbl s) := by
  have hlen := pushed_length n tbl s.p_buffer s.buffer_sz
  have hdiv : (pushed n tbl s.p_buffer s.buffer_sz).length / 8 = n * s.buffer_sz := by
    rw [hlen, Nat.mul_assoc]; exact Nat.mul_div_cancel_left _ (by decide)
  have hmod : (pushed n tbl s.p_buffer s.buffer_sz).length % 8 = 0 := by
    rw [hlen, Nat.mul_assoc]; exact Nat.mul_mod_right _ _
  have hfold := stream_fold_inv w s.p_stream (pushed n tbl s.p_buffer s.buffer_sz) []
    _ (stream_inv_init s.p_stream) (by simp) (pushed_le_one n tbl htbl s.p_buffer s.buffer_sz)
    (by simpa [hdiv] using hw)
  rw [List.nil_append] at hfold
  have hbit := hfold.1
  rw [hmod] at hbit
  unfold update_stream_run
  simp only [stream_loop_eq]
  rw [if_neg (by simp [hbit])]
  exact hfold

theorem pushed_bit_2p5mhz (ob : Nat) :
    pushed_bit 3 bits_to_add_2p5mhz ob = ref_pattern_2p5mhz ob := by
  by_cases h : ob = 1 <;> simp [pushed_bit, ref_pattern_2p5mhz, bits_to_add_2p5mhz, h, List.range_succ]

theorem pushed_bit_5mhz (ob : Nat) :
    pushed_bit 6 bits_to_add_5mhz ob = ref_pattern_5mhz ob := by
  by_cases h : ob = 1 <;> simp [pushed_bit, ref_pattern_5mhz, bits_to_add_5mhz, h, List.range_succ]

theorem pushed_byte_eq_ref (n : Nat) (tbl : List Nat) (pattern : Nat → List Nat)
    (hp : ∀ ob, pushed_bit n tbl ob = pattern ob) (byte : Nat) :
    pushed_byte n tbl byte = (ref_msb_bits byte).flatMap pattern := by
  simp only [pushed_byte, ref_msb_bits, hp, Nat.shiftRight_eq_div_pow, Nat.and_one_is_mod,
    List.map_cons, List.map_nil, List.flatMap_cons, List.flatMap_nil]

theorem pushed_eq_ref (n : Nat) (tbl : List Nat) (pattern : Nat → List Nat)
    (hp : ∀ ob, pushed_bit n tbl ob = pattern ob) (p_buffer : Nat → Nat) (m : Nat) :
    pushed n tbl p_buffer m = ref_waveform pattern (colour_bytes p_buffer m) := by
  induction m with
  | zero => rfl
  | succ m ih =>
    rw [pushed_succ, ih, pushed_byte_eq_ref n tbl pattern hp]
    simp [ref_waveform, colour_bytes, List.range_succ, List.flatMap_append]

theorem bits_to_add_2p5mhz_le_one : ∀ x ∈ bits_to_add_2p5mhz, x ≤ 1 := by decide

theorem bits_to_add_5mhz_le_one : ∀ x ∈ bits_to_add_5mhz, x ≤ 1 := by decide

/-! ## Lemmas on the colour writes -/

theorem size_add_eq (w a b : Nat) (h : a + b < 2 ^ w) : size_add w a b = a + b :=
  Nat.mod_eq_of_lt h

theorem size_mul_eq (w a b : Nat) (h : a * b < 2 ^ w) : size_mul w a b = a * b :=
  Nat.mod_eq_of_lt h

theorem size_sub_one (w a : Nat) (h1 : 1 ≤ a) (h : a < 2 ^ w) : size_sub w a 1 = a - 1 := by
  unfold size_sub
  generalize 2 ^ w = M at *
  have hM : 1 < M := by omega
  rw [Nat.mod_eq_of_lt hM]
  have : a + (M - 1) = a - 1 + M := by omega
  rw [this, Nat.add_mod_right]
  exact Nat.mod_eq_of_lt (by omega)

theorem set_x_loop_spec (w start_idx count red green blue : Nat)
    (hnum : start_idx + count * 3 < 2 ^ w) :
    ∀ (n idx : Nat) (buf : Nat → Nat), idx + 3 * n = start_idx + count * 3 →
      set_x_loop w start_idx count red green blue idx buf
        = painted buf idx (idx + 3 * n) red green blue := by
  have hguard : size_add w start_idx (size_mul w count WS2812B_BYTES_PER_LED)
      = start_idx + count * 3 := by
    unfold WS2812B_BYTES_PER_LED
    rw [size_mul_eq w count 3 (by omega), size_add_eq w _ _ hnum]
  intro n
  induction n with
  | zero =>
    intro idx buf h
    rw [set_x_loop, hguard, dif_neg (by omega)]
    funext j
    simp only [painted]
    rw [if_neg (by omega)]
  | succ n ih =>
    intro idx buf h
    rw [set_x_loop, hguard, dif_pos (by omega)]
    have h3 : size_add w idx WS2812B_BYTES_PER_LED = idx + 3 :=
      size_add_eq w idx 3 (by omega)
    have h1 : size_add w idx 1 = idx + 1 := size_add_eq w idx 1 (by omega)
    have h2 : size_add w idx 2 = idx + 2 := size_add_eq w idx 2 (by omega)
    rw [h3, h1, h2, ih (idx + 3) _ (by omega)]
    funext j
    simp only [painted, store]
    split_ifs <;> first | rfl | omega

theorem ws2812b_data_set_x_ok (w : Nat) (s : ws2812b_t) (start count red green blue : Nat)
    (hs : s.init_state ≠ WS2812B_INIT_FAILED) (h1 : 1 ≤ start) (hc : 1 ≤ count)
    (hfit : start - 1 + count ≤ s.led_count) (hw : (start - 1 + count) * 3 < 2 ^ w) :
    ws2812b_data_set_x w s start count red green blue
      = (true, { s with
          p_buffer := painted s.p_buffer (3 * (start - 1))
            (3 * (start - 1) + 3 * count) red green blue }) := by
  have hidx : size_sub w start 1 = start - 1 := size_sub_one w start h1 (by omega)
  have hsum : size_add w (start - 1) count = start - 1 + count :=
    size_add_eq w _ _ (by omega)
  have hlast : size_sub w (start - 1 + count) 1 = start - 1 + count - 1 :=
    size_sub_one w _ (by omega) (by omega)
  have hstart : size_mul w (start - 1) WS2812B_BYTES_PER_LED = (start - 1) * 3 :=
    size_mul_eq w _ 3 (by omega)
  unfold ws2812b_data_set_x
  simp only [hidx, hsum, hlast, hstart]
  rw [if_pos (by omega), if_pos hs, if_pos (by omega)]
  rw [set_x_loop_spec w ((start - 1) * 3) count red green blue (by omega) count
    ((start - 1) * 3) s.p_buffer (by omega)]
  have e1 : (start - 1) * 3 = 3 * (start - 1) := by omega
  rw [e1]

theorem ws2812b_data_set_x_zero_leds (w : Nat) (s : ws2812b_t) (red green blue : Nat)
    (hz : s.led_count = 0) :
    ws2812b_data_set_x w s 1 s.led_count red green blue = (false, s) := by
  unfold ws2812b_data_set_x
  simp [hz]


/-! ## Strip configuration -/

theorem ws2812b_data_init_of_no_wrap (w : Nat) (s : ws2812b_t)
    (desired : ws2812b_init_state_t)
    (hb : s.p_buffer_present = true) (hp : s.p_stream_present = true)
    (hd : desired = WS2812B_INIT_2p5MHz ∨ desired = WS2812B_INIT_5MHz)
    (hw : s.led_count * 18 < 2 ^ w) :
    ((ws2812b_data_init w s desired).1 = true ↔
      s.led_count * 3 ≤ s.buffer_sz ∧
        s.led_count * (if desired = WS2812B_INIT_2p5MHz then 9 else 18) ≤ s.stream_sz) ∧
    ((ws2812b_data_init w s desired).1 = true →
      (ws2812b_data_init w s desired).2.init_state = desired) ∧
    ((ws2812b_data_init w s desired).1 = false →
      (ws2812b_data_init w s desired).2.init_state = WS2812B_INIT_FAILED) := by
  have h3 : size_mul w s.led_count WS2812B_BYTES_PER_LED = s.led_count * 3 :=
    size_mul_eq w _ 3 (by omega)
  have h9 : size_mul w s.led_count WS2812_BYTES_PER_LED_2P5MHZ = s.led_count * 9 :=
    size_mul_eq w _ 9 (by omega)
  have h18 : size_mul w s.led_count WS2812_BYTES_PER_LED_5MHZ = s.led_count * 18 :=
    size_mul_eq w _ 18 (by omega)
  unfold ws2812b_data_init
  by_cases c1 : s.led_count * 3 ≤ s.buffer_sz <;>
    by_cases c9 : s.led_count * 9 ≤ s.stream_sz <;>
    by_cases c18 : s.led_count * 18 ≤ s.stream_sz <;>
    rcases hd with hd | hd <;> subst hd <;>
    simp [hb, hp, h3, h9, h18, c1, c9, c18]

/-- C1 (configure succeeds iff `led_count*3 <= buffer_sz` and
`led_count*bytes_per_led <= stream_sz`, the products taken as exact integers):
the products are reduced modulo `2 ^ w` before the comparison, so strips whose
buffers are too small are accepted.  With a 32-bit `size_t`,
`ws2812b_data_init` accepts for speed A a strip of 1431655766 LEDs whose colour
buffer has 2 bytes and whose stream buffer has 6 bytes; with a 16-bit `size_t`
it accepts a strip of 7282 LEDs with a colour buffer of 21846 bytes and a
stream buffer of 100 bytes, although `7282 * 9 = 65538 > 100`.  In both cases
it returns true and sets the state to 2.5 MHz. -/
theorem init_accepts_wrapped_product :
    ((ws2812b_data_init 32 (strip_of 1431655766 2 6 (fun _ => 0) WS2812B_INIT_FAILED)
        WS2812B_INIT_2p5MHz).1 = true ∧
      (ws2812b_data_init 32 (strip_of 1431655766 2 6 (fun _ => 0) WS2812B_INIT_FAILED)
        WS2812B_INIT_2p5MHz).2.init_state = WS2812B_INIT_2p5MHz ∧
      ¬ ((strip_of 1431655766 2 6 (fun _ => 0) WS2812B_INIT_FAILED).led_count * 3
          ≤ (strip_of 1431655766 2 6 (fun _ => 0) WS2812B_INIT_FAILED).buffer_sz)) ∧
    ((ws2812b_data_init 16 (strip_of 7282 21846 100 (fun _ => 0) WS2812B_INIT_FAILED)
        WS2812B_INIT_2p5MHz).1 = true ∧
      (ws2812b_data_init 16 (strip_of 7282 21846 100 (fun _ => 0) WS2812B_INIT_FAILED)
        WS2812B_INIT_2p5MHz).2.init_state = WS2812B_INIT_2p5MHz ∧
      ¬ ((strip_of 7282 21846 100 (fun _ => 0) WS2812B_INIT_FAILED).led_count * 9
          ≤ (strip_of 7282 21846 100 (fun _ => 0) WS2812B_INIT_FAILED).stream_sz)) := by
  decide

/-! ## Bit-stream encoder -/

theorem update_stream_2p5mhz_stored_eq (w : Nat) (s : ws2812b_t)
    (hs : s.init_state = WS2812B_INIT_2p5MHz) (hw : 3 * s.buffer_sz < 2 ^ w) :
    ws2812b_update_stream_2p5mhz_stored w s = (List.range (3 * s.buffer_sz)).reverse := by
  have hinv := update_stream_run_inv w 3 bits_to_add_2p5mhz bits_to_add_2p5mhz_le_one s hw
  have hlen := pushed_length 3 bits_to_add_2p5mhz s.p_buffer s.buffer_sz
  have hdiv : (pushed 3 bits_to_add_2p5mhz s.p_buffer s.buffer_sz).length / 8
      = 3 * s.buffer_sz := by
    rw [hlen, Nat.mul_assoc]; exact Nat.mul_div_cancel_left _ (by decide)
  unfold ws2812b_update_stream_2p5mhz_stored
  rw [if_pos hs, hinv.2.2.2.2.2, hdiv]

theorem update_stream_5mhz_stored_eq (w : Nat) (s : ws2812b_t)
    (hs : s.init_state = WS2812B_INIT_5MHz) (hw : 6 * s.buffer_sz < 2 ^ w) :
    ws2812b_update_stream_5mhz_stored w s = (List.range (6 * s.buffer_sz)).reverse := by
  have hinv := update_stream_run_inv w 6 bits_to_add_5mhz bits_to_add_5mhz_le_one s hw
  have hlen := pushed_length 6 bits_to_add_5mhz s.p_buffer s.buffer_sz
  have hdiv : (pushed 6 bits_to_add_5mhz s.p_buffer s.buffer_sz).length / 8
      = 6 * s.buffer_sz := by
    rw [hlen, Nat.mul_assoc]; exact Nat.mul_div_cancel_left _ (by decide)
  unfold ws2812b_update_stream_5mhz_stored
  rw [if_pos hs, hinv.2.2.2.2.2, hdiv]

/-- C2 (the capacity validated at configuration time is enough for every
waveform byte the encoder emits): a strip with `led_count = 1`,
`buffer_sz = 4` and `stream_sz = 9` is configured successfully for speed A,
and `ws2812b_update_stream_2p5mhz` then stores to the stream offsets 0 to 11,
of which 9, 10 and 11 are not below `stream_sz`; the same strip with
`stream_sz = 18` is configured successfully for speed B and
`ws2812b_update_stream_5mhz` stores to the offsets 0 to 23.  The encoders run
over all `buffer_sz` colour bytes, while configuration compared `stream_sz`
with `led_count * 9`, resp. `led_count * 18`. -/
theorem update_stream_stores_past_stream_sz :
    ((ws2812b_data_init 32 (strip_of 1 4 9 (fun _ => 0) WS2812B_INIT_FAILED)
        WS2812B_INIT_2p5MHz).1 = true ∧
      (ws2812b_data_init 32 (strip_of 1 4 9 (fun _ => 0) WS2812B_INIT_FAILED)
        WS2812B_INIT_2p5MHz).2.stream_sz = 9 ∧
      ws2812b_update_stream_2p5mhz_stored 32
        (ws2812b_data_init 32 (strip_of 1 4 9 (fun _ => 0) WS2812B_INIT_FAILED)
          WS2812B_INIT_2p5MHz).2
        = [11, 10, 9, 8, 7, 6, 5, 4, 3, 2, 1, 0]) ∧
    ((ws2812b_data_init 32 (strip_of 1 4 18 (fun _ => 0) WS2812B_INIT_FAILED)
        WS2812B_INIT_5MHz).1 = true ∧
      (ws2812b_data_init 32 (strip_of 1 4 18 (fun _ => 0) WS2812B_INIT_FAILED)
        WS2812B_INIT_5MHz).2.stream_sz = 18 ∧
      ws2812b_update_stream_5mhz_stored 32
        (ws2812b_data_init 32 (strip_of 1 4 18 (fun _ => 0) WS2812B_INIT_FAILED)
          WS2812B_INIT_5MHz).2
        = [23, 22, 21, 20, 19, 18, 17, 16, 15, 14, 13, 12,
            11, 10, 9, 8, 7, 6, 5, 4, 3, 2, 1, 0]) := by
  refine ⟨⟨by decide, by decide, ?_⟩, ⟨by decide, by decide, ?_⟩⟩
  · rw [update_stream_2p5mhz_stored_eq 32 _ (by decide) (by decide)]
    decide
  · rw [update_stream_5mhz_stored_eq 32 _ (by decide) (by decide)]
    decide

theorem pushed_div (n : Nat) (tbl : List Nat) (p_buffer : Nat → Nat) (m : Nat) :
    (pushed n tbl p_buffer m).length / 8 = n * m := by
  rw [pushed_length, Nat.mul_assoc]
  exact Nat.mul_div_cancel_left _ (by decide)

theorem update_stream_run_bytes (w n : Nat) (tbl : List Nat) (htbl : ∀ x ∈ tbl, x ≤ 1)
    (s : ws2812b_t) (hw : n * s.buffer_sz < 2 ^ w) (k : Nat) (hk : k < n * s.buffer_sz) :
    (update_stream_run w n tbl s).p_stream k
      = ref_stream_byte (pushed n tbl s.p_buffer s.buffer_sz) k := by
  have hinv := update_stream_run_inv w n tbl htbl s hw
  exact hinv.2.2.2.1 k (by rw [pushed_div]; exact hk)

theorem update_stream_run_rest (w n : Nat) (tbl : List Nat) (htbl : ∀ x ∈ tbl, x ≤ 1)
    (s : ws2812b_t) (hw : n * s.buffer_sz < 2 ^ w) (k : Nat) (hk : n * s.buffer_sz ≤ k) :
    (update_stream_run w n tbl s).p_stream k = s.p_stream k := by
  have hinv := update_stream_run_inv w n tbl htbl s hw
  exact hinv.2.2.2.2.1 k (by rw [pushed_div]; exact hk)

/-- C3 (the waveform bytes written equal the reference): for a strip `a` in
state 2.5 MHz and a strip `b` in state 5 MHz whose waveform lengths
`3 * buffer_sz`, resp. `6 * buffer_sz`, are `size_t` values, the encoder of
that speed stores exactly to the offsets below that length, bytes at other
offsets keep their value, and the byte at offset `k` is bits `8k .. 8k+7`,
most significant first, of the concatenated patterns (`110`/`100`, resp.
`111100`/`110000`) of the data bits of the colour bytes taken in order, each
byte most-significant bit first. -/
theorem update_stream_matches_reference (w : Nat) (a b : ws2812b_t)
    (ha : a.init_state = WS2812B_INIT_2p5MHz) (hwa : 3 * a.buffer_sz < 2 ^ w)
    (hb : b.init_state = WS2812B_INIT_5MHz) (hwb : 6 * b.buffer_sz < 2 ^ w) :
    ((∀ k, k < 3 * a.buffer_sz →
        (ws2812b_update_stream_2p5mhz w a).p_stream k
          = ref_stream_byte
              (ref_waveform ref_pattern_2p5mhz (colour_bytes a.p_buffer a.buffer_sz)) k) ∧
      (∀ k, 3 * a.buffer_sz ≤ k →
        (ws2812b_update_stream_2p5mhz w a).p_stream k = a.p_stream k) ∧
      ws2812b_update_stream_2p5mhz_stored w a = (List.range (3 * a.buffer_sz)).reverse ∧
      (ref_waveform ref_pattern_2p5mhz (colour_bytes a.p_buffer a.buffer_sz)).length
        = 8 * (3 * a.buffer_sz)) ∧
    ((∀ k, k < 6 * b.buffer_sz →
        (ws2812b_update_stream_5mhz w b).p_stream k
          = ref_stream_byte
              (ref_waveform ref_pattern_5mhz (colour_bytes b.p_buffer b.buffer_sz)) k) ∧
      (∀ k, 6 * b.buffer_sz ≤ k →
        (ws2812b_update_stream_5mhz w b).p_stream k = b.p_stream k) ∧
      ws2812b_update_stream_5mhz_stored w b = (List.range (6 * b.buffer_sz)).reverse ∧
      (ref_waveform ref_pattern_5mhz (colour_bytes b.p_buffer b.buffer_sz)).length
        = 8 * (6 * b.buffer_sz)) := by
  constructor
  · have href := pushed_eq_ref 3 bits_to_add_2p5mhz ref_pattern_2p5mhz pushed_bit_2p5mhz
      a.p_buffer a.buffer_sz
    refine ⟨?_, ?_, update_stream_2p5mhz_stored_eq w a ha hwa, ?_⟩
    · intro k hk
      rw [← href]
      simp only [ws2812b_update_stream_2p5mhz, if_pos ha]
      exact update_stream_run_bytes w 3 _ bits_to_add_2p5mhz_le_one a hwa k hk
    · intro k hk
      simp only [ws2812b_update_stream_2p5mhz, if_pos ha]
      exact update_stream_run_rest w 3 _ bits_to_add_2p5mhz_le_one a hwa k hk
    · rw [← href, pushed_length]; ring
  · have href := pushed_eq_ref 6 bits_to_add_5mhz ref_pattern_5mhz pushed_bit_5mhz
      b.p_buffer b.buffer_sz
    refine ⟨?_, ?_, update_stream_5mhz_stored_eq w b hb hwb, ?_⟩
    · intro k hk
      rw [← href]
      simp only [ws2812b_update_stream_5mhz, if_pos hb]
      exact update_stream_run_bytes w 6 _ bits_to_add_5mhz_le_one b hwb k hk
    · intro k hk
      simp only [ws2812b_update_stream_5mhz, if_pos hb]
      exact update_stream_run_rest w 6 _ bits_to_add_5mhz_le_one b hwb k hk
    · rw [← href, pushed_length]; ring

/-- Witness for C3: colour bytes `0xA5, 0x3C` at speed A give the waveform
bytes `0xD3, 0x49, 0xA6, ...`, and at speed B the bytes `0xF3, 0x0F, 0x3C, ...`. -/
theorem update_stream_matches_reference_witness :
    two_byte_strip_2p5mhz.init_state = WS2812B_INIT_2p5MHz ∧
    3 * two_byte_strip_2p5mhz.buffer_sz < 2 ^ 32 ∧
    two_byte_strip_5mhz.init_state = WS2812B_INIT_5MHz ∧
    6 * two_byte_strip_5mhz.buffer_sz < 2 ^ 32 ∧
    (ws2812b_update_stream_2p5mhz 32 two_byte_strip_2p5mhz).p_stream 0 = 0xD3 ∧
    (ws2812b_update_stream_2p5mhz 32 two_byte_strip_2p5mhz).p_stream 2 = 0xA6 ∧
    (ws2812b_update_stream_5mhz 32 two_byte_strip_5mhz).p_stream 1 = 0x0F :=
  ⟨rfl, by decide, rfl, by decide,
    ((update_stream_matches_reference 32 two_byte_strip_2p5mhz two_byte_strip_5mhz
      rfl (by decide) rfl (by decide)).1.1 0 (by decide)).trans (by decide),
    ((update_stream_matches_reference 32 two_byte_strip_2p5mhz two_byte_strip_5mhz
      rfl (by decide) rfl (by decide)).1.1 2 (by decide)).trans (by decide),
    ((update_stream_matches_reference 32 two_byte_strip_2p5mhz two_byte_strip_5mhz
      rfl (by decide) rfl (by decide)).2.1 1 (by decide)).trans (by decide)⟩

theorem ref_stream_byte_append_left (L L' : List Nat) (k : Nat) (hk : 8 * k + 8 ≤ L.length) :
    ref_stream_byte (L ++ L') k = ref_stream_byte L k := by
  unfold ref_stream_byte
  rw [List.drop_append_of_le_length (by omega), List.take_append_of_le_length]
  rw [List.length_drop]
  omega

theorem ref_stream_byte_append_right (L L' : List Nat) (k j : Nat)
    (hk : 8 * k = L.length + 8 * j) :
    ref_stream_byte (L ++ L') k = ref_stream_byte L' j := by
  unfold ref_stream_byte
  rw [hk, List.drop_append]

theorem pushed_const (n : Nat) (tbl : List Nat) (p_buffer : Nat → Nat) (v : Nat) :
    ∀ m : Nat, (∀ i, i < m → p_buffer i = v) → ∀ k, k < n * m →
      ref_stream_byte (pushed n tbl p_buffer m) k
        = ref_stream_byte (pushed_byte n tbl v) (k % n) := by
  intro m
  induction m with
  | zero => intro _ k hk; simp at hk
  | succ m ih =>
    intro hv k hk
    rw [pushed_succ, hv m (Nat.lt_succ_self m)]
    have hlen := pushed_length n tbl p_buffer m
    by_cases hlt : k < n * m
    · rw [ref_stream_byte_append_left _ _ _ (by
        rw [hlen]
        have : 8 * (k + 1) ≤ 8 * (n * m) := Nat.mul_le_mul_left 8 hlt
        rw [Nat.mul_assoc]; omega)]
      exact ih (fun i hi => hv i (Nat.lt_succ_of_lt hi)) k hlt
    · have hge : n * m ≤ k := Nat.le_of_not_lt hlt
      have hj : k - n * m < n := by
        rw [Nat.mul_succ] at hk; omega
      have hmod : k % n = k - n * m := by
        have hk' : k = (k - n * m) + n * m := by omega
        conv_lhs => rw [hk']
        rw [Nat.add_mul_mod_self_left]
        exact Nat.mod_eq_of_lt hj
      rw [hmod]
      apply ref_stream_byte_append_right
      rw [hlen, Nat.mul_assoc, ← Nat.mul_add]
      congr 1
      omega

theorem const_bytes_2p5mhz :
    (∀ j, j < 3 → ref_stream_byte (pushed_byte 3 bits_to_add_2p5mhz 0x00) j
      = [0x92, 0x49, 0x24].getD j 0) ∧
    (∀ j, j < 3 → ref_stream_byte (pushed_byte 3 bits_to_add_2p5mhz 0xFF) j
      = [0xDB, 0x6D, 0xB6].getD j 0) := by
  decide

theorem const_bytes_5mhz :
    (∀ j, j < 6 → ref_stream_byte (pushed_byte 6 bits_to_add_5mhz 0x00) j
      = [0xC3, 0x0C, 0x30].getD (j % 3) 0) ∧
    (∀ j, j < 6 → ref_stream_byte (pushed_byte 6 bits_to_add_5mhz 0xFF) j
      = [0xF3, 0xCF, 0x3C].getD (j % 3) 0) := by
  decide

theorem unpack_period_3 (bytes pat : List Nat)
    (h : ∀ r, r < 24 → (bytes.getD (r / 8 % 3) 0) / 2 ^ (7 - r % 8) % 2 = pat.getD (r % 3) 0)
    (p : Nat → Nat) (m : Nat) (hp : p (m / 8) = bytes.getD (m / 8 % 3) 0) :
    unpacked_bit p m = pat.getD (m % 3) 0 := by
  unfold unpacked_bit
  rw [hp]
  have h24 := h (m % 24) (Nat.mod_lt _ (by decide))
  have e1 : m % 24 / 8 % 3 = m / 8 % 3 := by omega
  have e2 : m % 24 % 8 = m % 8 := by omega
  have e3 : m % 24 % 3 = m % 3 := by omega
  rw [e1, e2, e3] at h24
  exact h24

theorem unpack_period_6 (bytes pat : List Nat)
    (h : ∀ r, r < 24 → (bytes.getD (r / 8 % 3) 0) / 2 ^ (7 - r % 8) % 2 = pat.getD (r % 6) 0)
    (p : Nat → Nat) (m : Nat) (hp : p (m / 8) = bytes.getD (m / 8 % 3) 0) :
    unpacked_bit p m = pat.getD (m % 6) 0 := by
  unfold unpacked_bit
  rw [hp]
  have h24 := h (m % 24) (Nat.mod_lt _ (by decide))
  have e1 : m % 24 / 8 % 3 = m / 8 % 3 := by omega
  have e2 : m % 24 % 8 = m % 8 := by omega
  have e3 : m % 24 % 6 = m % 6 := by omega
  rw [e1, e2, e3] at h24
  exact h24

theorem update_stream_run_const (w n : Nat) (tbl : List Nat) (htbl : ∀ x ∈ tbl, x ≤ 1)
    (s : ws2812b_t) (hw : n * s.buffer_sz < 2 ^ w) (v : Nat)
    (hv : ∀ i, i < s.buffer_sz → s.p_buffer i = v) (k : Nat) (hk : k < n * s.buffer_sz) :
    (update_stream_run w n tbl s).p_stream k
      = ref_stream_byte (pushed_byte n tbl v) (k % n) := by
  rw [update_stream_run_bytes w n tbl htbl s hw k hk]
  exact pushed_const n tbl s.p_buffer v s.buffer_sz hv k hk

/-- C4 (all-zero and all-ones colour buffers): let `v` be 0x00 or 0xFF, `a` a
strip in state 2.5 MHz and `b` a strip in state 5 MHz, every colour byte of
both equal to `v`, their waveform lengths being `size_t` values.  For
`v = 0x00` the output of the speed A encoder is the bytes 0x92,0x49,0x24
repeating, which unpacked MSB-first is the repeating pattern `100`, and the
output of the speed B encoder is 0xC3,0x0C,0x30 repeating, which unpacked is
`110000` repeating.  For `v = 0xFF` the outputs are 0xDB,0x6D,0xB6 repeating
(`110` repeating) and 0xF3,0xCF,0x3C repeating (`111100` repeating).  This
holds for every output byte (offsets below `3 * buffer_sz`, resp.
`6 * buffer_sz`) and every output bit. -/
theorem constant_colour_waveform (w : Nat) (a b : ws2812b_t) (v : Nat)
    (hv : v = 0x00 ∨ v = 0xFF)
    (ha : a.init_state = WS2812B_INIT_2p5MHz) (hwa : 3 * a.buffer_sz < 2 ^ w)
    (hav : ∀ i, i < a.buffer_sz → a.p_buffer i = v)
    (hb : b.init_state = WS2812B_INIT_5MHz) (hwb : 6 * b.buffer_sz < 2 ^ w)
    (hbv : ∀ i, i < b.buffer_sz → b.p_buffer i = v) :
    (∀ k, k < 3 * a.buffer_sz →
      (ws2812b_update_stream_2p5mhz w a).p_stream k
        = (if v = 0x00 then [0x92, 0x49, 0x24] else [0xDB, 0x6D, 0xB6]).getD (k % 3) 0) ∧
    (∀ m, m < 24 * a.buffer_sz →
      unpacked_bit (ws2812b_update_stream_2p5mhz w a).p_stream m
        = (if v = 0x00 then [1, 0, 0] else [1, 1, 0]).getD (m % 3) 0) ∧
    (∀ k, k < 6 * b.buffer_sz →
      (ws2812b_update_stream_5mhz w b).p_stream k
        = (if v = 0x00 then [0xC3, 0x0C, 0x30] else [0xF3, 0xCF, 0x3C]).getD (k % 3) 0) ∧
    (∀ m, m < 48 * b.buffer_sz →
      unpacked_bit (ws2812b_update_stream_5mhz w b).p_stream m
        = (if v = 0x00 then [1, 1, 0, 0, 0, 0] else [1, 1, 1, 1, 0, 0]).getD (m % 6) 0) := by
  have houta : (ws2812b_update_stream_2p5mhz w a).p_stream
      = (update_stream_run w 3 bits_to_add_2p5mhz a).p_stream := by
    simp only [ws2812b_update_stream_2p5mhz, if_pos ha]
  have houtb : (ws2812b_update_stream_5mhz w b).p_stream
      = (update_stream_run w 6 bits_to_add_5mhz b).p_stream := by
    simp only [ws2812b_update_stream_5mhz, if_pos hb]
  have h63 : ∀ k : Nat, k % 6 % 3 = k % 3 := fun k => by omega
  rw [houta, houtb]
  have hbytes_a : ∀ k, k < 3 * a.buffer_sz →
      (update_stream_run w 3 bits_to_add_2p5mhz a).p_stream k
        = (if v = 0x00 then [0x92, 0x49, 0x24] else [0xDB, 0x6D, 0xB6]).getD (k % 3) 0 := by
    intro k hk
    rw [update_stream_run_const w 3 _ bits_to_add_2p5mhz_le_one a hwa v hav k hk]
    rcases hv with hv | hv <;> subst hv
    · exact const_bytes_2p5mhz.1 (k % 3) (Nat.mod_lt _ (by decide))
    · exact const_bytes_2p5mhz.2 (k % 3) (Nat.mod_lt _ (by decide))
  have hbytes_b : ∀ k, k < 6 * b.buffer_sz →
      (update_stream_run w 6 bits_to_add_5mhz b).p_stream k
        = (if v = 0x00 then [0xC3, 0x0C, 0x30] else [0xF3, 0xCF, 0x3C]).getD (k % 3) 0 := by
    intro k hk
    rw [update_stream_run_const w 6 _ bits_to_add_5mhz_le_one b hwb v hbv k hk]
    rcases hv with hv | hv <;> subst hv
    · rw [const_bytes_5mhz.1 (k % 6) (Nat.mod_lt _ (by decide)), h63]; rfl
    · rw [const_bytes_5mhz.2 (k % 6) (Nat.mod_lt _ (by decide)), h63]; rfl
  refine ⟨hbytes_a, fun m hm => ?_, hbytes_b, fun m hm => ?_⟩
  · have hp := hbytes_a (m / 8) (by omega)
    rcases hv with hv | hv <;> subst hv
    · exact unpack_period_3 _ _ (by decide) _ m hp
    · exact unpack_period_3 _ _ (by decide) _ m hp
  · have hp := hbytes_b (m / 8) (by omega)
    rcases hv with hv | hv <;> subst hv
    · exact unpack_period_6 _ _ (by decide) _ m hp
    · exact unpack_period_6 _ _ (by decide) _ m hp

/-- Witness for C4: three-LED strips (nine colour bytes) that are all ones,
one in each state. -/
theorem constant_colour_waveform_witness :
    ((0xFF : Nat) = 0x00 ∨ (0xFF : Nat) = 0xFF) ∧
    (strip_of 3 9 27 (fun _ => 0xFF) WS2812B_INIT_2p5MHz).init_state = WS2812B_INIT_2p5MHz ∧
    3 * (strip_of 3 9 27 (fun _ => 0xFF) WS2812B_INIT_2p5MHz).buffer_sz < 2 ^ 32 ∧
    (strip_of 3 9 54 (fun _ => 0xFF) WS2812B_INIT_5MHz).init_state = WS2812B_INIT_5MHz ∧
    6 * (strip_of 3 9 54 (fun _ => 0xFF) WS2812B_INIT_5MHz).buffer_sz < 2 ^ 32 ∧
    (ws2812b_update_stream_2p5mhz 32
      (strip_of 3 9 27 (fun _ => 0xFF) WS2812B_INIT_2p5MHz)).p_stream 26 = 0xB6 ∧
    unpacked_bit (ws2812b_update_stream_2p5mhz 32
      (strip_of 3 9 27 (fun _ => 0xFF) WS2812B_INIT_2p5MHz)).p_stream 214 = 1 ∧
    (ws2812b_update_stream_5mhz 32
      (strip_of 3 9 54 (fun _ => 0xFF) WS2812B_INIT_5MHz)).p_stream 52 = 0xCF ∧
    unpacked_bit (ws2812b_update_stream_5mhz 32
      (strip_of 3 9 54 (fun _ => 0xFF) WS2812B_INIT_5MHz)).p_stream 431 = 0 :=
  ⟨Or.inr rfl, rfl, by decide, rfl, by decide,
    (constant_colour_waveform 32 (strip_of 3 9 27 (fun _ => 0xFF) WS2812B_INIT_2p5MHz)
      (strip_of 3 9 54 (fun _ => 0xFF) WS2812B_INIT_5MHz) 0xFF (Or.inr rfl)
      rfl (by decide) (fun _ _ => rfl) rfl (by decide) (fun _ _ => rfl)).1 26 (by decide),
    (constant_colour_waveform 32 (strip_of 3 9 27 (fun _ => 0xFF) WS2812B_INIT_2p5MHz)
      (strip_of 3 9 54 (fun _ => 0xFF) WS2812B_INIT_5MHz) 0xFF (Or.inr rfl)
      rfl (by decide) (fun _ _ => rfl) rfl (by decide) (fun _ _ => rfl)).2.1 214 (by decide),
    (constant_colour_waveform 32 (strip_of 3 9 27 (fun _ => 0xFF) WS2812B_INIT_2p5MHz)
      (strip_of 3 9 54 (fun _ => 0xFF) WS2812B_INIT_5MHz) 0xFF (Or.inr rfl)
      rfl (by decide) (fun _ _ => rfl) rfl (by decide) (fun _ _ => rfl)).2.2.1 52 (by decide),
    (constant_colour_waveform 32 (strip_of 3 9 27 (fun _ => 0xFF) WS2812B_INIT_2p5MHz)
      (strip_of 3 9 54 (fun _ => 0xFF) WS2812B_INIT_5MHz) 0xFF (Or.inr rfl)
      rfl (by decide) (fun _ _ => rfl) rfl (by decide) (fun _ _ => rfl)).2.2.2 431
      (by decide)⟩

/-! ## Colour writes -/

theorem ws2812b_data_set_x_false_iff (w : Nat) (s : ws2812b_t)
    (start count red green blue : Nat) :
    (ws2812b_data_set_x w s start count red green blue).1 = false ↔
      s.init_state = WS2812B_INIT_FAILED ∨ start < 1 ∨
        s.led_count ≤ size_sub w (size_add w (size_sub w start 1) count) 1 := by
  unfold ws2812b_data_set_x
  by_cases h0 : 0 < start <;> by_cases hs : s.init_state = WS2812B_INIT_FAILED <;>
    by_cases hb : s.led_count > size_sub w (size_add w (size_sub w start 1) count) 1 <;>
    simp [h0, hs, hb] <;> omega

theorem ws2812b_data_set_x_false_unchanged (w : Nat) (s : ws2812b_t)
    (start count red green blue : Nat)
    (h : (ws2812b_data_set_x w s start count red green blue).1 = false) :
    (ws2812b_data_set_x w s start count red green blue).2 = s := by
  unfold ws2812b_data_set_x at h ⊢
  by_cases h0 : 0 < start <;> by_cases hs : s.init_state = WS2812B_INIT_FAILED <;>
    by_cases hb : s.led_count > size_sub w (size_add w (size_sub w start 1) count) 1 <;>
    simp [h0, hs, hb] at h ⊢

/-- C5 (`ws2812b_data_set_x` returns false exactly when the state is Failed,
`start < 1`, or `start-1+count-1 >= led_count` as an exact integer): on a
configured ten-LED strip with a 32-bit `size_t`, the call with `start = 3` and
`count = 4294967295` returns true and changes no colour byte, although
`start-1+count-1 = 4294967296 >= led_count`; the call with `start = 1` and
`count = 0` returns false although `start-1+count-1 = -1 < led_count`.  The
sum in the bounds test is reduced modulo `2 ^ 32`. -/
theorem set_x_bounds_test_wraps :
    ((ws2812b_data_set_x 32 (strip_of 10 30 90 (fun _ => 0) WS2812B_INIT_2p5MHz)
        3 4294967295 1 2 3).1 = true ∧
      (ws2812b_data_set_x 32 (strip_of 10 30 90 (fun _ => 0) WS2812B_INIT_2p5MHz)
        3 4294967295 1 2 3).2.p_buffer
        = (strip_of 10 30 90 (fun _ => 0) WS2812B_INIT_2p5MHz).p_buffer ∧
      ((3 : Int) - 1 + 4294967295 - 1
        ≥ ((strip_of 10 30 90 (fun _ => 0) WS2812B_INIT_2p5MHz).led_count : Int))) ∧
    ((ws2812b_data_set_x 32 (strip_of 10 30 90 (fun _ => 0) WS2812B_INIT_2p5MHz)
        1 0 1 2 3).1 = false ∧
      ((1 : Int) - 1 + 0 - 1
        < ((strip_of 10 30 90 (fun _ => 0) WS2812B_INIT_2p5MHz).led_count : Int))) := by
  refine ⟨⟨by decide, ?_, by decide⟩, by decide, by decide⟩
  have hstart : size_mul 32 (size_sub 32 3 1) WS2812B_BYTES_PER_LED = 6 := by decide
  have hnum : size_add 32 6 (size_mul 32 4294967295 WS2812B_BYTES_PER_LED) = 3 := by decide
  have hcheck : (strip_of 10 30 90 (fun _ => 0) WS2812B_INIT_2p5MHz).led_count
      > size_sub 32 (size_add 32 (size_sub 32 3 1) 4294967295) 1 := by decide
  unfold ws2812b_data_set_x
  rw [if_pos (by decide), if_pos (by decide), if_pos hcheck]
  simp only [hstart]
  rw [set_x_loop, hnum, dif_neg (by decide)]

/-- C6 (`ws2812b_data_set_x` writes the GRB triple to each LED of the range
and nothing else): for a strip whose state is not Failed and for `start >= 1`,
`count >= 1` with `start-1+count <= led_count`, the byte offsets of the range
being `size_t` values (`3 * (start-1+count) < 2 ^ w`, which holds whenever the
`3 * led_count` colour bytes of the strip are addressable), the call returns
true; afterwards the colour bytes `3(i-1)`, `3(i-1)+1`, `3(i-1)+2` of every LED
`i` in `[start, start+count)` are green, red, blue in that order; every other
colour byte, the stream buffer, the sizes, `led_count` and the state are
unchanged. -/
theorem set_x_writes_grb_range (w : Nat) (s : ws2812b_t) (start count red green blue : Nat)
    (hs : s.init_state ≠ WS2812B_INIT_FAILED) (h1 : 1 ≤ start) (hc : 1 ≤ count)
    (hfit : start - 1 + count ≤ s.led_count) (hw : (start - 1 + count) * 3 < 2 ^ w) :
    (ws2812b_data_set_x w s start count red green blue).1 = true ∧
    (∀ i, start ≤ i → i < start + count →
      (ws2812b_data_set_x w s start count red green blue).2.p_buffer (3 * (i - 1)) = green ∧
      (ws2812b_data_set_x w s start count red green blue).2.p_buffer (3 * (i - 1) + 1) = red ∧
      (ws2812b_data_set_x w s start count red green blue).2.p_buffer (3 * (i - 1) + 2) = blue) ∧
    (∀ j, j < 3 * (start - 1) ∨ 3 * (start - 1 + count) ≤ j →
      (ws2812b_data_set_x w s start count red green blue).2.p_buffer j = s.p_buffer j) ∧
    (ws2812b_data_set_x w s start count red green blue).2.p_stream = s.p_stream ∧
    (ws2812b_data_set_x w s start count red green blue).2.buffer_sz = s.buffer_sz ∧
    (ws2812b_data_set_x w s start count red green blue).2.stream_sz = s.stream_sz ∧
    (ws2812b_data_set_x w s start count red green blue).2.led_count = s.led_count ∧
    (ws2812b_data_set_x w s start count red green blue).2.init_state = s.init_state := by
  rw [ws2812b_data_set_x_ok w s start count red green blue hs h1 hc hfit hw]
  refine ⟨rfl, ?_, ?_, rfl, rfl, rfl, rfl, rfl⟩
  · intro i hi1 hi2
    simp only [painted]
    refine ⟨?_, ?_, ?_⟩
    · rw [if_pos (by omega), if_pos (by omega)]
    · rw [if_pos (by omega), if_neg (by omega), if_pos (by omega)]
    · rw [if_pos (by omega), if_neg (by omega), if_neg (by omega)]
  · intro j hj
    simp only [painted]
    rw [if_neg (by omega)]

/-- Witness for C6: LEDs 3 and 4 of a ten-LED strip set to the colour
(10, 20, 30). -/
theorem set_x_writes_grb_range_witness :
    (strip_of 10 30 90 (fun _ => 0) WS2812B_INIT_2p5MHz).init_state ≠ WS2812B_INIT_FAILED ∧
    1 ≤ 3 ∧ 1 ≤ 2 ∧
    3 - 1 + 2 ≤ (strip_of 10 30 90 (fun _ => 0) WS2812B_INIT_2p5MHz).led_count ∧
    (3 - 1 + 2) * 3 < 2 ^ 32 ∧
    (ws2812b_data_set_x 32 (strip_of 10 30 90 (fun _ => 0) WS2812B_INIT_2p5MHz)
      3 2 10 20 30).1 = true ∧
    (ws2812b_data_set_x 32 (strip_of 10 30 90 (fun _ => 0) WS2812B_INIT_2p5MHz)
      3 2 10 20 30).2.p_buffer (3 * (4 - 1)) = 20 ∧
    (ws2812b_data_set_x 32 (strip_of 10 30 90 (fun _ => 0) WS2812B_INIT_2p5MHz)
      3 2 10 20 30).2.p_buffer (3 * (4 - 1) + 1) = 10 ∧
    (ws2812b_data_set_x 32 (strip_of 10 30 90 (fun _ => 0) WS2812B_INIT_2p5MHz)
      3 2 10 20 30).2.p_buffer (3 * (4 - 1) + 2) = 30 :=
  ⟨by decide, by decide, by decide, by decide, by decide,
    (set_x_writes_grb_range 32 _ 3 2 10 20 30 (by decide) (by decide) (by decide)
      (by decide) (by decide)).1,
    ((set_x_writes_grb_range 32 _ 3 2 10 20 30 (by decide) (by decide) (by decide)
      (by decide) (by decide)).2.1 4 (by decide) (by decide)).1,
    ((set_x_writes_grb_range 32 _ 3 2 10 20 30 (by decide) (by decide) (by decide)
      (by decide) (by decide)).2.1 4 (by decide) (by decide)).2.1,
    ((set_x_writes_grb_range 32 _ 3 2 10 20 30 (by decide) (by decide) (by decide)
      (by decide) (by decide)).2.1 4 (by decide) (by decide)).2.2⟩

/-- C7 (a Failed strip blocks colour writes and encoding): when the state of
`f` is Failed, `ws2812b_data_set_x`, `ws2812b_data_set`, `ws2812b_data_set_all`
and `ws2812b_data_clear_all` return false and leave the strip, hence the colour
buffer, unchanged, and both encoders leave the strip unchanged and store
nothing; more generally the speed A encoder leaves unchanged, and stores
nothing to, every strip `a` whose state is not 2.5 MHz, and the speed B
encoder every strip `b` whose state is not 5 MHz. -/
theorem failed_state_blocks_writes (w : Nat) (f a b : ws2812b_t)
    (hf : f.init_state = WS2812B_INIT_FAILED)
    (ha : a.init_state ≠ WS2812B_INIT_2p5MHz) (hb : b.init_state ≠ WS2812B_INIT_5MHz) :
    (∀ start count red green blue,
      ws2812b_data_set_x w f start count red green blue = (false, f)) ∧
    (∀ led_num red green blue, ws2812b_data_set w f led_num red green blue = (false, f)) ∧
    (∀ red green blue, ws2812b_data_set_all w f red green blue = (false, f)) ∧
    ws2812b_data_clear_all w f = (false, f) ∧
    (ws2812b_update_stream_2p5mhz w f = f ∧ ws2812b_update_stream_2p5mhz_stored w f = []) ∧
    (ws2812b_update_stream_5mhz w f = f ∧ ws2812b_update_stream_5mhz_stored w f = []) ∧
    (ws2812b_update_stream_2p5mhz w a = a ∧ ws2812b_update_stream_2p5mhz_stored w a = []) ∧
    (ws2812b_update_stream_5mhz w b = b ∧ ws2812b_update_stream_5mhz_stored w b = []) := by
  have hx : ∀ start count red green blue,
      ws2812b_data_set_x w f start count red green blue = (false, f) := by
    intro start count red green blue
    unfold ws2812b_data_set_x
    simp [hf]
  refine ⟨hx, fun led_num red green blue => hx led_num 1 red green blue,
    fun red green blue => hx 1 f.led_count red green blue, hx 1 f.led_count 0 0 0,
    ?_, ?_, ?_, ?_⟩
  · simp [ws2812b_update_stream_2p5mhz, ws2812b_update_stream_2p5mhz_stored, hf]
  · simp [ws2812b_update_stream_5mhz, ws2812b_update_stream_5mhz_stored, hf]
  · simp [ws2812b_update_stream_2p5mhz, ws2812b_update_stream_2p5mhz_stored, ha]
  · simp [ws2812b_update_stream_5mhz, ws2812b_update_stream_5mhz_stored, hb]

/-- Witness for C7: the strip with `led_count = 10`, `buffer_sz = 30` and
`stream_sz = 89` is left Failed by configuration for speed A; afterwards the
colour writes return false and neither they nor the encoders change it.  The
speed A encoder also leaves a strip in state 5 MHz unchanged, and the speed B
encoder a strip in state 2.5 MHz. -/
theorem failed_state_blocks_writes_witness :
    short_stream_strip.init_state = WS2812B_INIT_FAILED ∧
    two_byte_strip_5mhz.init_state ≠ WS2812B_INIT_2p5MHz ∧
    two_byte_strip_2p5mhz.init_state ≠ WS2812B_INIT_5MHz ∧
    ws2812b_data_set_x 32 short_stream_strip 1 10 1 2 3 = (false, short_stream_strip) ∧
    ws2812b_data_clear_all 32 short_stream_strip = (false, short_stream_strip) ∧
    ws2812b_update_stream_2p5mhz 32 short_stream_strip = short_stream_strip ∧
    ws2812b_update_stream_2p5mhz_stored 32 short_stream_strip = [] ∧
    ws2812b_update_stream_2p5mhz 32 two_byte_strip_5mhz = two_byte_strip_5mhz ∧
    ws2812b_update_stream_5mhz 32 two_byte_strip_2p5mhz = two_byte_strip_2p5mhz :=
  ⟨by decide, by decide, by decide,
    (failed_state_blocks_writes 32 short_stream_strip two_byte_strip_5mhz
      two_byte_strip_2p5mhz (by decide) (by decide) (by decide)).1 1 10 1 2 3,
    (failed_state_blocks_writes 32 short_stream_strip two_byte_strip_5mhz
      two_byte_strip_2p5mhz (by decide) (by decide) (by decide)).2.2.2.1,
    (failed_state_blocks_writes 32 short_stream_strip two_byte_strip_5mhz
      two_byte_strip_2p5mhz (by decide) (by decide) (by decide)).2.2.2.2.1.1,
    (failed_state_blocks_writes 32 short_stream_strip two_byte_strip_5mhz
      two_byte_strip_2p5mhz (by decide) (by decide) (by decide)).2.2.2.2.1.2,
    (failed_state_blocks_writes 32 short_stream_strip two_byte_strip_5mhz
      two_byte_strip_2p5mhz (by decide) (by decide) (by decide)).2.2.2.2.2.2.1.1,
    (failed_state_blocks_writes 32 short_stream_strip two_byte_strip_5mhz
      two_byte_strip_2p5mhz (by decide) (by decide) (by decide)).2.2.2.2.2.2.2.1⟩

theorem set_all_then_clear_all_buffer (w : Nat) (s : ws2812b_t) (red green blue : Nat)
    (hs : s.init_state ≠ WS2812B_INIT_FAILED) (hw : s.led_count * 3 < 2 ^ w) :
    (ws2812b_data_clear_all w (ws2812b_data_set_all w s red green blue).2).2.p_buffer
      = fun j => if j < 3 * s.led_count then 0 else s.p_buffer j := by
  unfold ws2812b_data_clear_all ws2812b_data_set_all
  by_cases hz : s.led_count = 0
  · rw [ws2812b_data_set_x_zero_leds w s red green blue hz]
    rw [ws2812b_data_set_x_zero_leds w s 0 0 0 hz]
    funext j
    rw [if_neg (by omega)]
  · have hc : 1 ≤ s.led_count := by omega
    have hw1 : (1 - 1 + s.led_count) * 3 < 2 ^ w := by omega
    rw [ws2812b_data_set_x_ok w s 1 s.led_count red green blue hs (by decide) hc (by omega) hw1]
    simp only []
    rw [ws2812b_data_set_x_ok w
      { s with
        p_buffer := painted s.p_buffer (3 * (1 - 1)) (3 * (1 - 1) + 3 * s.led_count)
          red green blue }
      1 s.led_count 0 0 0 hs (by decide) hc
      (by show 1 - 1 + s.led_count ≤ s.led_count; omega) hw1]
    funext j
    simp only [painted]
    split_ifs <;> first | rfl | omega

/-- C8, as stated, fails: on a configured strip with `led_count = 1` and
`buffer_sz = 4` whose colour bytes all hold 7, `ws2812b_data_set_all` followed
by `ws2812b_data_clear_all` leaves the colour byte at offset 3, which is below
`buffer_sz`, equal to 7. -/
theorem set_all_then_clear_all_keeps_tail :
    ¬ (∀ j, j < (strip_of 1 4 9 (fun _ => 7) WS2812B_INIT_2p5MHz).buffer_sz →
        (ws2812b_data_clear_all 32
          (ws2812b_data_set_all 32 (strip_of 1 4 9 (fun _ => 7) WS2812B_INIT_2p5MHz)
            1 2 3).2).2.p_buffer j = 0) := by
  intro h
  have h3 := h 3 (by decide)
  rw [set_all_then_clear_all_buffer 32 _ 1 2 3 (by decide) (by decide)] at h3
  revert h3
  decide

/-- C8, amended: for every strip whose state is not Failed and whose
`led_count * 3` colour bytes are addressable by a `size_t`, and every colour,
`ws2812b_data_set_all` followed by `ws2812b_data_clear_all` leaves every colour
byte at an offset below `3 * led_count` equal to zero, and every colour byte
at an offset from `3 * led_count` on with the value it held before. -/
theorem set_all_then_clear_all_zeroes_leds (w : Nat) (s : ws2812b_t) (red green blue : Nat)
    (hs : s.init_state ≠ WS2812B_INIT_FAILED) (hw : s.led_count * 3 < 2 ^ w) :
    (∀ j, j < 3 * s.led_count →
      (ws2812b_data_clear_all w (ws2812b_data_set_all w s red green blue).2).2.p_buffer j = 0) ∧
    (∀ j, 3 * s.led_count ≤ j →
      (ws2812b_data_clear_all w (ws2812b_data_set_all w s red green blue).2).2.p_buffer j
        = s.p_buffer j) := by
  rw [set_all_then_clear_all_buffer w s red green blue hs hw]
  refine ⟨fun j hj => ?_, fun j hj => ?_⟩
  · simp only []
    rw [if_pos hj]
  · simp only []
    rw [if_neg (by omega)]

/-- Witness for the amended C8: a ten-LED strip with thirty colour bytes. -/
theorem set_all_then_clear_all_zeroes_leds_witness :
    (strip_of 10 30 90 (fun _ => 7) WS2812B_INIT_2p5MHz).init_state ≠ WS2812B_INIT_FAILED ∧
    (strip_of 10 30 90 (fun _ => 7) WS2812B_INIT_2p5MHz).led_count * 3 < 2 ^ 32 ∧
    (ws2812b_data_clear_all 32
      (ws2812b_data_set_all 32 (strip_of 10 30 90 (fun _ => 7) WS2812B_INIT_2p5MHz)
        1 2 3).2).2.p_buffer 29 = 0 :=
  ⟨by decide, by decide,
    (set_all_then_clear_all_zeroes_leds 32 _ 1 2 3 (by decide) (by decide)).1 29 (by decide)⟩

/-! ## Object overlap -/

/-- C9 (`ws2812b_draw_get_obj_overlap` is true iff the inclusive ranges share
an index, also when one range lies strictly inside the other): for element 0
at position 3 with length 1 (range [3, 3]) and element 1 at position 1 with
length 5 (range [1, 5]) the function returns false, although
`max(3, 1) <= min(3, 5)` and index 3 lies in both ranges.  The test only asks
whether the start or the end of the second range lies in the first. -/
theorem overlap_misses_containment :
    ws2812b_draw_get_obj_overlap 32 (registry_of_two (object_at 3 1) (object_at 1 5)) 0 1
      = false ∧
    max ((registry_of_two (object_at 3 1) (object_at 1 5)).p_objs 0).position
        ((registry_of_two (object_at 3 1) (object_at 1 5)).p_objs 1).position
      ≤ min
        (((registry_of_two (object_at 3 1) (object_at 1 5)).p_objs 0).position
          + ((registry_of_two (object_at 3 1) (object_at 1 5)).p_objs 0).length - 1)
        (((registry_of_two (object_at 3 1) (object_at 1 5)).p_objs 1).position
          + ((registry_of_two (object_at 3 1) (object_at 1 5)).p_objs 1).length - 1) := by
  decide

/-- C10 (`ws2812b_draw_get_obj_overlap(a, b) == ws2812b_draw_get_obj_overlap(b, a)`):
for element 0 at position 3 with length 1 and element 1 at position 1 with
length 5 the function returns false for the pair (0, 1) and true for the pair
(1, 0). -/
theorem overlap_not_symmetric :
    ws2812b_draw_get_obj_overlap 32 (registry_of_two (object_at 3 1) (object_at 1 5)) 0 1
      = false ∧
    ws2812b_draw_get_obj_overlap 32 (registry_of_two (object_at 3 1) (object_at 1 5)) 1 0
      = true := by
  decide


/-! ## Object accessors -/

theorem set_obj_same (p : Nat → ws2812b_draw_object_t) (e : Nat) (o : ws2812b_draw_object_t) :
    set_obj p e o e = o := by
  simp [set_obj]

theorem set_obj_other (p : Nat → ws2812b_draw_object_t) (e i : Nat) (o : ws2812b_draw_object_t)
    (h : i ≠ e) : set_obj p e o i = p i := by
  simp [set_obj, h]

theorem set_obj_self (p : Nat → ws2812b_draw_object_t) (e : Nat) : set_obj p e (p e) = p := by
  funext i
  by_cases h : i = e
  · subst h; simp [set_obj]
  · simp [set_obj, h]

/-- C11 (`ws2812b_draw_get_hit` is a read-and-clear of the completion latch):
for a valid element the call returns the current value of `b_hit_end` and
leaves it false, changing no other field of the object, no other object and no
other variable; a second read returns false; when the latch is unset the call
changes nothing at all.  For an element `bad` that is out of range the call
returns false and changes nothing. -/
theorem get_hit_reads_and_clears (g : draw_globals) (element bad : Nat)
    (hp : g.p_objs_present = true) (he : element < g.objects_count)
    (hbad : g.objects_count ≤ bad) :
    (ws2812b_draw_get_hit g element).1 = (g.p_objs element).b_hit_end ∧
    (ws2812b_draw_get_hit g element).2.p_objs element
      = { g.p_objs element with b_hit_end := false } ∧
    (∀ i, i ≠ element → (ws2812b_draw_get_hit g element).2.p_objs i = g.p_objs i) ∧
    (ws2812b_draw_get_hit g element).2.p_strip = g.p_strip ∧
    (ws2812b_draw_get_hit g element).2.p_strip_present = g.p_strip_present ∧
    (ws2812b_draw_get_hit g element).2.p_objs_present = g.p_objs_present ∧
    (ws2812b_draw_get_hit g element).2.objects_count = g.objects_count ∧
    (ws2812b_draw_get_hit g element).2.tick_ms_elapsed = g.tick_ms_elapsed ∧
    (ws2812b_draw_get_hit g element).2.tick_ms_value = g.tick_ms_value ∧
    (ws2812b_draw_get_hit (ws2812b_draw_get_hit g element).2 element).1 = false ∧
    ((g.p_objs element).b_hit_end = false → (ws2812b_draw_get_hit g element).2 = g) ∧
    ws2812b_draw_get_hit g bad = (false, g) := by
  have hbad' : ¬ bad < g.objects_count := by omega
  by_cases hl : (g.p_objs element).b_hit_end = true
  · have hr : ws2812b_draw_get_hit g element
        = (true, { g with
            p_objs := set_obj g.p_objs element
              { g.p_objs element with b_hit_end := false } }) := by
      simp [ws2812b_draw_get_hit, hp, he, hl]
    rw [hr]
    refine ⟨hl.symm, set_obj_same _ _ _, fun i hi => set_obj_other _ _ _ _ hi,
      rfl, rfl, rfl, rfl, rfl, rfl, ?_, ?_, ?_⟩
    · simp [ws2812b_draw_get_hit, hp, he, set_obj]
    · intro h; rw [h] at hl; exact absurd hl (by decide)
    · simp [ws2812b_draw_get_hit, hbad']
  · have hl' : (g.p_objs element).b_hit_end = false := by
      cases h : (g.p_objs element).b_hit_end
      · rfl
      · exact absurd h hl
    have hr : ws2812b_draw_get_hit g element = (false, g) := by
      simp [ws2812b_draw_get_hit, hp, he, hl']
    rw [hr]
    refine ⟨hl'.symm, ?_, fun i _ => rfl, rfl, rfl, rfl, rfl, rfl, rfl, ?_, fun _ => rfl, ?_⟩
    · show g.p_objs element = _
      cases ho : g.p_objs element
      rw [ho] at hl'
      simp only [] at hl'
      subst hl'
      rfl
    · show (ws2812b_draw_get_hit g element).1 = false
      rw [hr]
    · simp [ws2812b_draw_get_hit, hbad']

/-- Witness for C11: element 0 of a two-object registry has its latch set; the
first read returns true and clears it, element 5 is out of range. -/
theorem get_hit_reads_and_clears_witness :
    (registry_of_two { object_at 5 1 with b_hit_end := true } (object_at 1 1)).p_objs_present
      = true ∧
    0 < (registry_of_two { object_at 5 1 with b_hit_end := true }
      (object_at 1 1)).objects_count ∧
    (registry_of_two { object_at 5 1 with b_hit_end := true }
      (object_at 1 1)).objects_count ≤ 5 ∧
    (ws2812b_draw_get_hit
      (registry_of_two { object_at 5 1 with b_hit_end := true } (object_at 1 1)) 0).1
      = true ∧
    (ws2812b_draw_get_hit
      (ws2812b_draw_get_hit
        (registry_of_two { object_at 5 1 with b_hit_end := true } (object_at 1 1)) 0).2 0).1
      = false :=
  ⟨rfl, by decide, by decide,
    (get_hit_reads_and_clears
      (registry_of_two { object_at 5 1 with b_hit_end := true } (object_at 1 1)) 0 5
      rfl (by decide) (by decide)).1,
    (get_hit_reads_and_clears
      (registry_of_two { object_at 5 1 with b_hit_end := true } (object_at 1 1)) 0 5
      rfl (by decide) (by decide)).2.2.2.2.2.2.2.2.2.1⟩

theorem int32_wrap_of_range (x : Int) (hlo : -2147483648 ≤ x) (hhi : x ≤ 2147483647) :
    int32_wrap x = x := by
  unfold int32_wrap
  omega

/-- C12, as stated, fails: with the elapsed-tick counter at 1000, the call
`ws2812b_draw_set_duration(0, 2147483647)` does not store
`elapsed + ms = 2147484647`, which no `int32_t` holds; the stored deadline is
`-2147482649`, so the object is already expired at the current counter value,
which is below `elapsed + ms`. -/
theorem set_duration_sum_wraps :
    ((ws2812b_draw_set_duration (registry_at 1000 (object_at 1 1) (object_at 1 1))
        0 2147483647).p_objs 0).duration_ms
      ≠ (registry_at 1000 (object_at 1 1) (object_at 1 1)).tick_ms_elapsed + 2147483647 ∧
    ((ws2812b_draw_set_duration (registry_at 1000 (object_at 1 1) (object_at 1 1))
        0 2147483647).p_objs 0).duration_ms = -2147482649 ∧
    (registry_at 1000 (object_at 1 1) (object_at 1 1)).tick_ms_elapsed
      ≥ ((ws2812b_draw_set_duration (registry_at 1000 (object_at 1 1) (object_at 1 1))
          0 2147483647).p_objs 0).duration_ms := by
  decide

/-- C12, amended: for a valid element and a 32-bit `ms`, with the elapsed-tick
counter `elapsed` an `int32_t` value: if `ms >= 0` and `elapsed + ms` does not
exceed 2147483647, `ws2812b_draw_set_duration` stores the deadline
`elapsed + ms`, so the object is unexpired exactly for the counter values
below `elapsed + ms`; if `ms < 0` it stores 0x7FFFFFFF, so the object is
unexpired for every counter value below 2147483647.  No other field of the
object, no other object and no other variable changes. -/
theorem set_duration_stores_deadline (g : draw_globals) (element : Nat) (ms : Int)
    (hp : g.p_objs_present = true) (he : element < g.objects_count)
    (hlo : -2147483648 ≤ g.tick_ms_elapsed)
    (hms : -2147483648 ≤ ms ∧ ms ≤ 2147483647)
    (hsum : 0 ≤ ms → g.tick_ms_elapsed + ms ≤ 2147483647) :
    (0 ≤ ms →
      ((ws2812b_draw_set_duration g element ms).p_objs element).duration_ms
        = g.tick_ms_elapsed + ms ∧
      ∀ t : Int, ¬ (t ≥ ((ws2812b_draw_set_duration g element ms).p_objs element).duration_ms)
        ↔ t < g.tick_ms_elapsed + ms) ∧
    (ms < 0 →
      ((ws2812b_draw_set_duration g element ms).p_objs element).duration_ms = 0x7FFFFFFF ∧
      ∀ t : Int, t < 2147483647 →
        ¬ (t ≥ ((ws2812b_draw_set_duration g element ms).p_objs element).duration_ms)) ∧
    (ws2812b_draw_set_duration g element ms).p_objs element
      = { g.p_objs element with
          duration_ms :=
            ((ws2812b_draw_set_duration g element ms).p_objs element).duration_ms } ∧
    (∀ i, i ≠ element → (ws2812b_draw_set_duration g element ms).p_objs i = g.p_objs i) ∧
    (ws2812b_draw_set_duration g element ms).p_strip = g.p_strip ∧
    (ws2812b_draw_set_duration g element ms).objects_count = g.objects_count ∧
    (ws2812b_draw_set_duration g element ms).tick_ms_elapsed = g.tick_ms_elapsed ∧
    (ws2812b_draw_set_duration g element ms).tick_ms_value = g.tick_ms_value := by
  by_cases h0 : 0 ≤ ms
  · have hw : int32_wrap (g.tick_ms_elapsed + ms) = g.tick_ms_elapsed + ms :=
      int32_wrap_of_range _ (by omega) (hsum h0)
    have hr : ws2812b_draw_set_duration g element ms
        = { g with
            p_objs := set_obj g.p_objs element
              { g.p_objs element with duration_ms := g.tick_ms_elapsed + ms } } := by
      simp [ws2812b_draw_set_duration, hp, he, h0, hw]
    rw [hr]
    refine ⟨fun _ => ⟨by simp [set_obj], fun t => by simp [set_obj]⟩,
      fun h => absurd h0 (by omega), ?_, fun i hi => set_obj_other _ _ _ _ hi,
      rfl, rfl, rfl, rfl⟩
    simp [set_obj]
  · have hr : ws2812b_draw_set_duration g element ms
        = { g with
            p_objs := set_obj g.p_objs element
              { g.p_objs element with duration_ms := 0x7FFFFFFF } } := by
      simp [ws2812b_draw_set_duration, hp, he, h0]
    rw [hr]
    refine ⟨fun h => absurd h h0, fun _ => ⟨by simp [set_obj], fun t ht => ?_⟩, ?_,
      fun i hi => set_obj_other _ _ _ _ hi, rfl, rfl, rfl, rfl⟩
    · simp only [set_obj, if_true]
      omega
    · simp [set_obj]

/-- Witness for the amended C12: at counter value 1000, a duration of 500 ms
gives the deadline 1500. -/
theorem set_duration_stores_deadline_witness :
    (registry_at 1000 (object_at 1 1) (object_at 1 1)).p_objs_present = true ∧
    0 < (registry_at 1000 (object_at 1 1) (object_at 1 1)).objects_count ∧
    -2147483648 ≤ (registry_at 1000 (object_at 1 1) (object_at 1 1)).tick_ms_elapsed ∧
    ((-2147483648 : Int) ≤ 500 ∧ (500 : Int) ≤ 2147483647) ∧
    ((ws2812b_draw_set_duration (registry_at 1000 (object_at 1 1) (object_at 1 1))
        0 500).p_objs 0).duration_ms
      = (registry_at 1000 (object_at 1 1) (object_at 1 1)).tick_ms_elapsed + 500 :=
  ⟨rfl, by decide, by decide, by decide,
    ((set_duration_stores_deadline (registry_at 1000 (object_at 1 1) (object_at 1 1)) 0 500
      rfl (by decide) (by decide) (by decide) (fun _ => by decide)).1 (by decide)).1⟩


/-! ## Rendering one object -/

theorem draw_object_eq (w : Nat) (g : draw_globals) (element : Nat) :
    ws2812b_draw_object w g element
      = { g with
          p_strip := draw_object_strip w g.objects_count g.tick_ms_elapsed element
            (g.p_objs element) g.p_strip
          p_objs := set_obj g.p_objs element
            (draw_object_obj g.objects_count g.tick_ms_elapsed element (g.p_objs element)) } := by
  unfold ws2812b_draw_object draw_object_strip draw_object_obj
  by_cases hc : g.objects_count > element
  · by_cases hn : ws2812b_draw_action_t.DRAW_ACTION_NO_DRAW = (g.p_objs element).action
    · simp [hc, hn.symm, set_obj_self]
    · by_cases hx : g.tick_ms_elapsed ≥ (g.p_objs element).duration_ms
      · simp [hc, hn, hx, set_obj_self]
      · cases ha : (g.p_objs element).action
        · rw [ha] at hn; exact absurd rfl hn
        · simp [hc, hx, ha, set_obj_self]
        · by_cases hm : 0 = Int.tmod g.tick_ms_elapsed (g.p_objs element).blink_rate_ms <;>
            cases hb : (g.p_objs element).blink_state <;>
            simp [hc, hx, ha, hm, hb]
        · by_cases hm : 0 = Int.tmod g.tick_ms_elapsed (g.p_objs element).blink_rate_ms <;>
            cases hb : (g.p_objs element).blink_state <;>
            simp [hc, hx, ha, hm, hb]
  · simp [hc, set_obj_self]

theorem ws2812b_data_set_x_fields (w : Nat) (s : ws2812b_t) (start count red green blue : Nat) :
    (ws2812b_data_set_x w s start count red green blue).2
      = { s with p_buffer := (ws2812b_data_set_x w s start count red green blue).2.p_buffer } := by
  cases s
  simp only [ws2812b_data_set_x]
  split_ifs <;> rfl

theorem draw_object_strip_fields (w objects_count : Nat) (elapsed : Int) (element : Nat)
    (o : ws2812b_draw_object_t) (s : ws2812b_t) :
    draw_object_strip w objects_count elapsed element o s
      = { s with
          p_buffer := (draw_object_strip w objects_count elapsed element o s).p_buffer } := by
  unfold draw_object_strip
  split_ifs
  · exact ws2812b_data_set_x_fields w s _ _ _ _ _
  · exact ws2812b_data_set_x_fields w s _ _ _ _ _
  · rfl
  · rfl

theorem draw_object_strip_led_count (w objects_count : Nat) (elapsed : Int) (element : Nat)
    (o : ws2812b_draw_object_t) (s : ws2812b_t) :
    (draw_object_strip w objects_count elapsed element o s).led_count = s.led_count := by
  rw [draw_object_strip_fields]

theorem draw_object_skip (w : Nat) (g : draw_globals) (element : Nat)
    (h : (g.p_objs element).action = ws2812b_draw_action_t.DRAW_ACTION_NO_DRAW ∨
      g.tick_ms_elapsed ≥ (g.p_objs element).duration_ms) :
    ws2812b_draw_object w g element = g := by
  unfold ws2812b_draw_object
  rcases h with h | h
  · simp [h]
  · by_cases hc : g.objects_count > element <;>
      by_cases hn : ws2812b_draw_action_t.DRAW_ACTION_NO_DRAW = (g.p_objs element).action <;>
      simp [hc, hn, h]

/-- C14 (an object that is NoDraw or expired renders nothing): when the action
of `p_objs[element]` is NoDraw, or `tick_ms_elapsed >= duration_ms`,
`ws2812b_draw_object` leaves every variable as it was: no byte of the colour
buffer changes and the object, its `blink_state` included, is not changed,
whatever its action, position, length and blink rate. -/
theorem draw_object_nodraw_or_expired (w : Nat) (g : draw_globals) (element : Nat)
    (h : (g.p_objs element).action = ws2812b_draw_action_t.DRAW_ACTION_NO_DRAW ∨
      g.tick_ms_elapsed ≥ (g.p_objs element).duration_ms) :
    ws2812b_draw_object w g element = g ∧
    (ws2812b_draw_object w g element).p_strip.p_buffer = g.p_strip.p_buffer ∧
    (ws2812b_draw_object w g element).p_objs element = g.p_objs element := by
  rw [draw_object_skip w g element h]
  exact ⟨rfl, rfl, rfl⟩

/-- Witness for C14: a BlinkBlack object with blink rate 100 whose deadline
500 has passed at counter value 600, a multiple of its blink rate. -/
theorem draw_object_nodraw_or_expired_witness :
    (((registry_at 600
        (drawn_object ws2812b_draw_action_t.DRAW_ACTION_BLINK_BLACK
          ws2812b_blink_state_t.BLINK_STATE_OFF 100 500 3 2)
        (object_at 1 1)).p_objs 0).action = ws2812b_draw_action_t.DRAW_ACTION_NO_DRAW ∨
      (registry_at 600
        (drawn_object ws2812b_draw_action_t.DRAW_ACTION_BLINK_BLACK
          ws2812b_blink_state_t.BLINK_STATE_OFF 100 500 3 2)
        (object_at 1 1)).tick_ms_elapsed
        ≥ ((registry_at 600
          (drawn_object ws2812b_draw_action_t.DRAW_ACTION_BLINK_BLACK
            ws2812b_blink_state_t.BLINK_STATE_OFF 100 500 3 2)
          (object_at 1 1)).p_objs 0).duration_ms) ∧
    (ws2812b_draw_object 32
      (registry_at 600
        (drawn_object ws2812b_draw_action_t.DRAW_ACTION_BLINK_BLACK
          ws2812b_blink_state_t.BLINK_STATE_OFF 100 500 3 2)
        (object_at 1 1)) 0).p_objs 0
      = drawn_object ws2812b_draw_action_t.DRAW_ACTION_BLINK_BLACK
          ws2812b_blink_state_t.BLINK_STATE_OFF 100 500 3 2 :=
  ⟨Or.inr (by decide),
    (draw_object_nodraw_or_expired 32
      (registry_at 600
        (drawn_object ws2812b_draw_action_t.DRAW_ACTION_BLINK_BLACK
          ws2812b_blink_state_t.BLINK_STATE_OFF 100 500 3 2)
        (object_at 1 1)) 0 (Or.inr (by decide))).2.2⟩

/-- C16 (Forward without grow: `position' = min(position+1, end_position)`):
on a ten-LED strip, an object with direction Forward, grow and reverse flags
clear, `start_position = 0`, `end_position = 5`, at position 5, has position 6
after a triggered motion step, not `min(5+1, 5) = 5`; the latch is set and the
direction stays Forward, so the following steps carry it on to 10.  The
incremented position is compared with `led_count`, not with `end_position`. -/
theorem forward_move_passes_end :
    ((ws2812b_update_position 32
        (registry_at 600
          (mover ws2812b_direction_t.DIRECTION_FORWARD false false 0 5 5 1 100)
          (object_at 1 1)) 0).p_objs 0).position = 6 ∧
    ((ws2812b_update_position 32
        (registry_at 600
          (mover ws2812b_direction_t.DIRECTION_FORWARD false false 0 5 5 1 100)
          (object_at 1 1)) 0).p_objs 0).direction = ws2812b_direction_t.DIRECTION_FORWARD ∧
    ((ws2812b_update_position 32
        (registry_at 600
          (mover ws2812b_direction_t.DIRECTION_FORWARD false false 0 5 5 1 100)
          (object_at 1 1)) 0).p_objs 0).b_hit_end = true ∧
    min (((registry_at 600
          (mover ws2812b_direction_t.DIRECTION_FORWARD false false 0 5 5 1 100)
          (object_at 1 1)).p_objs 0).position + 1)
        ((registry_at 600
          (mover ws2812b_direction_t.DIRECTION_FORWARD false false 0 5 5 1 100)
          (object_at 1 1)).p_objs 0).end_position = 5 := by
  decide

/-- C17 (Forward with grow: `length' = min(length+1, end_position - start_position)`):
on a ten-LED strip, an object with direction Forward, grow set, reverse clear,
`start_position = 0`, `end_position = 5` and length 5 has length 6 after a
triggered motion step, which exceeds the start-end span 5.  The range test on
`position + length` is made against `led_count`, not against `end_position`. -/
theorem forward_grow_exceeds_span :
    ((ws2812b_update_position 32
        (registry_at 600
          (mover ws2812b_direction_t.DIRECTION_FORWARD true false 0 5 0 5 100)
          (object_at 1 1)) 0).p_objs 0).length = 6 ∧
    ((ws2812b_update_position 32
        (registry_at 600
          (mover ws2812b_direction_t.DIRECTION_FORWARD true false 0 5 0 5 100)
          (object_at 1 1)) 0).p_objs 0).position = 0 ∧
    min (((registry_at 600
          (mover ws2812b_direction_t.DIRECTION_FORWARD true false 0 5 0 5 100)
          (object_at 1 1)).p_objs 0).length + 1)
        (((registry_at 600
          (mover ws2812b_direction_t.DIRECTION_FORWARD true false 0 5 0 5 100)
          (object_at 1 1)).p_objs 0).end_position
          - ((registry_at 600
          (mover ws2812b_direction_t.DIRECTION_FORWARD true false 0 5 0 5 100)
          (object_at 1 1)).p_objs 0).start_position) = 5 := by
  decide

/-- C18 (Reverse with grow: the length is decremented with a floor at 0): on a
ten-LED strip with a 32-bit `size_t`, an object with direction Reverse, grow
set, `start_position = 3` and length 0 has length 4294967295 after a triggered
motion step, not 0.  The decrement wraps, and `position + length` wraps back to
2, which passes the range test. -/
theorem reverse_grow_length_wraps :
    ((ws2812b_update_position 32
        (registry_at 600
          (mover ws2812b_direction_t.DIRECTION_REVERSE true false 3 8 3 0 100)
          (object_at 1 1)) 0).p_objs 0).length = 4294967295 ∧
    ((ws2812b_update_position 32
        (registry_at 600
          (mover ws2812b_direction_t.DIRECTION_REVERSE true false 3 8 3 0 100)
          (object_at 1 1)) 0).p_objs 0).position = 3 ∧
    ((registry_at 600
        (mover ws2812b_direction_t.DIRECTION_REVERSE true false 3 8 3 0 100)
        (object_at 1 1)).p_objs 0).length = 0 := by
  decide

theorem local_led_count_eq (w lc : Nat) (h31 : lc < 2147483648) (hw : lc < 2 ^ w) :
    size_of_int32 w (int32_wrap (lc : Int)) = lc := by
  have h1 : int32_wrap (lc : Int) = (lc : Int) := int32_wrap_of_range _ (by omega) (by omega)
  unfold size_of_int32
  rw [h1]
  have h2 : ((2 : Int) ^ w) = ((2 ^ w : Nat) : Int) := by push_cast; rfl
  rw [h2, Int.emod_eq_of_lt (by omega) (by exact_mod_cast hw)]
  exact Int.toNat_natCast lc

theorem update_position_same (w : Nat) (g : draw_globals) (element : Nat) :
    (ws2812b_update_position w g element).p_objs element
      = update_position_obj w (size_of_int32 w (int32_wrap g.p_strip.led_count))
          g.tick_ms_elapsed (g.p_objs element) := by
  simp [ws2812b_update_position, set_obj]

theorem update_position_other (w : Nat) (g : draw_globals) (element i : Nat) (h : i ≠ element) :
    (ws2812b_update_position w g element).p_objs i = g.p_objs i := by
  simp [ws2812b_update_position, set_obj, h]

/-- C19 (Reverse without grow): for a triggered motion step (direction Reverse,
grow clear, `increment_rate_ms > 0`, `start_position` and `end_position` at
most `led_count`, remainder of the counter by the rate zero) of an object with
`position <= led_count`, on a strip whose `led_count` is an `int32_t` value
below the largest `size_t`: the new position is `position - 1` when
`position >= 1` and `start_position` when `position == 0`; the length is
unchanged. -/
theorem reverse_move_position (w : Nat) (g : draw_globals) (element : Nat)
    (h31 : g.p_strip.led_count < 2147483648) (hw : g.p_strip.led_count + 1 < 2 ^ w)
    (hdir : (g.p_objs element).direction = ws2812b_direction_t.DIRECTION_REVERSE)
    (hgrow : (g.p_objs element).b_grow = false)
    (hrate : 0 < (g.p_objs element).increment_rate_ms)
    (hstart : (g.p_objs element).start_position ≤ g.p_strip.led_count)
    (hend : (g.p_objs element).end_position ≤ g.p_strip.led_count)
    (htrig : rem_int32_size w g.tick_ms_elapsed (g.p_objs element).increment_rate_ms = 0)
    (hpos : (g.p_objs element).position ≤ g.p_strip.led_count) :
    ((ws2812b_update_position w g element).p_objs element).position
      = (if 1 ≤ (g.p_objs element).position then (g.p_objs element).position - 1
         else (g.p_objs element).start_position) ∧
    ((ws2812b_update_position w g element).p_objs element).length
      = (g.p_objs element).length := by
  rw [update_position_same, local_led_count_eq w _ h31 (by omega)]
  revert hdir hgrow hrate hstart hend htrig hpos
  generalize g.p_objs element = o
  generalize g.p_strip.led_count = lc at h31 hw
  intro hdir hgrow hrate hstart hend htrig hpos
  by_cases hp : 1 ≤ o.position
  · have hsub : size_sub w o.position 1 = o.position - 1 :=
      size_sub_one w _ hp (by omega)
    have hin : o.position - 1 ≤ lc := by omega
    unfold update_position_obj
    simp only [hdir, hgrow, hrate, htrig, hsub, ws2812b_position_in_range, hstart, hend, hin, hp]
    by_cases hs : o.start_position ≥ o.position - 1 <;> simp [hs]
  · have hz : o.position = 0 := by omega
    have hsub : size_sub w o.position 1 = 2 ^ w - 1 := by
      unfold size_sub
      rw [hz]
      generalize 2 ^ w = M at hw ⊢
      have h1 : 1 % M = 1 := Nat.mod_eq_of_lt (by omega)
      rw [h1, Nat.zero_add]
      exact Nat.mod_eq_of_lt (by omega)
    have hin : ¬ (lc ≥ 2 ^ w - 1) := by omega
    unfold update_position_obj
    simp only [hdir, hgrow, hrate, htrig, hsub, ws2812b_position_in_range, hstart, hend, hin, hp]
    simp

/-- Witness for C19: on a ten-LED strip an object moving in Reverse from
position 4 goes to position 3 and keeps its length 2. -/
theorem reverse_move_position_witness :
    (registry_at 600 (mover ws2812b_direction_t.DIRECTION_REVERSE false false 0 8 4 2 100)
      (object_at 1 1)).p_strip.led_count < 2147483648 ∧
    (registry_at 600 (mover ws2812b_direction_t.DIRECTION_REVERSE false false 0 8 4 2 100)
      (object_at 1 1)).p_strip.led_count + 1 < 2 ^ 32 ∧
    rem_int32_size 32
      (registry_at 600 (mover ws2812b_direction_t.DIRECTION_REVERSE false false 0 8 4 2 100)
        (object_at 1 1)).tick_ms_elapsed
      ((registry_at 600 (mover ws2812b_direction_t.DIRECTION_REVERSE false false 0 8 4 2 100)
        (object_at 1 1)).p_objs 0).increment_rate_ms = 0 ∧
    ((ws2812b_update_position 32
      (registry_at 600 (mover ws2812b_direction_t.DIRECTION_REVERSE false false 0 8 4 2 100)
        (object_at 1 1)) 0).p_objs 0).position = 3 ∧
    ((ws2812b_update_position 32
      (registry_at 600 (mover ws2812b_direction_t.DIRECTION_REVERSE false false 0 8 4 2 100)
        (object_at 1 1)) 0).p_objs 0).length = 2 :=
  ⟨by decide, by decide, by decide,
    (reverse_move_position 32
      (registry_at 600 (mover ws2812b_direction_t.DIRECTION_REVERSE false false 0 8 4 2 100)
        (object_at 1 1)) 0
      (by decide) (by decide) rfl rfl (by decide) (by decide) (by decide) (by decide)
      (by decide)).1,
    (reverse_move_position 32
      (registry_at 600 (mover ws2812b_direction_t.DIRECTION_REVERSE false false 0 8 4 2 100)
        (object_at 1 1)) 0
      (by decide) (by decide) rfl rfl (by decide) (by decide) (by decide) (by decide)
      (by decide)).2⟩

theorem size_sub_one_le (w a : Nat) (h1 : 1 ≤ a) (h : a ≤ 2 ^ w) : size_sub w a 1 = a - 1 := by
  unfold size_sub
  have hM : 0 < 2 ^ w := Nat.two_pow_pos w
  generalize 2 ^ w = M at h hM ⊢
  by_cases hone : M = 1
  · subst hone
    have : a = 1 := by omega
    subst this
    rfl
  · have h1M : 1 % M = 1 := Nat.mod_eq_of_lt (by omega)
    rw [h1M]
    have e : a + (M - 1) = (a - 1) + M := by omega
    rw [e, Nat.add_mod_right]
    exact Nat.mod_eq_of_lt (by omega)

/-- The completion latch and the direction of a triggered motion step outside
the wrap and the reset of the grow cases: for a triggered step of a moving
object (`increment_rate_ms > 0`, `start_position` and `end_position` at most
`led_count`, remainder of the counter by the rate zero), where a Forward/grow
object has `start_position + length + 1` a `size_t` value and a Reverse/grow
object has `length >= 1` and `start_position + length - 1 <= led_count`: if the
traversal endpoint is reached (`endpoint_reached`), `b_hit_end` becomes true
and the direction becomes the opposite one when `b_reverse` is set and stays as
it was when it is clear; if the endpoint is not reached, direction and latch
are unchanged. -/
theorem motion_step_latch_of_no_reset (w : Nat) (g : draw_globals) (element : Nat)
    (h31 : g.p_strip.led_count < 2147483648) (hw : g.p_strip.led_count < 2 ^ w)
    (hdir : (g.p_objs element).direction ≠ ws2812b_direction_t.DIRECTION_NOT_MOVING)
    (hrate : 0 < (g.p_objs element).increment_rate_ms)
    (hstart : (g.p_objs element).start_position ≤ g.p_strip.led_count)
    (hend : (g.p_objs element).end_position ≤ g.p_strip.led_count)
    (htrig : rem_int32_size w g.tick_ms_elapsed (g.p_objs element).increment_rate_ms = 0)
    (hfg : (g.p_objs element).direction = ws2812b_direction_t.DIRECTION_FORWARD →
      (g.p_objs element).b_grow = true →
      (g.p_objs element).start_position + ((g.p_objs element).length + 1) < 2 ^ w)
    (hrg : (g.p_objs element).direction = ws2812b_direction_t.DIRECTION_REVERSE →
      (g.p_objs element).b_grow = true →
      1 ≤ (g.p_objs element).length ∧
      (g.p_objs element).start_position + ((g.p_objs element).length - 1)
        ≤ g.p_strip.led_count) :
    (endpoint_reached (g.p_objs element)
        ((ws2812b_update_position w g element).p_objs element) = true →
      ((ws2812b_update_position w g element).p_objs element).b_hit_end = true ∧
      ((ws2812b_update_position w g element).p_objs element).direction
        = (if (g.p_objs element).b_reverse
           then opposite_direction (g.p_objs element).direction
           else (g.p_objs element).direction)) ∧
    (endpoint_reached (g.p_objs element)
        ((ws2812b_update_position w g element).p_objs element) = false →
      ((ws2812b_update_position w g element).p_objs element).b_hit_end
        = (g.p_objs element).b_hit_end ∧
      ((ws2812b_update_position w g element).p_objs element).direction
        = (g.p_objs element).direction) := by
  rw [update_position_same, local_led_count_eq w _ h31 hw]
  revert hdir hrate hstart hend htrig hfg hrg
  generalize g.p_objs element = o
  revert hw
  generalize g.p_strip.led_count = lc
  intro hw hdir hrate hstart hend htrig hfg hrg
  obtain ⟨action, blink_state, blink_rate_ms, duration_ms, length, position, red, green,
    blue, direction, increment_rate_ms, b_grow, b_reverse, start_position, end_position,
    b_hit_end⟩ := o
  simp only [] at hdir hrate hstart hend htrig hfg hrg
  cases direction
  · exact absurd rfl hdir
  · cases b_grow
    · by_cases hin : lc ≥ size_add w position 1
      · by_cases hc : end_position ≤ size_add w position 1 <;>
          cases b_reverse <;>
          simp [update_position_obj, endpoint_reached, opposite_direction,
            ws2812b_position_in_range, hrate, hstart, hend, htrig, hin, hc]
      · cases b_reverse <;>
          simp [update_position_obj, endpoint_reached, opposite_direction,
            ws2812b_position_in_range, hrate, hstart, hend, htrig, hin]
    · have hsum := hfg rfl rfl
      have e1 : size_add w length 1 = length + 1 := size_add_eq w length 1 (by omega)
      have e2 : size_add w start_position (length + 1) = start_position + (length + 1) :=
        size_add_eq w _ _ hsum
      by_cases hc : end_position ≤ start_position + (length + 1) <;>
        cases b_reverse <;>
        simp [update_position_obj, endpoint_reached, opposite_direction,
          ws2812b_position_in_range, hrate, hstart, hend, htrig, hc, e1, e2]
  · cases b_grow
    · by_cases hin : lc ≥ size_sub w position 1
      · by_cases hc : start_position ≥ size_sub w position 1 <;>
          cases b_reverse <;>
          simp [update_position_obj, endpoint_reached, opposite_direction,
            ws2812b_position_in_range, hrate, hstart, hend, htrig, hin, hc]
      · cases b_reverse <;>
          simp [update_position_obj, endpoint_reached, opposite_direction,
            ws2812b_position_in_range, hrate, hstart, hend, htrig, hin]
    · obtain ⟨hlen, hfit⟩ := hrg rfl rfl
      have e1 : size_sub w length 1 = length - 1 := size_sub_one_le w length hlen (by omega)
      have e2 : size_add w start_position (length - 1) = start_position + (length - 1) :=
        size_add_eq w _ _ (by omega)
      generalize length - 1 = L at e1 e2 hfit
      by_cases hc : L = 0
      · subst hc
        cases b_reverse <;>
          simp [update_position_obj, endpoint_reached, opposite_direction,
            ws2812b_position_in_range, hrate, hstart, hend, htrig, hfit, e1, e2]
      · have hpos : 0 < L := Nat.pos_of_ne_zero hc
        cases b_reverse <;>
          simp [update_position_obj, endpoint_reached, opposite_direction,
            ws2812b_position_in_range, hrate, hstart, hend, htrig, hc, hfit, e1, e2, hpos]

/-- C20, as stated, fails: on a ten-LED strip with a 32-bit `size_t`, an
object with direction Reverse, grow set, reverse flag clear,
`start_position = 0`, length 0 and latch clear takes a triggered motion step.
The step leaves position 0 and length 0, so the endpoint test of the
Reverse/grow case holds (`start_position` plus the new length is
`0 + 0 <= 0`), but `b_hit_end` is still false.  The decrement of the length
wraps, the wrapped sum 4294967295 fails the range test, which resets the
length to 0, and the latch test `start_position >= curr_pos` is made on that
wrapped sum. -/
theorem reverse_grow_floor_misses_latch :
    rem_int32_size 32
      (registry_at 600 (mover ws2812b_direction_t.DIRECTION_REVERSE true false 0 8 0 0 100)
        (object_at 1 1)).tick_ms_elapsed
      ((registry_at 600 (mover ws2812b_direction_t.DIRECTION_REVERSE true false 0 8 0 0 100)
        (object_at 1 1)).p_objs 0).increment_rate_ms = 0 ∧
    ((registry_at 600 (mover ws2812b_direction_t.DIRECTION_REVERSE true false 0 8 0 0 100)
        (object_at 1 1)).p_objs 0).b_hit_end = false ∧
    ((ws2812b_update_position 32
        (registry_at 600
          (mover ws2812b_direction_t.DIRECTION_REVERSE true false 0 8 0 0 100)
          (object_at 1 1)) 0).p_objs 0).position = 0 ∧
    ((ws2812b_update_position 32
        (registry_at 600
          (mover ws2812b_direction_t.DIRECTION_REVERSE true false 0 8 0 0 100)
          (object_at 1 1)) 0).p_objs 0).length = 0 ∧
    endpoint_reached
      ((registry_at 600 (mover ws2812b_direction_t.DIRECTION_REVERSE true false 0 8 0 0 100)
        (object_at 1 1)).p_objs 0)
      ((ws2812b_update_position 32
        (registry_at 600
          (mover ws2812b_direction_t.DIRECTION_REVERSE true false 0 8 0 0 100)
          (object_at 1 1)) 0).p_objs 0) = true ∧
    ((ws2812b_update_position 32
        (registry_at 600
          (mover ws2812b_direction_t.DIRECTION_REVERSE true false 0 8 0 0 100)
          (object_at 1 1)) 0).p_objs 0).b_hit_end = false := by
  decide

/-! ## The frame loop -/

theorem render_strips_succ (w objects_count : Nat) (elapsed : Int)
    (p_objs : Nat → ws2812b_draw_object_t) (n : Nat) (s : ws2812b_t) :
    render_strips w objects_count elapsed p_objs (n + 1) s
      = draw_object_strip w objects_count elapsed n (p_objs n)
          (render_strips w objects_count elapsed p_objs n s) := by
  simp [render_strips, List.range_succ, List.foldl_append]

theorem render_strips_led_count (w objects_count : Nat) (elapsed : Int)
    (p_objs : Nat → ws2812b_draw_object_t) (n : Nat) (s : ws2812b_t) :
    (render_strips w objects_count elapsed p_objs n s).led_count = s.led_count := by
  induction n with
  | zero => rfl
  | succ n ih => rw [render_strips_succ, draw_object_strip_led_count, ih]

/-- The registry after `n` objects have been rendered and advanced. -/
theorem draw_loop_eq (w : Nat) (g : draw_globals) (n : Nat) :
    (List.range n).foldl
        (fun g idx => ws2812b_update_position w (ws2812b_draw_object w g idx) idx) g
      = { g with
          p_strip := render_strips w g.objects_count g.tick_ms_elapsed g.p_objs n g.p_strip
          p_objs := fun k =>
            if k < n then
              update_position_obj w (size_of_int32 w (int32_wrap g.p_strip.led_count))
                g.tick_ms_elapsed
                (draw_object_obj g.objects_count g.tick_ms_elapsed k (g.p_objs k))
            else g.p_objs k } := by
  induction n with
  | zero =>
    simp [render_strips]
  | succ n ih =>
    rw [List.range_succ, List.foldl_append, ih]
    simp only [List.foldl_cons, List.foldl_nil]
    rw [draw_object_eq]
    simp only [ws2812b_update_position, set_obj_same, Nat.lt_irrefl, if_false,
      draw_object_strip_led_count, render_strips_led_count, ← render_strips_succ]
    congr 1
    funext k
    by_cases h1 : k < n
    · have h2 : k ≠ n := by omega
      have h3 : k < n + 1 := by omega
      simp [set_obj, h1, h2, h3]
    · by_cases h2 : k = n
      · subst h2
        simp [set_obj]
      · have h3 : ¬ k < n + 1 := by omega
        simp [set_obj, h1, h2, h3]

theorem render_loop_eq (w : Nat) (g : draw_globals) (n : Nat) :
    (List.range n).foldl (fun g idx => ws2812b_draw_object w g idx) g
      = { g with
          p_strip := render_strips w g.objects_count g.tick_ms_elapsed g.p_objs n g.p_strip
          p_objs := fun k =>
            if k < n then draw_object_obj g.objects_count g.tick_ms_elapsed k (g.p_objs k)
            else g.p_objs k } := by
  induction n with
  | zero =>
    simp [render_strips]
  | succ n ih =>
    rw [List.range_succ, List.foldl_append, ih]
    simp only [List.foldl_cons, List.foldl_nil]
    rw [draw_object_eq]
    simp only [Nat.lt_irrefl, if_false, ← render_strips_succ]
    congr 1
    funext k
    by_cases h1 : k < n
    · have h2 : k ≠ n := by omega
      have h3 : k < n + 1 := by omega
      simp [set_obj, h1, h2, h3]
    · by_cases h2 : k = n
      · subst h2
        simp [set_obj]
      · have h3 : ¬ k < n + 1 := by omega
        simp [set_obj, h1, h2, h3]

theorem advance_loop_eq (w : Nat) (g : draw_globals) (n : Nat) :
    (List.range n).foldl (fun g idx => ws2812b_update_position w g idx) g
      = { g with
          p_objs := fun k =>
            if k < n then
              update_position_obj w (size_of_int32 w (int32_wrap g.p_strip.led_count))
                g.tick_ms_elapsed (g.p_objs k)
            else g.p_objs k } := by
  induction n with
  | zero => simp
  | succ n ih =>
    rw [List.range_succ, List.foldl_append, ih]
    simp only [List.foldl_cons, List.foldl_nil, ws2812b_update_position, Nat.lt_irrefl,
      if_false]
    congr 1
    funext k
    by_cases h1 : k < n
    · have h2 : k ≠ n := by omega
      have h3 : k < n + 1 := by omega
      simp [set_obj, h1, h2, h3]
    · by_cases h2 : k = n
      · subst h2
        simp [set_obj]
      · have h3 : ¬ k < n + 1 := by omega
        simp [set_obj, h1, h2, h3]

/-- C27 (render-then-advance per object against render all, then advance all):
for every state of the variables and every tick, the frame loop of
`ws2812b_draw` (for each object in order: render it, then advance its motion)
leaves exactly the variables, colour buffer and registry included, that
rendering all objects in order and only then advancing all objects leaves.
In particular, when the loop runs (both pointers set, registry not empty), the
strip it leaves is the cleared strip with the objects as they were before the
frame (pre-advance position and length) rendered in order. -/
theorem draw_eq_render_then_advance (w : Nat) (g : draw_globals) (tick_ms : Int) :
    ws2812b_draw w g tick_ms = draw_render_then_advance w g tick_ms ∧
    (ws2812b_draw w g tick_ms).p_strip
      = (if (g.p_objs_present && g.p_strip_present && decide (0 < g.objects_count)) = true
         then render_strips w g.objects_count (int32_wrap (g.tick_ms_elapsed + tick_ms))
            g.p_objs g.objects_count (ws2812b_data_clear_all w g.p_strip).2
         else g.p_strip) := by
  constructor
  · unfold ws2812b_draw draw_render_then_advance
    by_cases hb : (g.p_objs_present && g.p_strip_present && decide (0 < g.objects_count)) = true
    · simp only [hb, if_true]
      rw [draw_loop_eq, render_loop_eq, advance_loop_eq]
      simp only [render_strips_led_count]
      congr 1
      funext k
      by_cases hk : k < g.objects_count <;> simp [hk]
    · simp only [hb]
      rfl
  · unfold ws2812b_draw
    by_cases hb : (g.p_objs_present && g.p_strip_present && decide (0 < g.objects_count)) = true
    · simp only [hb, if_true]
      rw [draw_loop_eq]
    · simp only [hb]
      rfl

theorem clear_all_eq (w : Nat) (s : ws2812b_t) (hs : s.init_state ≠ WS2812B_INIT_FAILED)
    (hw : s.led_count * 3 < 2 ^ w) :
    (ws2812b_data_clear_all w s).2
      = { s with p_buffer := fun j => if j < 3 * s.led_count then 0 else s.p_buffer j } := by
  unfold ws2812b_data_clear_all ws2812b_data_set_all
  by_cases hz : s.led_count = 0
  · rw [ws2812b_data_set_x_zero_leds w s 0 0 0 hz]
    have : (fun j => if j < 3 * s.led_count then 0 else s.p_buffer j) = s.p_buffer := by
      funext j
      rw [if_neg (by omega)]
    rw [this]
  · have hc : 1 ≤ s.led_count := by omega
    have hw1 : (1 - 1 + s.led_count) * 3 < 2 ^ w := by omega
    rw [ws2812b_data_set_x_ok w s 1 s.led_count 0 0 0 hs (by decide) hc (by omega) hw1]
    simp only []
    congr 1
    funext j
    simp only [painted]
    split_ifs <;> first | rfl | omega

/-- The variables after `ws2812b_draw` when both pointers are set and the
registry is not empty. -/
theorem draw_bound_eq (w : Nat) (g : draw_globals) (tick_ms : Int)
    (hp : g.p_objs_present = true) (hs : g.p_strip_present = true)
    (hc : 0 < g.objects_count) :
    ws2812b_draw w g tick_ms
      = { g with
          tick_ms_elapsed := int32_wrap (g.tick_ms_elapsed + tick_ms)
          tick_ms_value := tick_ms
          p_strip := render_strips w g.objects_count
            (int32_wrap (g.tick_ms_elapsed + tick_ms)) g.p_objs g.objects_count
            (ws2812b_data_clear_all w g.p_strip).2
          p_objs := fun k =>
            if k < g.objects_count then
              update_position_obj w (size_of_int32 w (int32_wrap g.p_strip.led_count))
                (int32_wrap (g.tick_ms_elapsed + tick_ms))
                (draw_object_obj g.objects_count (int32_wrap (g.tick_ms_elapsed + tick_ms)) k
                  (g.p_objs k))
            else g.p_objs k } := by
  have hlc : (ws2812b_data_clear_all w g.p_strip).2.led_count = g.p_strip.led_count := by
    unfold ws2812b_data_clear_all ws2812b_data_set_all
    rw [ws2812b_data_set_x_fields]
  unfold ws2812b_draw
  simp only [hp, hs, hc, decide_True, Bool.and_self, if_true]
  rw [draw_loop_eq]
  simp only [hlc]

theorem draw_unbound_eq (w : Nat) (g : draw_globals) (tick_ms : Int)
    (h : ¬ (g.p_objs_present = true ∧ g.p_strip_present = true ∧ 0 < g.objects_count)) :
    ws2812b_draw w g tick_ms
      = { g with
          tick_ms_elapsed := int32_wrap (g.tick_ms_elapsed + tick_ms)
          tick_ms_value := tick_ms } := by
  unfold ws2812b_draw
  have : ¬ ((g.p_objs_present && g.p_strip_present && decide (0 < g.objects_count)) = true) := by
    intro hb
    simp only [Bool.and_eq_true, decide_eq_true_eq] at hb
    exact h ⟨hb.1.1, hb.1.2, hb.2⟩
  simp only [this]
  rfl

theorem draw_object_obj_fields (objects_count : Nat) (elapsed : Int) (element : Nat)
    (o : ws2812b_draw_object_t) :
    draw_object_obj objects_count elapsed element o
      = { o with
          blink_state := (draw_object_obj objects_count elapsed element o).blink_state } := by
  unfold draw_object_obj
  split_ifs <;> rfl

theorem update_position_obj_latch (w lc : Nat) (elapsed : Int) (o : ws2812b_draw_object_t)
    (h : o.b_hit_end = true) : (update_position_obj w lc elapsed o).b_hit_end = true := by
  unfold update_position_obj
  simp only []
  split_ifs <;> simp [h]

/-- C23 (the engine never clears a completion latch): for every state of the
variables, every element and every tick, if `b_hit_end` of the element is true
before `ws2812b_draw` it is true after it. -/
theorem draw_keeps_latch (w : Nat) (g : draw_globals) (element : Nat) (tick_ms : Int)
    (h : (g.p_objs element).b_hit_end = true) :
    ((ws2812b_draw w g tick_ms).p_objs element).b_hit_end = true := by
  by_cases hb : g.p_objs_present = true ∧ g.p_strip_present = true ∧ 0 < g.objects_count
  · rw [draw_bound_eq w g tick_ms hb.1 hb.2.1 hb.2.2]
    simp only []
    by_cases hk : element < g.objects_count
    · rw [if_pos hk]
      apply update_position_obj_latch
      rw [draw_object_obj_fields]
      exact h
    · rw [if_neg hk]
      exact h
  · rw [draw_unbound_eq w g tick_ms hb]
    exact h

/-- Witness for C23: an object whose latch is set and that keeps moving
Forward still has its latch set after a tick of 100 ms. -/
theorem draw_keeps_latch_witness :
    ((registry_at 500
      { mover ws2812b_direction_t.DIRECTION_FORWARD false true 0 9 2 1 100 with
        b_hit_end := true }
      (object_at 1 1)).p_objs 0).b_hit_end = true ∧
    ((ws2812b_draw 32
      (registry_at 500
        { mover ws2812b_direction_t.DIRECTION_FORWARD false true 0 9 2 1 100 with
          b_hit_end := true }
        (object_at 1 1)) 100).p_objs 0).b_hit_end = true :=
  ⟨rfl,
    draw_keeps_latch 32
      (registry_at 500
        { mover ws2812b_direction_t.DIRECTION_FORWARD false true 0 9 2 1 100 with
          b_hit_end := true }
        (object_at 1 1)) 0 100 rfl⟩

/-- An instance of the lemma on the latch of a step without wrap or reset: on a
ten-LED strip a Reverse/grow object at `start_position = 3` with length 1 and
`b_reverse` set shrinks to length 0 and reaches the endpoint: the latch is set
and the direction becomes Forward. -/
theorem motion_step_latch_of_no_reset_example :
    (registry_at 600 (mover ws2812b_direction_t.DIRECTION_REVERSE true true 3 8 3 1 100)
      (object_at 1 1)).p_strip.led_count < 2147483648 ∧
    (registry_at 600 (mover ws2812b_direction_t.DIRECTION_REVERSE true true 3 8 3 1 100)
      (object_at 1 1)).p_strip.led_count < 2 ^ 32 ∧
    rem_int32_size 32
      (registry_at 600 (mover ws2812b_direction_t.DIRECTION_REVERSE true true 3 8 3 1 100)
        (object_at 1 1)).tick_ms_elapsed
      ((registry_at 600 (mover ws2812b_direction_t.DIRECTION_REVERSE true true 3 8 3 1 100)
        (object_at 1 1)).p_objs 0).increment_rate_ms = 0 ∧
    endpoint_reached
      ((registry_at 600 (mover ws2812b_direction_t.DIRECTION_REVERSE true true 3 8 3 1 100)
        (object_at 1 1)).p_objs 0)
      ((ws2812b_update_position 32
        (registry_at 600 (mover ws2812b_direction_t.DIRECTION_REVERSE true true 3 8 3 1 100)
          (object_at 1 1)) 0).p_objs 0) = true ∧
    ((ws2812b_update_position 32
      (registry_at 600 (mover ws2812b_direction_t.DIRECTION_REVERSE true true 3 8 3 1 100)
        (object_at 1 1)) 0).p_objs 0).b_hit_end = true ∧
    ((ws2812b_update_position 32
      (registry_at 600 (mover ws2812b_direction_t.DIRECTION_REVERSE true true 3 8 3 1 100)
        (object_at 1 1)) 0).p_objs 0).direction = ws2812b_direction_t.DIRECTION_FORWARD :=
  ⟨by decide, by decide, by decide, by decide,
    ((motion_step_latch_of_no_reset 32
      (registry_at 600 (mover ws2812b_direction_t.DIRECTION_REVERSE true true 3 8 3 1 100)
        (object_at 1 1)) 0
      (by decide) (by decide) (by decide) (by decide) (by decide) (by decide)
      (by decide) (by decide) (by decide)).1 (by decide)).1,
    ((motion_step_latch_of_no_reset 32
      (registry_at 600 (mover ws2812b_direction_t.DIRECTION_REVERSE true true 3 8 3 1 100)
        (object_at 1 1)) 0
      (by decide) (by decide) (by decide) (by decide) (by decide) (by decide)
      (by decide) (by decide) (by decide)).1 (by decide)).2⟩


theorem update_position_obj_idle (w lc : Nat) (elapsed : Int) (o : ws2812b_draw_object_t)
    (h : o.direction = ws2812b_direction_t.DIRECTION_NOT_MOVING ∨ o.increment_rate_ms = 0 ∨
      o.start_position > lc ∨ o.end_position > lc ∨
      rem_int32_size w elapsed o.increment_rate_ms ≠ 0) :
    update_position_obj w lc elapsed o = o := by
  unfold update_position_obj
  rcases h with h | h | h | h | h
  · simp [h]
  · simp [h]
  · have : ¬ lc ≥ o.start_position := by omega
    simp [ws2812b_position_in_range, this]
  · have : ¬ lc ≥ o.end_position := by omega
    simp [ws2812b_position_in_range, this]
  · have : ¬ (0 = rem_int32_size w elapsed o.increment_rate_ms) := fun e => h e.symm
    simp [this]

/-- C22 (when the motion step does nothing): `ws2812b_update_position` leaves
every variable, the object included, as it was whenever the direction is
NotMoving, or `increment_rate_ms == 0`, or `start_position > led_count`, or
`end_position > led_count`, or the remainder of the counter by the rate is not
zero (the strip's `led_count` being an `int32_t` value and a `size_t` value);
and, for every state `g2` and element `e2`, it changes no object other than
`p_objs[e2]`, nor the strip, nor any other variable. -/
theorem update_position_idle (w : Nat) (g : draw_globals) (element : Nat)
    (g2 : draw_globals) (e2 : Nat)
    (h31 : g.p_strip.led_count < 2147483648) (hw : g.p_strip.led_count < 2 ^ w)
    (h : (g.p_objs element).direction = ws2812b_direction_t.DIRECTION_NOT_MOVING ∨
      (g.p_objs element).increment_rate_ms = 0 ∨
      (g.p_objs element).start_position > g.p_strip.led_count ∨
      (g.p_objs element).end_position > g.p_strip.led_count ∨
      rem_int32_size w g.tick_ms_elapsed (g.p_objs element).increment_rate_ms ≠ 0) :
    ws2812b_update_position w g element = g ∧
    (∀ i, i ≠ e2 → (ws2812b_update_position w g2 e2).p_objs i = g2.p_objs i) ∧
    (ws2812b_update_position w g2 e2).p_strip = g2.p_strip ∧
    (ws2812b_update_position w g2 e2).objects_count = g2.objects_count ∧
    (ws2812b_update_position w g2 e2).tick_ms_elapsed = g2.tick_ms_elapsed ∧
    (ws2812b_update_position w g2 e2).tick_ms_value = g2.tick_ms_value ∧
    (ws2812b_update_position w g2 e2).p_strip_present = g2.p_strip_present ∧
    (ws2812b_update_position w g2 e2).p_objs_present = g2.p_objs_present := by
  refine ⟨?_, fun i hi => update_position_other w g2 e2 i hi, rfl, rfl, rfl, rfl, rfl, rfl⟩
  unfold ws2812b_update_position
  simp only []
  rw [local_led_count_eq w _ h31 hw, update_position_obj_idle w _ _ _ h, set_obj_self]

/-- Witness for C22: at counter value 650, which is not a multiple of the rate
100, the motion step leaves the registry as it was. -/
theorem update_position_idle_witness :
    (registry_at 650 (mover ws2812b_direction_t.DIRECTION_FORWARD false false 0 5 2 1 100)
      (object_at 1 1)).p_strip.led_count < 2147483648 ∧
    (registry_at 650 (mover ws2812b_direction_t.DIRECTION_FORWARD false false 0 5 2 1 100)
      (object_at 1 1)).p_strip.led_count < 2 ^ 32 ∧
    rem_int32_size 32
      (registry_at 650 (mover ws2812b_direction_t.DIRECTION_FORWARD false false 0 5 2 1 100)
        (object_at 1 1)).tick_ms_elapsed
      ((registry_at 650 (mover ws2812b_direction_t.DIRECTION_FORWARD false false 0 5 2 1 100)
        (object_at 1 1)).p_objs 0).increment_rate_ms ≠ 0 ∧
    ws2812b_update_position 32
      (registry_at 650 (mover ws2812b_direction_t.DIRECTION_FORWARD false false 0 5 2 1 100)
        (object_at 1 1)) 0
      = registry_at 650 (mover ws2812b_direction_t.DIRECTION_FORWARD false false 0 5 2 1 100)
        (object_at 1 1) :=
  ⟨by decide, by decide, by decide,
    (update_position_idle 32
      (registry_at 650 (mover ws2812b_direction_t.DIRECTION_FORWARD false false 0 5 2 1 100)
        (object_at 1 1)) 0
      (registry_at 650 (mover ws2812b_direction_t.DIRECTION_FORWARD false false 0 5 2 1 100)
        (object_at 1 1)) 0
      (by decide) (by decide) (Or.inr (Or.inr (Or.inr (Or.inr (by decide)))))).1⟩

/-! ## Rendering a frame -/

theorem draw_object_strip_nodraw (w objects_count : Nat) (elapsed : Int) (element : Nat)
    (o : ws2812b_draw_object_t) (s : ws2812b_t)
    (h : o.action = ws2812b_draw_action_t.DRAW_ACTION_NO_DRAW) :
    draw_object_strip w objects_count elapsed element o s = s := by
  simp [draw_object_strip, h]

theorem draw_object_strip_solid (w objects_count : Nat) (elapsed : Int) (element : Nat)
    (o : ws2812b_draw_object_t) (s : ws2812b_t) (he : element < objects_count)
    (ha : o.action = ws2812b_draw_action_t.DRAW_ACTION_SOLID)
    (hx : elapsed < o.duration_ms)
    (hs : s.init_state ≠ WS2812B_INIT_FAILED) (h1 : 1 ≤ o.position) (hc : 1 ≤ o.length)
    (hfit : o.position - 1 + o.length ≤ s.led_count) (hw : s.led_count * 3 < 2 ^ w) :
    draw_object_strip w objects_count elapsed element o s
      = { s with
          p_buffer := painted s.p_buffer (3 * (o.position - 1))
            (3 * (o.position - 1) + 3 * o.length) o.red o.green o.blue } := by
  have hx' : ¬ elapsed ≥ o.duration_ms := by omega
  have hset := ws2812b_data_set_x_ok w s o.position o.length o.red o.green o.blue hs h1 hc hfit
    (by omega)
  simp [draw_object_strip, he, ha, hx', hset]

theorem render_strips_one (w objects_count : Nat) (elapsed : Int)
    (p_objs : Nat → ws2812b_draw_object_t) (e : Nat) (s : ws2812b_t) (n : Nat)
    (h : ∀ k, k < n → k ≠ e →
      (p_objs k).action = ws2812b_draw_action_t.DRAW_ACTION_NO_DRAW) :
    render_strips w objects_count elapsed p_objs n s
      = if e < n then draw_object_strip w objects_count elapsed e (p_objs e) s else s := by
  induction n with
  | zero => simp [render_strips]
  | succ n ih =>
    rw [render_strips_succ, ih (fun k hk hke => h k (by omega) hke)]
    by_cases h1 : e < n
    · have h2 : e < n + 1 := by omega
      rw [if_pos h1, if_pos h2]
      exact draw_object_strip_nodraw _ _ _ _ _ _ (h n (by omega) (by omega))
    · by_cases h2 : e = n
      · subst h2
        simp
      · have h3 : ¬ e < n + 1 := by omega
        rw [if_neg h1, if_neg h3]
        exact draw_object_strip_nodraw _ _ _ _ _ _ (h n (by omega) (fun hh => h2 hh.symm))

theorem render_strips_two (w objects_count : Nat) (elapsed : Int)
    (p_objs : Nat → ws2812b_draw_object_t) (i j : Nat) (hij : i < j) (s : ws2812b_t) (n : Nat)
    (h : ∀ k, k < n → k ≠ i → k ≠ j →
      (p_objs k).action = ws2812b_draw_action_t.DRAW_ACTION_NO_DRAW) :
    render_strips w objects_count elapsed p_objs n s
      = if j < n then
          draw_object_strip w objects_count elapsed j (p_objs j)
            (draw_object_strip w objects_count elapsed i (p_objs i) s)
        else if i < n then draw_object_strip w objects_count elapsed i (p_objs i) s
        else s := by
  induction n with
  | zero => simp [render_strips]
  | succ n ih =>
    rw [render_strips_succ, ih (fun k hk hki hkj => h k (by omega) hki hkj)]
    by_cases hn_i : n = i
    · subst hn_i
      have a1 : ¬ j < n := by omega
      have a2 : ¬ j < n + 1 := by omega
      simp [a1, a2]
    · by_cases hn_j : n = j
      · subst hn_j
        have a1 : i < n := hij
        simp [a1]
      · have hnd := h n (by omega) hn_i hn_j
        rw [draw_object_strip_nodraw _ _ _ _ _ _ hnd]
        by_cases b1 : j < n
        · have b2 : j < n + 1 := by omega
          simp [b1, b2]
        · have b2 : ¬ j < n + 1 := by omega
          by_cases c1 : i < n
          · have c2 : i < n + 1 := by omega
            simp [b1, b2, c1, c2]
          · have c2 : ¬ i < n + 1 := by omega
            simp [b1, b2, c1, c2]

theorem draw_solid_buffer (w : Nat) (g : draw_globals) (e : Nat) (tick_ms : Int)
    (hp : g.p_objs_present = true) (hs : g.p_strip_present = true)
    (hst : g.p_strip.init_state ≠ WS2812B_INIT_FAILED)
    (hw : g.p_strip.led_count * 3 < 2 ^ w)
    (he : e < g.objects_count)
    (ha : (g.p_objs e).action = ws2812b_draw_action_t.DRAW_ACTION_SOLID)
    (hx : int32_wrap (g.tick_ms_elapsed + tick_ms) < (g.p_objs e).duration_ms)
    (h1 : 1 ≤ (g.p_objs e).position) (hn : 1 ≤ (g.p_objs e).length)
    (hfit : (g.p_objs e).position - 1 + (g.p_objs e).length ≤ g.p_strip.led_count)
    (hothers : ∀ k, k < g.objects_count → k ≠ e →
      (g.p_objs k).action = ws2812b_draw_action_t.DRAW_ACTION_NO_DRAW) :
    (ws2812b_draw w g tick_ms).p_strip.p_buffer
      = painted (fun j => if j < 3 * g.p_strip.led_count then 0 else g.p_strip.p_buffer j)
          (3 * ((g.p_objs e).position - 1))
          (3 * ((g.p_objs e).position - 1) + 3 * (g.p_objs e).length)
          (g.p_objs e).red (g.p_objs e).green (g.p_objs e).blue := by
  rw [draw_bound_eq w g tick_ms hp hs (by omega)]
  simp only []
  rw [render_strips_one w _ _ g.p_objs e _ _ hothers, if_pos he, clear_all_eq w _ hst hw]
  rw [draw_object_strip_solid w _ _ e _
    { g.p_strip with
      p_buffer := fun j => if j < 3 * g.p_strip.led_count then 0 else g.p_strip.p_buffer j }
    he ha hx hst h1 hn hfit hw]

/-- C13 (a Solid object is rendered by a tick): for a bound registry with a
strip whose state is not Failed and whose `3 * led_count` colour bytes are
addressable, in which the object `e` has action Solid, is not expired at this
tick, has position `p >= 1` and length `n >= 1` with `p-1+n <= led_count`, and
every other object is NoDraw: after `ws2812b_draw` the colour bytes of each
LED `p .. p+n-1` are (green, red, blue) of the object and the bytes of every
other LED of the strip are 0. -/
theorem draw_solid_object (w : Nat) (g : draw_globals) (e : Nat) (tick_ms : Int)
    (hp : g.p_objs_present = true) (hs : g.p_strip_present = true)
    (hst : g.p_strip.init_state ≠ WS2812B_INIT_FAILED)
    (hw : g.p_strip.led_count * 3 < 2 ^ w)
    (he : e < g.objects_count)
    (ha : (g.p_objs e).action = ws2812b_draw_action_t.DRAW_ACTION_SOLID)
    (hx : int32_wrap (g.tick_ms_elapsed + tick_ms) < (g.p_objs e).duration_ms)
    (h1 : 1 ≤ (g.p_objs e).position) (hn : 1 ≤ (g.p_objs e).length)
    (hfit : (g.p_objs e).position - 1 + (g.p_objs e).length ≤ g.p_strip.led_count)
    (hothers : ∀ k, k < g.objects_count → k ≠ e →
      (g.p_objs k).action = ws2812b_draw_action_t.DRAW_ACTION_NO_DRAW) :
    (∀ i, (g.p_objs e).position ≤ i → i < (g.p_objs e).position + (g.p_objs e).length →
      (ws2812b_draw w g tick_ms).p_strip.p_buffer (3 * (i - 1)) = (g.p_objs e).green ∧
      (ws2812b_draw w g tick_ms).p_strip.p_buffer (3 * (i - 1) + 1) = (g.p_objs e).red ∧
      (ws2812b_draw w g tick_ms).p_strip.p_buffer (3 * (i - 1) + 2) = (g.p_objs e).blue) ∧
    (∀ i, 1 ≤ i → i ≤ g.p_strip.led_count →
      (i < (g.p_objs e).position ∨ (g.p_objs e).position + (g.p_objs e).length ≤ i) →
      (ws2812b_draw w g tick_ms).p_strip.p_buffer (3 * (i - 1)) = 0 ∧
      (ws2812b_draw w g tick_ms).p_strip.p_buffer (3 * (i - 1) + 1) = 0 ∧
      (ws2812b_draw w g tick_ms).p_strip.p_buffer (3 * (i - 1) + 2) = 0) := by
  rw [draw_solid_buffer w g e tick_ms hp hs hst hw he ha hx h1 hn hfit hothers]
  constructor
  · intro i hi1 hi2
    simp only [painted]
    refine ⟨?_, ?_, ?_⟩
    · rw [if_pos (by omega), if_pos (by omega)]
    · rw [if_pos (by omega), if_neg (by omega), if_pos (by omega)]
    · rw [if_pos (by omega), if_neg (by omega), if_neg (by omega)]
  · intro i hi1 hi2 hout
    simp only [painted]
    refine ⟨?_, ?_, ?_⟩
    · rw [if_neg (by omega), if_pos (by omega)]
    · rw [if_neg (by omega), if_pos (by omega)]
    · rw [if_neg (by omega), if_pos (by omega)]

/-- Witness for C13: the object at position 3 with length 2 and colour
(10, 20, 30) gives the bytes (20, 10, 30) at LEDs 3 and 4 and black at LED 5. -/
theorem draw_solid_object_witness :
    (registry_of_two
      (drawn_object ws2812b_draw_action_t.DRAW_ACTION_SOLID
        ws2812b_blink_state_t.BLINK_STATE_OFF 0 1000 3 2)
      (object_at 0 0)).p_strip.init_state ≠ WS2812B_INIT_FAILED ∧
    (registry_of_two
      (drawn_object ws2812b_draw_action_t.DRAW_ACTION_SOLID
        ws2812b_blink_state_t.BLINK_STATE_OFF 0 1000 3 2)
      (object_at 0 0)).p_strip.led_count * 3 < 2 ^ 32 ∧
    int32_wrap ((registry_of_two
      (drawn_object ws2812b_draw_action_t.DRAW_ACTION_SOLID
        ws2812b_blink_state_t.BLINK_STATE_OFF 0 1000 3 2)
      (object_at 0 0)).tick_ms_elapsed + 100)
      < ((registry_of_two
        (drawn_object ws2812b_draw_action_t.DRAW_ACTION_SOLID
          ws2812b_blink_state_t.BLINK_STATE_OFF 0 1000 3 2)
        (object_at 0 0)).p_objs 0).duration_ms ∧
    (ws2812b_draw 32
      (registry_of_two
        (drawn_object ws2812b_draw_action_t.DRAW_ACTION_SOLID
          ws2812b_blink_state_t.BLINK_STATE_OFF 0 1000 3 2)
        (object_at 0 0)) 100).p_strip.p_buffer (3 * (4 - 1)) = 20 ∧
    (ws2812b_draw 32
      (registry_of_two
        (drawn_object ws2812b_draw_action_t.DRAW_ACTION_SOLID
          ws2812b_blink_state_t.BLINK_STATE_OFF 0 1000 3 2)
        (object_at 0 0)) 100).p_strip.p_buffer (3 * (4 - 1) + 1) = 10 ∧
    (ws2812b_draw 32
      (registry_of_two
        (drawn_object ws2812b_draw_action_t.DRAW_ACTION_SOLID
          ws2812b_blink_state_t.BLINK_STATE_OFF 0 1000 3 2)
        (object_at 0 0)) 100).p_strip.p_buffer (3 * (4 - 1) + 2) = 30 ∧
    (ws2812b_draw 32
      (registry_of_two
        (drawn_object ws2812b_draw_action_t.DRAW_ACTION_SOLID
          ws2812b_blink_state_t.BLINK_STATE_OFF 0 1000 3 2)
        (object_at 0 0)) 100).p_strip.p_buffer (3 * (5 - 1)) = 0 :=
  ⟨by decide, by decide, by decide,
    ((draw_solid_object 32
      (registry_of_two
        (drawn_object ws2812b_draw_action_t.DRAW_ACTION_SOLID
          ws2812b_blink_state_t.BLINK_STATE_OFF 0 1000 3 2)
        (object_at 0 0)) 0 100
      rfl rfl (by decide) (by decide) (by decide) rfl (by decide) (by decide) (by decide)
      (by decide) (by decide)).1 4 (by decide) (by decide)).1,
    ((draw_solid_object 32
      (registry_of_two
        (drawn_object ws2812b_draw_action_t.DRAW_ACTION_SOLID
          ws2812b_blink_state_t.BLINK_STATE_OFF 0 1000 3 2)
        (object_at 0 0)) 0 100
      rfl rfl (by decide) (by decide) (by decide) rfl (by decide) (by decide) (by decide)
      (by decide) (by decide)).1 4 (by decide) (by decide)).2.1,
    ((draw_solid_object 32
      (registry_of_two
        (drawn_object ws2812b_draw_action_t.DRAW_ACTION_SOLID
          ws2812b_blink_state_t.BLINK_STATE_OFF 0 1000 3 2)
        (object_at 0 0)) 0 100
      rfl rfl (by decide) (by decide) (by decide) rfl (by decide) (by decide) (by decide)
      (by decide) (by decide)).1 4 (by decide) (by decide)).2.2,
    ((draw_solid_object 32
      (registry_of_two
        (drawn_object ws2812b_draw_action_t.DRAW_ACTION_SOLID
          ws2812b_blink_state_t.BLINK_STATE_OFF 0 1000 3 2)
        (object_at 0 0)) 0 100
      rfl rfl (by decide) (by decide) (by decide) rfl (by decide) (by decide) (by decide)
      (by decide) (by decide)).2 5 (by decide) (by decide) (Or.inr (by decide))).1⟩

/-- C24 (later objects draw over earlier ones): for a bound registry with a
strip whose state is not Failed and whose `3 * led_count` colour bytes are
addressable, and two Solid objects at registry indices `i < j`, both unexpired
at this tick, with positions at least 1, lengths at least 1 and ranges on the
strip, every other object being NoDraw: after `ws2812b_draw` every LED in the
range of object `j` holds the colour of `j`, and every LED in the range of
object `i` that is not in the range of `j` holds the colour of `i`. -/
theorem draw_later_object_wins (w : Nat) (g : draw_globals) (i j : Nat) (tick_ms : Int)
    (hp : g.p_objs_present = true) (hs : g.p_strip_present = true)
    (hst : g.p_strip.init_state ≠ WS2812B_INIT_FAILED)
    (hw : g.p_strip.led_count * 3 < 2 ^ w)
    (hij : i < j) (hj : j < g.objects_count)
    (hai : (g.p_objs i).action = ws2812b_draw_action_t.DRAW_ACTION_SOLID)
    (haj : (g.p_objs j).action = ws2812b_draw_action_t.DRAW_ACTION_SOLID)
    (hxi : int32_wrap (g.tick_ms_elapsed + tick_ms) < (g.p_objs i).duration_ms)
    (hxj : int32_wrap (g.tick_ms_elapsed + tick_ms) < (g.p_objs j).duration_ms)
    (hpi : 1 ≤ (g.p_objs i).position) (hni : 1 ≤ (g.p_objs i).length)
    (hfi : (g.p_objs i).position - 1 + (g.p_objs i).length ≤ g.p_strip.led_count)
    (hpj : 1 ≤ (g.p_objs j).position) (hnj : 1 ≤ (g.p_objs j).length)
    (hfj : (g.p_objs j).position - 1 + (g.p_objs j).length ≤ g.p_strip.led_count)
    (hothers : ∀ k, k < g.objects_count → k ≠ i → k ≠ j →
      (g.p_objs k).action = ws2812b_draw_action_t.DRAW_ACTION_NO_DRAW) :
    (∀ l, (g.p_objs j).position ≤ l → l < (g.p_objs j).position + (g.p_objs j).length →
      (ws2812b_draw w g tick_ms).p_strip.p_buffer (3 * (l - 1)) = (g.p_objs j).green ∧
      (ws2812b_draw w g tick_ms).p_strip.p_buffer (3 * (l - 1) + 1) = (g.p_objs j).red ∧
      (ws2812b_draw w g tick_ms).p_strip.p_buffer (3 * (l - 1) + 2) = (g.p_objs j).blue) ∧
    (∀ l, (g.p_objs i).position ≤ l → l < (g.p_objs i).position + (g.p_objs i).length →
      (l < (g.p_objs j).position ∨ (g.p_objs j).position + (g.p_objs j).length ≤ l) →
      (ws2812b_draw w g tick_ms).p_strip.p_buffer (3 * (l - 1)) = (g.p_objs i).green ∧
      (ws2812b_draw w g tick_ms).p_strip.p_buffer (3 * (l - 1) + 1) = (g.p_objs i).red ∧
      (ws2812b_draw w g tick_ms).p_strip.p_buffer (3 * (l - 1) + 2) = (g.p_objs i).blue) := by
  have hbuf : (ws2812b_draw w g tick_ms).p_strip.p_buffer
      = painted
          (painted (fun b => if b < 3 * g.p_strip.led_count then 0 else g.p_strip.p_buffer b)
            (3 * ((g.p_objs i).position - 1))
            (3 * ((g.p_objs i).position - 1) + 3 * (g.p_objs i).length)
            (g.p_objs i).red (g.p_objs i).green (g.p_objs i).blue)
          (3 * ((g.p_objs j).position - 1))
          (3 * ((g.p_objs j).position - 1) + 3 * (g.p_objs j).length)
          (g.p_objs j).red (g.p_objs j).green (g.p_objs j).blue := by
    rw [draw_bound_eq w g tick_ms hp hs (by omega)]
    simp only []
    rw [render_strips_two w _ _ g.p_objs i j hij _ _ hothers, if_pos hj,
      clear_all_eq w _ hst hw]
    rw [draw_object_strip_solid w _ _ i _
      { g.p_strip with
        p_buffer := fun b => if b < 3 * g.p_strip.led_count then 0 else g.p_strip.p_buffer b }
      (by omega) hai hxi hst hpi hni hfi hw]
    rw [draw_object_strip_solid w _ _ j _
      { g.p_strip with
        p_buffer := painted
          (fun b => if b < 3 * g.p_strip.led_count then 0 else g.p_strip.p_buffer b)
          (3 * ((g.p_objs i).position - 1))
          (3 * ((g.p_objs i).position - 1) + 3 * (g.p_objs i).length)
          (g.p_objs i).red (g.p_objs i).green (g.p_objs i).blue }
      hj haj hxj hst hpj hnj hfj hw]
  rw [hbuf]
  constructor
  · intro l hl1 hl2
    simp only [painted]
    refine ⟨?_, ?_, ?_⟩
    · rw [if_pos (by omega), if_pos (by omega)]
    · rw [if_pos (by omega), if_neg (by omega), if_pos (by omega)]
    · rw [if_pos (by omega), if_neg (by omega), if_neg (by omega)]
  · intro l hl1 hl2 hout
    simp only [painted]
    refine ⟨?_, ?_, ?_⟩
    · rw [if_neg (by omega), if_pos (by omega), if_pos (by omega)]
    · rw [if_neg (by omega), if_pos (by omega), if_neg (by omega), if_pos (by omega)]
    · rw [if_neg (by omega), if_pos (by omega), if_neg (by omega), if_neg (by omega)]

/-- Witness for C24: in `overlapping_pair` LED 4 lies in both ranges and holds
the colour of element 1 after a tick; LED 3 lies only in the range of element
0 and holds its colour. -/
theorem draw_later_object_wins_witness :
    overlapping_pair.p_strip.init_state ≠ WS2812B_INIT_FAILED ∧
    overlapping_pair.p_strip.led_count * 3 < 2 ^ 32 ∧
    int32_wrap (overlapping_pair.tick_ms_elapsed + 100)
      < (overlapping_pair.p_objs 0).duration_ms ∧
    int32_wrap (overlapping_pair.tick_ms_elapsed + 100)
      < (overlapping_pair.p_objs 1).duration_ms ∧
    (ws2812b_draw 32 overlapping_pair 100).p_strip.p_buffer (3 * (4 - 1)) = 2 ∧
    (ws2812b_draw 32 overlapping_pair 100).p_strip.p_buffer (3 * (3 - 1)) = 20 :=
  ⟨by decide, by decide, by decide, by decide,
    ((draw_later_object_wins 32 overlapping_pair 0 1 100 rfl rfl (by decide) (by decide)
      (by decide) (by decide) rfl rfl (by decide) (by decide) (by decide) (by decide)
      (by decide) (by decide) (by decide) (by decide) (by decide)).1 4
      (by decide) (by decide)).1,
    ((draw_later_object_wins 32 overlapping_pair 0 1 100 rfl rfl (by decide) (by decide)
      (by decide) (by decide) rfl rfl (by decide) (by decide) (by decide) (by decide)
      (by decide) (by decide) (by decide) (by decide) (by decide)).2 3
      (by decide) (by decide) (Or.inl (by decide))).1⟩


/-! ## The traversal scenario -/

theorem rem_int32_size_of_dvd (w a b : Nat) (ha : a < 2147483648) (hd : a % b = 0) :
    rem_int32_size w (a : Int) b = 0 := by
  unfold rem_int32_size
  by_cases hw : 32 ≤ w
  · rw [if_pos hw]
    have h32 : 2 ^ 32 ≤ 2 ^ w := Nat.pow_le_pow_right (by decide) hw
    have h2 : ((2 : Int) ^ w) = ((2 ^ w : Nat) : Int) := by push_cast; rfl
    have haw : a < 2 ^ w := by omega
    unfold size_of_int32
    rw [h2, Int.emod_eq_of_lt (by omega) (by exact_mod_cast haw), Int.toNat_natCast, hd]
    rfl
  · rw [if_neg hw]
    exact Int.tmod_eq_zero_of_dvd (Int.natCast_dvd_natCast.mpr (Nat.dvd_of_mod_eq_zero hd))

theorem traversal_object_step (w lc objects_count element k : Nat)
    (o : ws2812b_draw_object_t) (hk : k < 5) (h5 : 5 ≤ lc) (hw : lc < 2 ^ w)
    (ho : traversal_object o k) :
    (update_position_obj w lc (100 * ((k + 1 : Nat) : Int))
        (draw_object_obj objects_count (100 * ((k + 1 : Nat) : Int)) element o)).position
      = k + 1 ∧
    (update_position_obj w lc (100 * ((k + 1 : Nat) : Int))
        (draw_object_obj objects_count (100 * ((k + 1 : Nat) : Int)) element o)).b_hit_end
      = decide (k + 1 = 5) ∧
    traversal_object
      { update_position_obj w lc (100 * ((k + 1 : Nat) : Int))
          (draw_object_obj objects_count (100 * ((k + 1 : Nat) : Int)) element o) with
        b_hit_end := false } (k + 1) := by
  obtain ⟨hd, hpos, hs, he, hr, hg, hrev, hl⟩ := ho
  have hrem : rem_int32_size w (100 * ((k + 1 : Nat) : Int)) 100 = 0 := by
    have := rem_int32_size_of_dvd w (100 * (k + 1)) 100 (by omega) (by omega)
    push_cast at this ⊢
    exact this
  rw [draw_object_obj_fields]
  generalize (draw_object_obj objects_count (100 * ((k + 1 : Nat) : Int)) element o).blink_state
    = bs
  have hadd : size_add w k 1 = k + 1 := size_add_eq w k 1 (by omega)
  have hin : lc ≥ k + 1 := by omega
  by_cases hend : 5 ≤ k + 1
  · obtain rfl : k = 4 := by omega
    have hrem5 : rem_int32_size w 500 100 = 0 := by simpa using hrem
    simp [update_position_obj, traversal_object, ws2812b_position_in_range,
      hd, hpos, hs, he, hr, hg, hrev, hrem5, hadd, h5]
  · have hk5 : ¬ k + 1 = 5 := by omega
    have hremk : rem_int32_size w (100 * ((k : Int) + 1)) 100 = 0 := by
      push_cast at hrem
      exact hrem
    simp [update_position_obj, traversal_object, ws2812b_position_in_range,
      hd, hpos, hs, he, hr, hg, hrev, hl, hremk, hadd, hin, hend, h5, hk5]

theorem get_hit_fst (g : draw_globals) (element : Nat) (hp : g.p_objs_present = true)
    (he : element < g.objects_count) :
    (ws2812b_draw_get_hit g element).1 = (g.p_objs element).b_hit_end := by
  unfold ws2812b_draw_get_hit
  simp only [hp, he, decide_True, Bool.and_self, if_true]
  by_cases h : (g.p_objs element).b_hit_end = true
  · rw [if_pos h, h]
  · rw [if_neg h]
    simp only [Bool.not_eq_true] at h
    rw [h]

theorem get_hit_snd (g : draw_globals) (element : Nat) (hp : g.p_objs_present = true)
    (he : element < g.objects_count) :
    (ws2812b_draw_get_hit g element).2
      = { g with
          p_objs := set_obj g.p_objs element { g.p_objs element with b_hit_end := false } } := by
  unfold ws2812b_draw_get_hit
  simp only [hp, he, decide_True, Bool.and_self, if_true]
  by_cases h : (g.p_objs element).b_hit_end = true
  · rw [if_pos h]
  · rw [if_neg h]
    simp only [Bool.not_eq_true] at h
    have hobj : ({ g.p_objs element with b_hit_end := false } : ws2812b_draw_object_t)
        = g.p_objs element := by
      revert h
      generalize g.p_objs element = o
      intro h
      cases o
      simp only at h
      simp only [h]
    rw [hobj, set_obj_self]
    cases g
    simp only at hp
    simp only [hp]

theorem traversal_state_step (w : Nat) (g : draw_globals) (element lc k : Nat)
    (hk : k < 5) (h5 : 5 ≤ lc) (h31 : lc < 2147483648) (hw : lc < 2 ^ w)
    (hst : traversal_state g element lc k) :
    ((ws2812b_draw w g 100).p_objs element).position = k + 1 ∧
    (tick_then_read w element g).1 = decide (k + 1 = 5) ∧
    traversal_state (tick_then_read w element g).2 element lc (k + 1) := by
  obtain ⟨hp, hs, he, hel, hlc, ho⟩ := hst
  have hc : 0 < g.objects_count := by omega
  have hwrap : int32_wrap (g.tick_ms_elapsed + 100) = 100 * ((k + 1 : Nat) : Int) := by
    rw [hel]
    have : (100 : Int) * (k : Int) + 100 = 100 * ((k + 1 : Nat) : Int) := by push_cast; ring
    rw [this]
    exact int32_wrap_of_range _ (by omega) (by omega)
  have hlocal : size_of_int32 w (int32_wrap g.p_strip.led_count) = lc := by
    rw [hlc]
    exact local_led_count_eq w lc h31 hw
  obtain ⟨h1, h2, h3⟩ := traversal_object_step w lc g.objects_count element k
    (g.p_objs element) hk h5 hw ho
  have hobj : (ws2812b_draw w g 100).p_objs element
      = update_position_obj w lc (100 * ((k + 1 : Nat) : Int))
          (draw_object_obj g.objects_count (100 * ((k + 1 : Nat) : Int)) element
            (g.p_objs element)) := by
    rw [draw_bound_eq w g 100 hp hs hc]
    simp only [he, if_true, hwrap, hlocal]
  have hpp : (ws2812b_draw w g 100).p_objs_present = true := by
    rw [draw_bound_eq w g 100 hp hs hc]; exact hp
  have hsp : (ws2812b_draw w g 100).p_strip_present = true := by
    rw [draw_bound_eq w g 100 hp hs hc]; exact hs
  have hcnt : (ws2812b_draw w g 100).objects_count = g.objects_count := by
    rw [draw_bound_eq w g 100 hp hs hc]
  have hel2 : (ws2812b_draw w g 100).tick_ms_elapsed = 100 * ((k + 1 : Nat) : Int) := by
    rw [draw_bound_eq w g 100 hp hs hc]; exact hwrap
  have hlc2 : (ws2812b_draw w g 100).p_strip.led_count = lc := by
    rw [draw_bound_eq w g 100 hp hs hc]
    simp only [render_strips_led_count]
    unfold ws2812b_data_clear_all ws2812b_data_set_all
    rw [ws2812b_data_set_x_fields]
    exact hlc
  refine ⟨by rw [hobj]; exact h1, ?_, ?_⟩
  · unfold tick_then_read
    rw [get_hit_fst _ _ hpp (by rw [hcnt]; exact he), hobj, h2]
  · unfold tick_then_read
    rw [get_hit_snd _ _ hpp (by rw [hcnt]; exact he)]
    refine ⟨hpp, hsp, by rw [hcnt] at *; exact he, hel2, hlc2, ?_⟩
    show traversal_object (set_obj _ element _ element) (k + 1)
    rw [set_obj_same, hobj]
    exact h3

theorem traversal_state_after (w : Nat) (g : draw_globals) (element lc : Nat)
    (h5 : 5 ≤ lc) (h31 : lc < 2147483648) (hw : lc < 2 ^ w)
    (hst : traversal_state g element lc 0) (k : Nat) (hk : k ≤ 5) :
    traversal_state (after_ticks_with_reads w element k g) element lc k := by
  induction k with
  | zero => exact hst
  | succ k ih =>
    exact (traversal_state_step w _ element lc k (by omega) h5 h31 hw (ih (by omega))).2.2

/-- C21: start from elapsed 0 with both pointers bound, a strip of at least 5
LEDs (`led_count` below 2^31 and below 2^w) and an object in the registry with
direction Forward, position 0, `start_position` 0, `end_position` 5,
`increment_rate_ms` 100, grow and reverse flags clear and latch clear.  Tick
in 100 ms steps, reading the latch after every tick.  After tick `k + 1`
(`k < 5`) the position is `k + 1` and the read returns true exactly when
`k + 1 = 5`; a further read after the fifth returns false. -/
theorem traversal_scenario (w : Nat) (g : draw_globals) (element : Nat)
    (hp : g.p_objs_present = true) (hs : g.p_strip_present = true)
    (he : element < g.objects_count) (hel : g.tick_ms_elapsed = 0)
    (h5 : 5 ≤ g.p_strip.led_count) (h31 : g.p_strip.led_count < 2147483648)
    (hw : g.p_strip.led_count < 2 ^ w)
    (hdir : (g.p_objs element).direction = ws2812b_direction_t.DIRECTION_FORWARD)
    (hpos : (g.p_objs element).position = 0)
    (hstart : (g.p_objs element).start_position = 0)
    (hend : (g.p_objs element).end_position = 5)
    (hrate : (g.p_objs element).increment_rate_ms = 100)
    (hgrow : (g.p_objs element).b_grow = false)
    (hrev : (g.p_objs element).b_reverse = false)
    (hlatch : (g.p_objs element).b_hit_end = false) :
    (∀ k, k < 5 →
      ((ws2812b_draw w (after_ticks_with_reads w element k g) 100).p_objs element).position
        = k + 1 ∧
      (tick_then_read w element (after_ticks_with_reads w element k g)).1
        = decide (k + 1 = 5)) ∧
    (ws2812b_draw_get_hit (after_ticks_with_reads w element 5 g) element).1 = false := by
  have hst : traversal_state g element g.p_strip.led_count 0 :=
    ⟨hp, hs, he, by rw [hel]; rfl, rfl, hdir, hpos, hstart, hend, hrate, hgrow, hrev, hlatch⟩
  refine ⟨fun k hk => ?_, ?_⟩
  · have hk_state := traversal_state_after w g element _ h5 h31 hw hst k (by omega)
    have hstep := traversal_state_step w _ element _ k hk h5 h31 hw hk_state
    exact ⟨hstep.1, hstep.2.1⟩
  · obtain ⟨hp5, _, he5, _, _, ho5⟩ := traversal_state_after w g element _ h5 h31 hw hst 5
      (by omega)
    rw [get_hit_fst _ _ hp5 he5]
    exact ho5.2.2.2.2.2.2.2

/-- Witness for C21: the ten-LED registry with a Forward object from 0 to 5 at
100 ms per step. -/
theorem traversal_scenario_witness :
    (∀ k, k < 5 →
      ((ws2812b_draw 32
          (after_ticks_with_reads 32 0 k
            (registry_of_two
              (mover ws2812b_direction_t.DIRECTION_FORWARD false false 0 5 0 1 100)
              (object_at 0 0))) 100).p_objs 0).position = k + 1 ∧
      (tick_then_read 32 0
          (after_ticks_with_reads 32 0 k
            (registry_of_two
              (mover ws2812b_direction_t.DIRECTION_FORWARD false false 0 5 0 1 100)
              (object_at 0 0)))).1 = decide (k + 1 = 5)) ∧
    (ws2812b_draw_get_hit
        (after_ticks_with_reads 32 0 5
          (registry_of_two
            (mover ws2812b_direction_t.DIRECTION_FORWARD false false 0 5 0 1 100)
            (object_at 0 0))) 0).1 = false :=
  traversal_scenario 32
    (registry_of_two
      (mover ws2812b_direction_t.DIRECTION_FORWARD false false 0 5 0 1 100)
      (object_at 0 0)) 0
    rfl rfl (by decide) rfl (by decide) (by decide) (by decide)
    rfl rfl rfl rfl rfl rfl rfl rfl


/-! ## The colour-cycle effect -/

theorem transition_colors_update_le (step : Nat) (c : transition_colors_statics) :
    (transition_colors_update step c).red ≤ WS2812_POWER_VAL ∧
    (transition_colors_update step c).green ≤ WS2812_POWER_VAL ∧
    (transition_colors_update step c).blue ≤ WS2812_POWER_VAL := by
  unfold transition_colors_update
  simp only []
  refine ⟨?_, ?_, ?_⟩ <;> split_ifs <;> omega

theorem effect_transition_colors_statics_le (g : draw_globals) (c : transition_colors_statics)
    (element update_rate_ms step : Nat)
    (hc : c.red ≤ WS2812_POWER_VAL ∧ c.green ≤ WS2812_POWER_VAL ∧ c.blue ≤ WS2812_POWER_VAL) :
    (ws2812b_draw_effect_transition_colors g c element update_rate_ms step).2.red
      ≤ WS2812_POWER_VAL ∧
    (ws2812b_draw_effect_transition_colors g c element update_rate_ms step).2.green
      ≤ WS2812_POWER_VAL ∧
    (ws2812b_draw_effect_transition_colors g c element update_rate_ms step).2.blue
      ≤ WS2812_POWER_VAL := by
  unfold ws2812b_draw_effect_transition_colors
  split_ifs
  · exact transition_colors_update_le step c
  · exact hc
  · exact hc

theorem statics_after_calls_le (calls : List (draw_globals × Nat × Nat × Nat)) :
    ∀ c : transition_colors_statics,
      (c.red ≤ WS2812_POWER_VAL ∧ c.green ≤ WS2812_POWER_VAL ∧ c.blue ≤ WS2812_POWER_VAL) →
      (statics_after_calls calls c).red ≤ WS2812_POWER_VAL ∧
      (statics_after_calls calls c).green ≤ WS2812_POWER_VAL ∧
      (statics_after_calls calls c).blue ≤ WS2812_POWER_VAL := by
  induction calls with
  | nil => intro c hc; exact hc
  | cons call rest ih =>
    intro c hc
    obtain ⟨g, element, update_rate_ms, step⟩ := call
    exact ih _ (effect_transition_colors_statics_le g c element update_rate_ms step hc)

/-- C25: after any sequence of calls of `ws2812b_draw_effect_transition_colors`
(any module variables, elements, update rates and steps), starting from the
initial statics, each of `red`, `green`, `blue` is at most `WS2812_POWER_VAL`;
and one more call either leaves the module variables as they are or leaves the
object `element` with a colour whose channels are the statics, each at most
`WS2812_POWER_VAL`. -/
theorem transition_colors_bounded (calls : List (draw_globals × Nat × Nat × Nat))
    (g : draw_globals) (element update_rate_ms step : Nat) :
    (statics_after_calls calls transition_colors_statics_init).red ≤ WS2812_POWER_VAL ∧
    (statics_after_calls calls transition_colors_statics_init).green ≤ WS2812_POWER_VAL ∧
    (statics_after_calls calls transition_colors_statics_init).blue ≤ WS2812_POWER_VAL ∧
    ((ws2812b_draw_effect_transition_colors g
        (statics_after_calls calls transition_colors_statics_init)
        element update_rate_ms step).1 = g ∨
      (((ws2812b_draw_effect_transition_colors g
          (statics_after_calls calls transition_colors_statics_init)
          element update_rate_ms step).1.p_objs element).red
        = (ws2812b_draw_effect_transition_colors g
          (statics_after_calls calls transition_colors_statics_init)
          element update_rate_ms step).2.red ∧
       ((ws2812b_draw_effect_transition_colors g
          (statics_after_calls calls transition_colors_statics_init)
          element update_rate_ms step).1.p_objs element).green
        = (ws2812b_draw_effect_transition_colors g
          (statics_after_calls calls transition_colors_statics_init)
          element update_rate_ms step).2.green ∧
       ((ws2812b_draw_effect_transition_colors g
          (statics_after_calls calls transition_colors_statics_init)
          element update_rate_ms step).1.p_objs element).blue
        = (ws2812b_draw_effect_transition_colors g
          (statics_after_calls calls transition_colors_statics_init)
          element update_rate_ms step).2.blue ∧
       ((ws2812b_draw_effect_transition_colors g
          (statics_after_calls calls transition_colors_statics_init)
          element update_rate_ms step).1.p_objs element).red ≤ WS2812_POWER_VAL ∧
       ((ws2812b_draw_effect_transition_colors g
          (statics_after_calls calls transition_colors_statics_init)
          element update_rate_ms step).1.p_objs element).green ≤ WS2812_POWER_VAL ∧
       ((ws2812b_draw_effect_transition_colors g
          (statics_after_calls calls transition_colors_statics_init)
          element update_rate_ms step).1.p_objs element).blue ≤ WS2812_POWER_VAL)) := by
  have hinit : transition_colors_statics_init.red ≤ WS2812_POWER_VAL ∧
      transition_colors_statics_init.green ≤ WS2812_POWER_VAL ∧
      transition_colors_statics_init.blue ≤ WS2812_POWER_VAL := by decide
  have hc := statics_after_calls_le calls _ hinit
  refine ⟨hc.1, hc.2.1, hc.2.2, ?_⟩
  generalize statics_after_calls calls transition_colors_statics_init = c at hc ⊢
  have hu := transition_colors_update_le step c
  unfold ws2812b_draw_effect_transition_colors
  by_cases hb : (g.p_objs_present && decide (element < g.objects_count)) = true
  · rw [if_pos hb]
    by_cases ht : 0 = uint32_of_int32 g.tick_ms_elapsed % (update_rate_ms % 4294967296)
    · rw [if_pos ht]
      right
      simp only [ws2812b_draw_set_color, hb, if_true, set_obj_same]
      exact ⟨trivial, trivial, trivial, hu.1, hu.2.1, hu.2.2⟩
    · rw [if_neg ht]
      left
      rfl
  · rw [if_neg hb]
    left
    rfl

/-- The cursor states met with `step = 2`: blue is 0, red is odd and at most
63, and either green is 63 or red is 63 with green even between 2 and 62. -/
theorem transition_colors_step_two_inv (c : transition_colors_statics)
    (h : c.blue = 0 ∧ c.red ≤ 63 ∧ c.red % 2 = 1 ∧
      ((c.red = 63 ∧ c.green % 2 = 0 ∧ 2 ≤ c.green ∧ c.green ≤ 62) ∨ c.green = 63)) :
    (transition_colors_update 2 c).blue = 0 ∧ (transition_colors_update 2 c).red ≤ 63 ∧
    (transition_colors_update 2 c).red % 2 = 1 ∧
    (((transition_colors_update 2 c).red = 63 ∧ (transition_colors_update 2 c).green % 2 = 0 ∧
        2 ≤ (transition_colors_update 2 c).green ∧ (transition_colors_update 2 c).green ≤ 62) ∨
      (transition_colors_update 2 c).green = 63) := by
  obtain ⟨r, gr, b⟩ := c
  simp only at h
  obtain ⟨hb, hr, hodd, hg⟩ := h
  subst hb
  simp only [transition_colors_update, transition_logic, WS2812_POWER_VAL, uint8_add_uint32,
    uint8_sub_uint32]
  rcases hg with ⟨h63, he, h2, h62⟩ | h63
  · subst h63
    have hlt : gr < 63 := by omega
    simp only [hlt, true_and, and_self, if_true]
    norm_num
    split_ifs <;> omega
  · subst h63
    have hpos : r > 0 := by omega
    simp only [hpos, lt_irrefl, and_true, and_false, false_and, if_false, true_and, if_true]
    norm_num
    split_ifs <;> omega

/-- C26, as stated, fails for `step = 2`: after every positive number of
triggered updates from the initial cursor `(63, 0, 0)` the blue channel is
still 0 and the green channel is at least 2, so the cycle never reaches the
blue ramps and never returns to `(63, 0, 0)`; with `step = 1` the cursor is
back at `(63, 0, 0)` after 378 updates. -/
theorem transition_colors_step_two_stuck (n : Nat) :
    ((transition_colors_update 2)^[n + 1] transition_colors_statics_init).blue = 0 ∧
    2 ≤ ((transition_colors_update 2)^[n + 1] transition_colors_statics_init).green ∧
    (transition_colors_update 2)^[n + 1] transition_colors_statics_init
      ≠ transition_colors_statics_init ∧
    (transition_colors_update 1)^[378] transition_colors_statics_init
      = transition_colors_statics_init := by
  have hinv : ∀ m,
      ((transition_colors_update 2)^[m + 1] transition_colors_statics_init).blue = 0 ∧
      ((transition_colors_update 2)^[m + 1] transition_colors_statics_init).red ≤ 63 ∧
      ((transition_colors_update 2)^[m + 1] transition_colors_statics_init).red % 2 = 1 ∧
      ((((transition_colors_update 2)^[m + 1] transition_colors_statics_init).red = 63 ∧
        ((transition_colors_update 2)^[m + 1] transition_colors_statics_init).green % 2 = 0 ∧
        2 ≤ ((transition_colors_update 2)^[m + 1] transition_colors_statics_init).green ∧
        ((transition_colors_update 2)^[m + 1] transition_colors_statics_init).green ≤ 62) ∨
      ((transition_colors_update 2)^[m + 1] transition_colors_statics_init).green = 63) := by
    intro m
    induction m with
    | zero => decide
    | succ m ih =>
      rw [Function.iterate_succ_apply']
      exact transition_colors_step_two_inv _ ih
  obtain ⟨hb, _, _, hg⟩ := hinv n
  have hg2 : 2 ≤ ((transition_colors_update 2)^[n + 1] transition_colors_statics_init).green := by
    rcases hg with ⟨_, _, h2, _⟩ | h63
    · exact h2
    · omega
  refine ⟨hb, hg2, ?_, by decide!⟩
  intro heq
  rw [heq] at hg2
  revert hg2
  decide


/-! ## Divisors of the blink remainder -/

/-- C30, as stated, fails: on the ten-LED registry, after `reset_all`,
`set_action(0, BLINK_BLACK)` and `set_duration(0, 1000)` the object 0 is an
unexpired blink object whose `blink_rate_ms` is still the 0 written by
`ws2812b_draw_clear_objects`, and `ws2812b_draw(100)` evaluates exactly one
blink remainder, with divisor 0. -/
theorem draw_evaluates_zero_blink_divisor :
    ((blink_rate_never_set (registry_of_two (object_at 3 2) (object_at 5 1))).p_objs 0).action
      = ws2812b_draw_action_t.DRAW_ACTION_BLINK_BLACK ∧
    ((blink_rate_never_set (registry_of_two (object_at 3 2) (object_at 5 1))).p_objs 0).duration_ms
      = 1000 ∧
    ((blink_rate_never_set (registry_of_two (object_at 3 2) (object_at 5 1))).p_objs 0).blink_rate_ms
      = 0 ∧
    ws2812b_draw_divisors 32
      (blink_rate_never_set (registry_of_two (object_at 3 2) (object_at 5 1))) 100 = [0] := by
  refine ⟨by decide, by decide, by decide, ?_⟩
  decide


/-! ## Locality of the encoder and decoding -/

theorem pushed_local (n : Nat) (tbl : List Nat) (p_buffer : Nat → Nat) (hn : 0 < n) :
    ∀ m : Nat, ∀ k, k < n * m →
      ref_stream_byte (pushed n tbl p_buffer m) k
        = ref_stream_byte (pushed_byte n tbl (p_buffer (k / n))) (k % n) := by
  intro m
  induction m with
  | zero => intro k hk; simp at hk
  | succ m ih =>
    intro k hk
    rw [pushed_succ]
    have hlen := pushed_length n tbl p_buffer m
    by_cases hlt : k < n * m
    · rw [ref_stream_byte_append_left _ _ _ (by
        rw [hlen]
        have : 8 * (k + 1) ≤ 8 * (n * m) := Nat.mul_le_mul_left 8 hlt
        rw [Nat.mul_assoc]; omega)]
      exact ih k hlt
    · have hge : n * m ≤ k := Nat.le_of_not_lt hlt
      have hj : k - n * m < n := by
        rw [Nat.mul_succ] at hk; omega
      have hk2 : k = (k - n * m) + n * m := by omega
      have hmod : k % n = k - n * m := by
        conv_lhs => rw [hk2]
        rw [Nat.add_mul_mod_self_left]
        exact Nat.mod_eq_of_lt hj
      have hdiv : k / n = m := by
        conv_lhs => rw [hk2]
        rw [Nat.add_mul_div_left _ _ hn, Nat.div_eq_of_lt hj, Nat.zero_add]
      rw [hmod, hdiv]
      apply ref_stream_byte_append_right
      rw [hlen, Nat.mul_assoc, ← Nat.mul_add]
      congr 1
      omega

theorem update_stream_run_local (w n : Nat) (tbl : List Nat) (htbl : ∀ x ∈ tbl, x ≤ 1)
    (hn : 0 < n) (s : ws2812b_t) (hw : n * s.buffer_sz < 2 ^ w) (k : Nat)
    (hk : k < n * s.buffer_sz) :
    (update_stream_run w n tbl s).p_stream k
      = ref_stream_byte (pushed_byte n tbl (s.p_buffer (k / n))) (k % n) := by
  rw [update_stream_run_bytes w n tbl htbl s hw k hk]
  exact pushed_local n tbl s.p_buffer hn s.buffer_sz k hk

theorem pushed_byte_mod (n : Nat) (tbl : List Nat) (v : Nat) :
    pushed_byte n tbl v = pushed_byte n tbl (v % 256) := by
  unfold pushed_byte
  have h : ∀ bit, bit ≤ 7 → (v >>> bit) &&& 1 = ((v % 256) >>> bit) &&& 1 := by
    intro bit hbit
    rw [Nat.and_one_is_mod, Nat.and_one_is_mod, Nat.shiftRight_eq_div_pow,
      Nat.shiftRight_eq_div_pow]
    interval_cases bit <;> omega
  simp only [List.flatMap_cons, List.flatMap_nil]
  rw [h 7 (by decide), h 6 (by decide), h 5 (by decide), h 4 (by decide), h 3 (by decide),
    h 2 (by decide), h 1 (by decide), h 0 (by decide)]

theorem byte_of_bits_eight (d0 d1 d2 d3 d4 d5 d6 d7 : Nat) :
    byte_of_bits [d0, d1, d2, d3, d4, d5, d6, d7]
      = 128 * d0 + 64 * d1 + 32 * d2 + 16 * d3 + 8 * d4 + 4 * d5 + 2 * d6 + d7 := by
  simp only [byte_of_bits, List.foldl_cons, List.foldl_nil]
  ring

theorem unpack_pack (L : List Nat) (hL : ∀ x ∈ L, x ≤ 1) (k j : Nat) (hj : j < 8)
    (hk : 8 * k + 8 ≤ L.length) :
    ref_stream_byte L k / 2 ^ (7 - j) % 2 = L.getD (8 * k + j) 0 := by
  unfold ref_stream_byte
  have hget : L.getD (8 * k + j) 0 = (L.drop (8 * k)).getD j 0 := by
    simp only [List.getD_eq_getElem?_getD, List.getElem?_drop]
  rw [hget]
  have hlen : 8 ≤ (L.drop (8 * k)).length := by rw [List.length_drop]; omega
  have hD : ∀ x ∈ L.drop (8 * k), x ≤ 1 := fun x hx => hL x (List.mem_of_mem_drop hx)
  generalize L.drop (8 * k) = D at hlen hD ⊢
  match D, hlen, hD with
  | d0 :: d1 :: d2 :: d3 :: d4 :: d5 :: d6 :: d7 :: rest, _, hD =>
    have h0 := hD d0 (by simp)
    have h1 := hD d1 (by simp)
    have h2 := hD d2 (by simp)
    have h3 := hD d3 (by simp)
    have h4 := hD d4 (by simp)
    have h5 := hD d5 (by simp)
    have h6 := hD d6 (by simp)
    have h7 := hD d7 (by simp)
    have htake : List.take 8 (d0 :: d1 :: d2 :: d3 :: d4 :: d5 :: d6 :: d7 :: rest)
        = [d0, d1, d2, d3, d4, d5, d6, d7] := by simp
    rw [htake, byte_of_bits_eight]
    interval_cases j <;> simp <;> omega

theorem update_stream_run_bit (w n : Nat) (tbl : List Nat) (htbl : ∀ x ∈ tbl, x ≤ 1)
    (s : ws2812b_t) (hw : n * s.buffer_sz < 2 ^ w) (m : Nat)
    (hm : m < 8 * (n * s.buffer_sz)) :
    unpacked_bit (update_stream_run w n tbl s).p_stream m
      = (pushed n tbl s.p_buffer s.buffer_sz).getD m 0 := by
  unfold unpacked_bit
  rw [update_stream_run_bytes w n tbl htbl s hw (m / 8) (by omega)]
  rw [unpack_pack _ (pushed_le_one n tbl htbl s.p_buffer s.buffer_sz) (m / 8) (m % 8)
    (Nat.mod_lt _ (by decide)) (by rw [pushed_length, Nat.mul_assoc]; omega)]
  congr 1
  omega
theorem pushed_getD_local (n : Nat) (tbl : List Nat) (p_buffer : Nat → Nat) :
    ∀ m i r, i < m → r < 8 * n →
      (pushed n tbl p_buffer m).getD (8 * n * i + r) 0
        = (pushed_byte n tbl (p_buffer i)).getD r 0 := by
  intro m
  induction m with
  | zero => intro i r hi; omega
  | succ m ih =>
    intro i r hi hr
    rw [pushed_succ]
    have hlen := pushed_length n tbl p_buffer m
    by_cases hlt : i < m
    · have hidx : 8 * n * i + r < (pushed n tbl p_buffer m).length := by
        rw [hlen]
        have : 8 * n * (i + 1) ≤ 8 * n * m := Nat.mul_le_mul_left _ hlt
        rw [Nat.mul_succ] at this
        omega
      rw [List.getD_append _ _ _ _ hidx]
      exact ih i r hlt hr
    · have him : i = m := by omega
      subst him
      rw [List.getD_append_right _ _ _ _ (by rw [hlen]; omega), hlen]
      congr 1
      omega

theorem pushed_congr (n : Nat) (tbl : List Nat) (p q : Nat → Nat) :
    ∀ m, (∀ i, i < m → p i = q i) → pushed n tbl p m = pushed n tbl q m := by
  intro m
  induction m with
  | zero => intro _; rfl
  | succ m ih =>
    intro h
    rw [pushed_succ, pushed_succ, ih (fun i hi => h i (Nat.lt_succ_of_lt hi)),
      h m (Nat.lt_succ_self m)]

theorem getD_flatMap_double (L : List Nat) :
    ∀ r, (L.flatMap (fun x => [x, x])).getD r 0 = L.getD (r / 2) 0 := by
  induction L with
  | nil => intro r; simp
  | cons x L ih =>
    intro r
    rw [List.flatMap_cons]
    match r with
    | 0 => rfl
    | 1 => rfl
    | r + 2 =>
      have h2 : (r + 2) / 2 = r / 2 + 1 := by omega
      rw [h2]
      simp only [List.cons_append, List.nil_append, List.getD_cons_succ]
      exact ih r

theorem pushed_bit_5mhz_double (ob : Nat) :
    pushed_bit 6 bits_to_add_5mhz ob
      = (pushed_bit 3 bits_to_add_2p5mhz ob).flatMap (fun x => [x, x]) := by
  rw [pushed_bit_5mhz, pushed_bit_2p5mhz]
  by_cases h : ob = 1 <;> simp [ref_pattern_5mhz, ref_pattern_2p5mhz, h]

theorem pushed_5mhz_double (p_buffer : Nat → Nat) (m : Nat) :
    pushed 6 bits_to_add_5mhz p_buffer m
      = (pushed 3 bits_to_add_2p5mhz p_buffer m).flatMap (fun x => [x, x]) := by
  unfold pushed pushed_byte
  simp only [List.flatMap_assoc, pushed_bit_5mhz_double]

theorem pushed_byte_2p5mhz_second (v t : Nat) (ht : t < 8) :
    (pushed_byte 3 bits_to_add_2p5mhz v).getD (3 * t + 1) 0 = v / 2 ^ (7 - t) % 2 := by
  have hp : ∀ bit, pushed_bit 3 bits_to_add_2p5mhz ((v >>> bit) &&& 1)
      = [1, v / 2 ^ bit % 2, 0] := by
    intro bit
    rw [pushed_bit_2p5mhz, Nat.and_one_is_mod, Nat.shiftRight_eq_div_pow]
    unfold ref_pattern_2p5mhz
    have : v / 2 ^ bit % 2 < 2 := Nat.mod_lt _ (by decide)
    by_cases h : v / 2 ^ bit % 2 = 1
    · rw [if_pos h, h]
    · rw [if_neg h]
      have h0 : v / 2 ^ bit % 2 = 0 := by omega
      rw [h0]
  unfold pushed_byte
  simp only [List.flatMap_cons, List.flatMap_nil, hp]
  interval_cases t <;> rfl

theorem pushed_byte_5mhz_third (v t : Nat) (ht : t < 8) :
    (pushed_byte 6 bits_to_add_5mhz v).getD (6 * t + 2) 0 = v / 2 ^ (7 - t) % 2 := by
  have hp : ∀ bit, pushed_bit 6 bits_to_add_5mhz ((v >>> bit) &&& 1)
      = [1, 1, v / 2 ^ bit % 2, v / 2 ^ bit % 2, 0, 0] := by
    intro bit
    rw [pushed_bit_5mhz, Nat.and_one_is_mod, Nat.shiftRight_eq_div_pow]
    unfold ref_pattern_5mhz
    have : v / 2 ^ bit % 2 < 2 := Nat.mod_lt _ (by decide)
    by_cases h : v / 2 ^ bit % 2 = 1
    · rw [if_pos h, h]
    · rw [if_neg h]
      have h0 : v / 2 ^ bit % 2 = 0 := by omega
      rw [h0]
  unfold pushed_byte
  simp only [List.flatMap_cons, List.flatMap_nil, hp]
  interval_cases t <;> rfl

theorem byte_of_msb_bits (v : Nat) (hv : v < 256) :
    byte_of_bits ((List.range 8).map (fun t => v / 2 ^ (7 - t) % 2)) = v := by
  have hr : List.range 8 = [0, 1, 2, 3, 4, 5, 6, 7] := by decide
  rw [hr]
  simp only [List.map_cons, List.map_nil, byte_of_bits_eight]
  norm_num
  omega
theorem decode_run_2p5mhz (w : Nat) (s : ws2812b_t) (hw : 3 * s.buffer_sz < 2 ^ w)
    (i : Nat) (hi : i < s.buffer_sz) (h8 : s.p_buffer i < 256) :
    ref_decode_2p5mhz (update_stream_run w 3 bits_to_add_2p5mhz s).p_stream i
      = s.p_buffer i := by
  unfold ref_decode_2p5mhz
  have hmap : (List.range 8).map
        (fun t => unpacked_bit (update_stream_run w 3 bits_to_add_2p5mhz s).p_stream
          (3 * (8 * i + t) + 1))
      = (List.range 8).map (fun t => s.p_buffer i / 2 ^ (7 - t) % 2) := by
    apply List.map_congr_left
    intro t ht
    have ht8 : t < 8 := List.mem_range.mp ht
    rw [update_stream_run_bit w 3 _ bits_to_add_2p5mhz_le_one s hw _ (by omega)]
    have hidx : 3 * (8 * i + t) + 1 = 8 * 3 * i + (3 * t + 1) := by ring
    rw [hidx, pushed_getD_local 3 _ s.p_buffer s.buffer_sz i (3 * t + 1) hi (by omega)]
    exact pushed_byte_2p5mhz_second _ t ht8
  rw [hmap]
  exact byte_of_msb_bits _ h8

theorem decode_run_5mhz (w : Nat) (s : ws2812b_t) (hw : 6 * s.buffer_sz < 2 ^ w)
    (i : Nat) (hi : i < s.buffer_sz) (h8 : s.p_buffer i < 256) :
    ref_decode_5mhz (update_stream_run w 6 bits_to_add_5mhz s).p_stream i
      = s.p_buffer i := by
  unfold ref_decode_5mhz
  have hmap : (List.range 8).map
        (fun t => unpacked_bit (update_stream_run w 6 bits_to_add_5mhz s).p_stream
          (6 * (8 * i + t) + 2))
      = (List.range 8).map (fun t => s.p_buffer i / 2 ^ (7 - t) % 2) := by
    apply List.map_congr_left
    intro t ht
    have ht8 : t < 8 := List.mem_range.mp ht
    rw [update_stream_run_bit w 6 _ bits_to_add_5mhz_le_one s hw _ (by omega)]
    have hidx : 6 * (8 * i + t) + 2 = 8 * 6 * i + (6 * t + 2) := by ring
    rw [hidx, pushed_getD_local 6 _ s.p_buffer s.buffer_sz i (6 * t + 2) hi (by omega)]
    exact pushed_byte_5mhz_third _ t ht8
  rw [hmap]
  exact byte_of_msb_bits _ h8

theorem decode_congr_2p5mhz (p q : Nat → Nat) (n i : Nat) (hi : i < n)
    (h : ∀ k, k < 3 * n → p k = q k) : ref_decode_2p5mhz p i = ref_decode_2p5mhz q i := by
  unfold ref_decode_2p5mhz
  congr 1
  apply List.map_congr_left
  intro t ht
  have ht8 : t < 8 := List.mem_range.mp ht
  unfold unpacked_bit
  rw [h _ (by omega)]

theorem decode_congr_5mhz (p q : Nat → Nat) (n i : Nat) (hi : i < n)
    (h : ∀ k, k < 6 * n → p k = q k) : ref_decode_5mhz p i = ref_decode_5mhz q i := by
  unfold ref_decode_5mhz
  congr 1
  apply List.map_congr_left
  intro t ht
  have ht8 : t < 8 := List.mem_range.mp ht
  unfold unpacked_bit
  rw [h _ (by omega)]

theorem update_stream_run_single (w n : Nat) (tbl : List Nat) (htbl : ∀ x ∈ tbl, x ≤ 1)
    (hn : 0 < n) (s : ws2812b_t) (hw : n * s.buffer_sz < 2 ^ w) (i j : Nat)
    (hi : i < s.buffer_sz) (hj : j < n) (st : ws2812b_init_state_t) :
    (update_stream_run w n tbl s).p_stream (n * i + j)
      = (update_stream_run w n tbl (strip_of 1 1 n (fun _ => s.p_buffer i) st)).p_stream j := by
  have hk : n * i + j < n * s.buffer_sz := by
    have : n * (i + 1) ≤ n * s.buffer_sz := Nat.mul_le_mul_left n hi
    rw [Nat.mul_succ] at this
    omega
  have h1 : n * 1 < 2 ^ w := by
    have : n * 1 ≤ n * s.buffer_sz := Nat.mul_le_mul_left n (by omega)
    omega
  rw [update_stream_run_local w n tbl htbl hn s hw _ hk]
  rw [update_stream_run_local w n tbl htbl hn (strip_of 1 1 n (fun _ => s.p_buffer i) st)
    (by exact h1) j (by show j < n * 1; omega)]
  have e1 : (n * i + j) / n = i := by
    rw [Nat.add_comm, Nat.add_mul_div_left _ _ hn, Nat.div_eq_of_lt hj, Nat.zero_add]
  have e2 : (n * i + j) % n = j % n := by
    rw [Nat.add_comm, Nat.add_mul_mod_self_left]
  rw [e1, e2]
  rfl

/-- C28: let `a` be a strip in state 2.5 MHz and `b` a strip in state 5 MHz,
their waveform lengths being `size_t` values and their colour bytes 8-bit
values.  At speed A (resp. B): the waveform bytes `3i .. 3i+2` (resp.
`6i .. 6i+5`) are the encoding of the one-byte buffer holding colour byte `i`,
so they depend on that byte alone; the encoder ends with `bit_in_byte = 0` and
stores to the offsets below `3 * buffer_sz` (resp. `6 * buffer_sz`) only, so
the branch for a last byte that is not full is not taken; the decoder that
reads the second bit of every 3-bit group (resp. the third bit of every 6-bit
group) returns the colour buffer; and two strips of the same size whose
waveforms agree have the same colour bytes. -/
theorem encoder_lossless_and_local (w : Nat) (a b : ws2812b_t)
    (ha : a.init_state = WS2812B_INIT_2p5MHz) (hwa : 3 * a.buffer_sz < 2 ^ w)
    (ha8 : ∀ i, i < a.buffer_sz → a.p_buffer i < 256)
    (hb : b.init_state = WS2812B_INIT_5MHz) (hwb : 6 * b.buffer_sz < 2 ^ w)
    (hb8 : ∀ i, i < b.buffer_sz → b.p_buffer i < 256) :
    ((∀ i j, i < a.buffer_sz → j < 3 →
        (ws2812b_update_stream_2p5mhz w a).p_stream (3 * i + j)
          = (ws2812b_update_stream_2p5mhz w
              (strip_of 1 1 3 (fun _ => a.p_buffer i) WS2812B_INIT_2p5MHz)).p_stream j) ∧
      (update_stream_run w 3 bits_to_add_2p5mhz a).bit_in_byte = 0 ∧
      ws2812b_update_stream_2p5mhz_stored w a = (List.range (3 * a.buffer_sz)).reverse ∧
      (∀ i, i < a.buffer_sz →
        ref_decode_2p5mhz (ws2812b_update_stream_2p5mhz w a).p_stream i = a.p_buffer i) ∧
      (∀ a2 : ws2812b_t, a2.init_state = WS2812B_INIT_2p5MHz →
        a2.buffer_sz = a.buffer_sz → (∀ i, i < a.buffer_sz → a2.p_buffer i < 256) →
        (∀ k, k < 3 * a.buffer_sz →
          (ws2812b_update_stream_2p5mhz w a2).p_stream k
            = (ws2812b_update_stream_2p5mhz w a).p_stream k) →
        ∀ i, i < a.buffer_sz → a2.p_buffer i = a.p_buffer i)) ∧
    ((∀ i j, i < b.buffer_sz → j < 6 →
        (ws2812b_update_stream_5mhz w b).p_stream (6 * i + j)
          = (ws2812b_update_stream_5mhz w
              (strip_of 1 1 6 (fun _ => b.p_buffer i) WS2812B_INIT_5MHz)).p_stream j) ∧
      (update_stream_run w 6 bits_to_add_5mhz b).bit_in_byte = 0 ∧
      ws2812b_update_stream_5mhz_stored w b = (List.range (6 * b.buffer_sz)).reverse ∧
      (∀ i, i < b.buffer_sz →
        ref_decode_5mhz (ws2812b_update_stream_5mhz w b).p_stream i = b.p_buffer i) ∧
      (∀ b2 : ws2812b_t, b2.init_state = WS2812B_INIT_5MHz →
        b2.buffer_sz = b.buffer_sz → (∀ i, i < b.buffer_sz → b2.p_buffer i < 256) →
        (∀ k, k < 6 * b.buffer_sz →
          (ws2812b_update_stream_5mhz w b2).p_stream k
            = (ws2812b_update_stream_5mhz w b).p_stream k) →
        ∀ i, i < b.buffer_sz → b2.p_buffer i = b.p_buffer i)) := by
  have hdeca : ∀ s : ws2812b_t, s.init_state = WS2812B_INIT_2p5MHz →
      3 * s.buffer_sz < 2 ^ w → ∀ i, i < s.buffer_sz → s.p_buffer i < 256 →
      ref_decode_2p5mhz (ws2812b_update_stream_2p5mhz w s).p_stream i = s.p_buffer i := by
    intro s hs hw i hi h8
    simp only [ws2812b_update_stream_2p5mhz, if_pos hs]
    exact decode_run_2p5mhz w s hw i hi h8
  have hdecb : ∀ s : ws2812b_t, s.init_state = WS2812B_INIT_5MHz →
      6 * s.buffer_sz < 2 ^ w → ∀ i, i < s.buffer_sz → s.p_buffer i < 256 →
      ref_decode_5mhz (ws2812b_update_stream_5mhz w s).p_stream i = s.p_buffer i := by
    intro s hs hw i hi h8
    simp only [ws2812b_update_stream_5mhz, if_pos hs]
    exact decode_run_5mhz w s hw i hi h8
  constructor
  · refine ⟨?_, ?_, update_stream_2p5mhz_stored_eq w a ha hwa, ?_, ?_⟩
    · intro i j hi hj
      have hst : (strip_of 1 1 3 (fun _ => a.p_buffer i) WS2812B_INIT_2p5MHz).init_state
          = WS2812B_INIT_2p5MHz := rfl
      simp only [ws2812b_update_stream_2p5mhz, if_pos ha, if_pos hst]
      exact update_stream_run_single w 3 _ bits_to_add_2p5mhz_le_one (by decide) a hwa i j
        hi hj _
    · have hinv := update_stream_run_inv w 3 _ bits_to_add_2p5mhz_le_one a hwa
      rw [hinv.1, pushed_length, Nat.mul_assoc]
      exact Nat.mul_mod_right _ _
    · intro i hi
      exact hdeca a ha hwa i hi (ha8 i hi)
    · intro a2 ha2 hsz h8 hout i hi
      rw [← hdeca a2 ha2 (by rw [hsz]; exact hwa) i (by rw [hsz]; exact hi) (h8 i hi),
        ← hdeca a ha hwa i hi (ha8 i hi)]
      exact decode_congr_2p5mhz _ _ a.buffer_sz i hi hout
  · refine ⟨?_, ?_, update_stream_5mhz_stored_eq w b hb hwb, ?_, ?_⟩
    · intro i j hi hj
      have hst : (strip_of 1 1 6 (fun _ => b.p_buffer i) WS2812B_INIT_5MHz).init_state
          = WS2812B_INIT_5MHz := rfl
      simp only [ws2812b_update_stream_5mhz, if_pos hb, if_pos hst]
      exact update_stream_run_single w 6 _ bits_to_add_5mhz_le_one (by decide) b hwb i j
        hi hj _
    · have hinv := update_stream_run_inv w 6 _ bits_to_add_5mhz_le_one b hwb
      rw [hinv.1, pushed_length, Nat.mul_assoc]
      exact Nat.mul_mod_right _ _
    · intro i hi
      exact hdecb b hb hwb i hi (hb8 i hi)
    · intro b2 hb2 hsz h8 hout i hi
      rw [← hdecb b2 hb2 (by rw [hsz]; exact hwb) i (by rw [hsz]; exact hi) (h8 i hi),
        ← hdecb b hb hwb i hi (hb8 i hi)]
      exact decode_congr_5mhz _ _ b.buffer_sz i hi hout

/-- Witness for C28: the colour bytes `0xA5, 0x3C` are read back from both
waveforms. -/
theorem encoder_lossless_and_local_witness :
    two_byte_strip_2p5mhz.init_state = WS2812B_INIT_2p5MHz ∧
    3 * two_byte_strip_2p5mhz.buffer_sz < 2 ^ 32 ∧
    (∀ i, i < two_byte_strip_2p5mhz.buffer_sz → two_byte_strip_2p5mhz.p_buffer i < 256) ∧
    two_byte_strip_5mhz.init_state = WS2812B_INIT_5MHz ∧
    6 * two_byte_strip_5mhz.buffer_sz < 2 ^ 32 ∧
    (∀ i, i < two_byte_strip_5mhz.buffer_sz → two_byte_strip_5mhz.p_buffer i < 256) ∧
    ref_decode_2p5mhz (ws2812b_update_stream_2p5mhz 32 two_byte_strip_2p5mhz).p_stream 0
      = 0xA5 ∧
    ref_decode_5mhz (ws2812b_update_stream_5mhz 32 two_byte_strip_5mhz).p_stream 1 = 0x3C :=
  ⟨rfl, by decide, by decide, rfl, by decide, by decide,
    (encoder_lossless_and_local 32 two_byte_strip_2p5mhz two_byte_strip_5mhz
      rfl (by decide) (by decide) rfl (by decide) (by decide)).1.2.2.2.1 0 (by decide),
    (encoder_lossless_and_local 32 two_byte_strip_2p5mhz two_byte_strip_5mhz
      rfl (by decide) (by decide) rfl (by decide) (by decide)).2.2.2.2.1 1 (by decide)⟩

/-- C29: let `a` be a strip in state 2.5 MHz and `b` a strip in state 5 MHz
with the same colour buffer, the waveform length `6 * buffer_sz` being a
`size_t` value.  The 2.5 MHz encoder stores the `3 * buffer_sz` bytes of its
waveform, the 5 MHz encoder the `6 * buffer_sz` bytes of its own, and bit `m`
of the 5 MHz waveform unpacked MSB-first is bit `m / 2` of the 2.5 MHz
waveform unpacked MSB-first: every bit is repeated twice. -/
theorem waveform_5mhz_doubles_2p5mhz (w : Nat) (a b : ws2812b_t)
    (ha : a.init_state = WS2812B_INIT_2p5MHz) (hb : b.init_state = WS2812B_INIT_5MHz)
    (hsz : b.buffer_sz = a.buffer_sz)
    (hbuf : ∀ i, i < a.buffer_sz → b.p_buffer i = a.p_buffer i)
    (hw : 6 * a.buffer_sz < 2 ^ w) :
    ws2812b_update_stream_2p5mhz_stored w a = (List.range (3 * a.buffer_sz)).reverse ∧
    ws2812b_update_stream_5mhz_stored w b = (List.range (6 * a.buffer_sz)).reverse ∧
    ∀ m, m < 8 * (6 * a.buffer_sz) →
      unpacked_bit (ws2812b_update_stream_5mhz w b).p_stream m
        = unpacked_bit (ws2812b_update_stream_2p5mhz w a).p_stream (m / 2) := by
  have hwa : 3 * a.buffer_sz < 2 ^ w := by omega
  have hwb : 6 * b.buffer_sz < 2 ^ w := by rw [hsz]; exact hw
  refine ⟨update_stream_2p5mhz_stored_eq w a ha hwa, ?_, ?_⟩
  · rw [update_stream_5mhz_stored_eq w b hb hwb, hsz]
  · intro m hm
    simp only [ws2812b_update_stream_5mhz, if_pos hb, ws2812b_update_stream_2p5mhz, if_pos ha]
    rw [update_stream_run_bit w 6 _ bits_to_add_5mhz_le_one b hwb m (by rw [hsz]; exact hm),
      update_stream_run_bit w 3 _ bits_to_add_2p5mhz_le_one a hwa (m / 2) (by omega),
      hsz, pushed_congr 6 _ b.p_buffer a.p_buffer a.buffer_sz hbuf, pushed_5mhz_double]
    exact getD_flatMap_double _ m

/-- Witness for C29: the colour bytes `0xA5, 0x3C` at both speeds; bit 14 of
the 5 MHz waveform is bit 7 of the 2.5 MHz waveform. -/
theorem waveform_5mhz_doubles_2p5mhz_witness :
    two_byte_strip_2p5mhz.init_state = WS2812B_INIT_2p5MHz ∧
    two_byte_strip_5mhz.init_state = WS2812B_INIT_5MHz ∧
    two_byte_strip_5mhz.buffer_sz = two_byte_strip_2p5mhz.buffer_sz ∧
    (∀ i, i < two_byte_strip_2p5mhz.buffer_sz →
      two_byte_strip_5mhz.p_buffer i = two_byte_strip_2p5mhz.p_buffer i) ∧
    6 * two_byte_strip_2p5mhz.buffer_sz < 2 ^ 32 ∧
    unpacked_bit (ws2812b_update_stream_5mhz 32 two_byte_strip_5mhz).p_stream 14
      = unpacked_bit (ws2812b_update_stream_2p5mhz 32 two_byte_strip_2p5mhz).p_stream 7 :=
  ⟨rfl, rfl, rfl, fun _ _ => rfl, by decide,
    (waveform_5mhz_doubles_2p5mhz 32 two_byte_strip_2p5mhz two_byte_strip_5mhz
      rfl rfl rfl (fun _ _ => rfl) (by decide)).2.2 14 (by decide)⟩

end WS2812B
